import Mathlib

/-!
# The dset-split VOL connector: name synthesis and the external-link record

A shallow embedding of `src/H5VLdsetsplit.c`.  Bytes are natural numbers,
a memory object is the list of its bytes, and a pointer into an object is
the list of bytes from the pointed position to the end of the object.  An
access outside an object is undefined behaviour in C; the embedding reports
it as `none`.
-/

namespace DsetSplit

/-- The byte values of an ASCII text. -/
def ascii (s : String) : List Nat := s.toList.map Char.toNat

/-- The memory image of a C string: its bytes followed by the terminator. -/
def cstr (s : List Nat) : List Nat := s ++ [0]

/-! ## Memory objects and the routines of `<string.h>`, `<stdlib.h>` -/

/-- The C string found at a pointer: the bytes before the first NUL.
`none` when the object ends before a NUL is met. -/
def cstring : List Nat → Option (List Nat)
  | [] => none
  | c :: rest => if c = 0 then some [] else (cstring rest).map (c :: ·)

/-- The length `strlen` reports for the string at a pointer. -/
def strlen (s : List Nat) : Option Nat := (cstring s).map List.length

/-- A zero-filled object of `nmemb * size` bytes. -/
def calloc (nmemb size : Nat) : List Nat := List.replicate (nmemb * size) 0

/-- Overwrite the bytes of `buf` from offset `p` on with `bytes`;
`none` when the write would pass the end of the object. -/
def store (buf : List Nat) (p : Nat) (bytes : List Nat) : Option (List Nat) :=
  if p + bytes.length ≤ buf.length then
    some (buf.take p ++ bytes ++ buf.drop (p + bytes.length))
  else none

/-- The call `strcpy(dst + p, src)`: the string at `src` and its terminator. -/
def strcpy (dst : List Nat) (p : Nat) (src : List Nat) : Option (List Nat) :=
  match cstring src with
  | none => none
  | some s => store dst p (s ++ [0])

/-- The call `strncpy(dst + p, src, n)`: exactly `n` bytes are written, the
bytes of the source string up to its terminator or up to `n` bytes, padded
with zeros. -/
def strncpy (dst : List Nat) (p : Nat) (src : List Nat) (n : Nat) : Option (List Nat) :=
  let s := (src.take n).takeWhile (· ≠ 0)
  if s.length < n ∧ src.length ≤ s.length then none
  else store dst p (s ++ List.replicate (n - s.length) 0)

/-! ## The external-link record (`dset_split_extlink_create`, lines 398-413) -/

/-- Version of external link format. -/
def H5L_EXT_VERSION : Nat := 0

/-- Valid flags for external links. -/
def H5L_EXT_FLAGS_ALL : Nat := 0

/-- The encoding part of `dset_split_extlink_create`: the buffer
`ext_link_buf` and the length `buf_size` that are handed to link creation. -/
def extlink_encode (file_name dsetname : List Nat) : Option (List Nat × Nat) :=
  match strlen file_name, strlen (cstr (ascii "/")), strlen dsetname with
  | some flen, some slash_len, some dlen =>
    let file_name_len := flen + 1
    let obj_name_len := slash_len + 1 + dlen + 1
    let buf_size := 1 + file_name_len + obj_name_len
    let ext_link_buf := calloc buf_size 1
    -- *p++ = (H5L_EXT_VERSION << 4) | H5L_EXT_FLAGS_ALL;
    let p := 0
    match store ext_link_buf p [(H5L_EXT_VERSION <<< 4) ||| H5L_EXT_FLAGS_ALL] with
    | none => none
    | some buf1 =>
      let p := p + 1
      -- strncpy((char *)p, file_name, buf_size-1);  p += strlen(file_name) + 1;
      match strncpy buf1 p file_name (buf_size - 1) with
      | none => none
      | some buf2 =>
        let p := p + (flen + 1)
        -- strcpy((char *)p, "/");  p += strlen("/");
        match strcpy buf2 p (cstr (ascii "/")) with
        | none => none
        | some buf3 =>
          let p := p + slash_len
          -- strncpy((char *)p, dsetname, strlen(dsetname));
          match strncpy buf3 p dsetname dlen with
          | none => none
          | some buf4 => some (buf4, buf_size)
  | _, _, _ => none

/-! ## Tokenising and searching (`strtok`, `strstr`) -/

/-- The call `strtok` with delimiter set `delim`, the scan starting at
offset `s` of the object `mem` (the argument of a first call, the saved
position of a later call).  Leading delimiters are skipped; when the string
ends there the result is NULL; otherwise the token runs to the next
delimiter, which is overwritten with NUL, or to the end of the string.
Result: the token's offset or NULL, the object after the call, and the
position saved for the next call. -/
def strtok (mem : List Nat) (s : Nat) (delim : List Nat) :
    Option (Option Nat × List Nat × Nat) :=
  match cstring (mem.drop s) with
  | none => none
  | some str =>
    let k := (str.takeWhile (fun c => decide (c ∈ delim))).length
    let rest := str.drop k
    if rest = [] then some (none, mem, s + k)
    else
      let n := (rest.takeWhile (fun c => decide (c ∉ delim))).length
      if n = rest.length then some (some (s + k), mem, s + k + n)
      else some (some (s + k), mem.set (s + k + n) 0, s + k + n + 1)

/-- Offset of the first occurrence of `needle` in `hay`, if there is one. -/
def find_sub (needle : List Nat) : List Nat → Option Nat
  | [] => if needle = [] then some 0 else none
  | c :: hay =>
    if needle.isPrefixOf (c :: hay) then some 0
    else (find_sub needle hay).map (· + 1)

/-- The call `strstr(hay, needle)`: offset of the first occurrence of the
string `needle` in the string `hay`, or NULL. -/
def strstr (hay needle : List Nat) : Option (Option Nat) :=
  match cstring hay, cstring needle with
  | some h, some n => some (find_sub n h)
  | _, _ => none

/-! ## `sprintf` -/

/-- Decimal digits of `n`, most significant first (`fuel` bounds the number
of digits after the first). -/
def decDigits : Nat → Nat → List Nat
  | 0, n => [48 + n % 10]
  | fuel + 1, n => if n < 10 then [48 + n] else decDigits fuel (n / 10) ++ [48 + n % 10]

/-- The text printed for a natural number. -/
def decimalNat (n : Nat) : List Nat := decDigits n n

/-- The text printed by `%ld`. -/
def decimal : Int → List Nat
  | Int.ofNat n => decimalNat n
  | Int.negSucc n => 45 :: decimalNat (n + 1)

/-- An argument of a formatted print. -/
inductive FmtArg where
  | str (p : List Nat)
  | long (v : Int)
  | uint (v : Nat)

/-- Expansion of a format string with the conversions `%s`, `%ld` and `%u`. -/
def format_expand : List Nat → List FmtArg → Option (List Nat)
  | [], _ => some []
  | 37 :: 115 :: fmt, FmtArg.str p :: args =>
    match cstring p, format_expand fmt args with
    | some s, some r => some (s ++ r)
    | _, _ => none
  | 37 :: 108 :: 100 :: fmt, FmtArg.long v :: args =>
    (format_expand fmt args).map (decimal v ++ ·)
  | 37 :: 117 :: fmt, FmtArg.uint v :: args =>
    (format_expand fmt args).map (decimalNat (v % 2 ^ 32) ++ ·)
  | 37 :: _, _ => none
  | c :: fmt, args => (format_expand fmt args).map (c :: ·)

/-- The call `sprintf(buf, fmt, args...)`: the expansion and its terminator
are written at the start of `buf`. -/
def sprintf (buf : List Nat) (fmt : List Nat) (args : List FmtArg) : Option (List Nat) :=
  match format_expand fmt args with
  | none => none
  | some s => store buf 0 (s ++ [0])

/-! ## Leaf name and parent base -/

/-- The loop of `get_dataset_name`: `while (p != NULL) { temp = p; p = strtok(NULL, "/"); }`.
`fuel` bounds the number of iterations. -/
def get_dataset_name_loop :
    Nat → List Nat → Nat → Option Nat → Option Nat → Option (Option Nat × List Nat)
  | _, mem, _, none, temp => some (temp, mem)
  | 0, _, _, some _, _ => none
  | fuel + 1, mem, save, some p, _ =>
    match strtok mem save (ascii "/") with
    | none => none
    | some (p', mem', save') => get_dataset_name_loop fuel mem' save' p' (some p)

/-- The function `get_dataset_name(path)`: the pointer it returns, as an
offset into the object `path` (or NULL), and the object as `strtok` left
it.  `none`: undefined behaviour (or the iteration bound was reached, which
`get_dataset_name_spec` excludes). -/
def get_dataset_name (path : List Nat) : Option (Option Nat × List Nat) :=
  match strtok path 0 (ascii "/") with
  | none => none
  | some (p, mem, save) => get_dataset_name_loop path.length mem save p p

/-- The string the result of `get_dataset_name` points to, for a path given
as text: the copy `temp_path` is made as in lines 1471-1478. -/
def leaf_of (name : List Nat) : Option (Option (List Nat)) :=
  match get_dataset_name (cstr name) with
  | none => none
  | some (none, _) => some none
  | some (some off, mem) => (cstring (mem.drop off)).map some

/-- The function `dset_get_normalized_name(name)`: the object `name` after
the call. -/
def dset_get_normalized_name (name : List Nat) : Option (List Nat) :=
  match strstr name (cstr (ascii ".h5")) with
  | none => none
  | some none => some name
  | some (some temp) => some (name.set temp 0)

/-! ## The underlying library

The connector calls the HDF5 library and, through it, the underlying VOL
connector.  Their answers are the fields of `Backend`; the calls made are
recorded, in program order, as a list of `Call`.  Identifiers (`hid_t`),
status codes (`herr_t`) and `H5I_type_t` values are integers, object
pointers are natural numbers. -/

/-- The value `H5I_INVALID_HID`. -/
def H5I_INVALID_HID : Int := -1

/-- The value `H5I_FILE` of `H5I_type_t`. -/
def H5I_FILE : Int := 1

/-- The value `H5I_GROUP` of `H5I_type_t`. -/
def H5I_GROUP : Int := 2

/-- The value `H5I_DATASET` of `H5I_type_t`. -/
def H5I_DATASET : Int := 5

/-- The value `H5P_DEFAULT`. -/
def H5P_DEFAULT : Int := 0

/-- The file-creation flag `H5F_ACC_TRUNC`. -/
def H5F_ACC_TRUNC : Nat := 2

/-- The link class `H5L_TYPE_EXTERNAL`. -/
def H5L_TYPE_EXTERNAL : Int := 64

/-- The string `FILE_EXTENTION`. -/
def FILE_EXTENTION : List Nat := ascii ".split"

/-- The string `ATTRIBUTE_NAME`. -/
def ATTRIBUTE_NAME : List Nat := ascii "split_file"

/-- The value `(size_t)-1`, for a `size_t` of 64 bits. -/
def SIZE_MAX : Nat := 2 ^ 64 - 1

/-- How a location is addressed (`H5VL_loc_type_t`). -/
inductive LocType where
  | H5VL_OBJECT_BY_SELF
  | H5VL_OBJECT_BY_NAME
deriving DecidableEq, Repr

/-- The kind of link creation (`H5VL_link_create_t`). -/
inductive LinkOp where
  | H5VL_LINK_CREATE_HARD
  | H5VL_LINK_CREATE_SOFT
  | H5VL_LINK_CREATE_UD
deriving DecidableEq, Repr

/-- The dataspace class (`H5S_class_t`). -/
inductive SpaceClass where
  | H5S_SCALAR
  | H5S_SIMPLE
  | H5S_NULL
deriving DecidableEq, Repr

/-- The object `H5VL_dset_split_t`. -/
structure H5VL_dset_split_t where
  under_vol_id : Int
  under_object : Nat
  type : Int
  fid : Int
  set : Int
deriving DecidableEq, Repr

/-- What a `H5VLlink_create` call receives: the link arguments, the object,
the location parameters, the connector and the property lists. -/
structure LinkCreate where
  op_type : LinkOp
  ud_type : Int
  ud_buf : List Nat
  ud_buf_size : Nat
  vol_obj : Nat
  loc_type : LocType
  loc_name : List Nat
  loc_lapl_id : Int
  loc_obj_type : Int
  connector_id : Int
  lcpl_id : Int
  lapl_id : Int
  dxpl_id : Int
deriving DecidableEq, Repr

/-- What a `H5VLdataset_create` call receives. -/
structure DatasetCreate where
  obj : Nat
  loc_type : LocType
  loc_obj_type : Int
  connector_id : Int
  name : List Nat
  lcpl_id : Int
  type_id : Int
  space_id : Int
  dcpl_id : Int
  dapl_id : Int
  dxpl_id : Int
deriving DecidableEq, Repr

/-- A call into the library, with the arguments it receives; a string
argument is recorded by its text. -/
inductive Call where
  | H5VLfile_get_name (obj : Nat) (connector_id : Int) (type : Int)
      (buf_given : Bool) (buf_size : Nat)
  | H5VLobject_get_file (obj : Nat) (loc_type : LocType) (obj_type : Int) (connector_id : Int)
  | H5VLfile_get_fcpl (file_obj : Nat) (connector_id : Int)
  | H5VLfile_get_fapl (file_obj : Nat) (connector_id : Int)
  | H5Pcopy (plist_id : Int)
  | H5Fcreate (name : List Nat) (flags : Nat) (fcpl_id fapl_id : Int)
  | H5Pclose (plist_id : Int)
  | H5VLobject (id : Int)
  | H5Tcopy (type_id : Int)
  | H5Screate (cls : SpaceClass)
  | H5Acreate (loc_id : Int) (name : List Nat) (type_id space_id acpl_id aapl_id : Int)
  | H5Awrite (attr_id type_id : Int) (value : Int)
  | H5Sclose (space_id : Int)
  | H5Aclose (attr_id : Int)
  | H5VLdataset_create (args : DatasetCreate)
  | H5VLlink_create (args : LinkCreate)
  | H5Iinc_ref (id : Int)
  | H5Idec_ref (id : Int)
  | H5VLdataset_open (obj : Nat) (connector_id : Int) (name : List Nat)
  | H5VLdataset_close (dset : Nat) (connector_id : Int)
  | H5Fclose (file_id : Int)
  | H5VLattr_close (attr : Nat) (connector_id : Int)
  | H5VLfile_close (file : Nat) (connector_id : Int)
  | H5VLget_value (connector_id : Int)
  | H5VLconnector_info_to_str (info : Nat) (connector_id : Int)
deriving DecidableEq, Repr

/-- The answers of the library and of the underlying connector. -/
structure Backend where
  /-- The name of the container that holds an object of a given kind;
  `none`: the name query (`H5VLfile_get`, `H5VL_FILE_GET_NAME`) fails. -/
  file_name : Nat → Int → Option (List Nat)
  /-- The value of `time(NULL)`. -/
  time : Int
  /-- The file object that holds an object; `none`: `H5VLobject_get` fails. -/
  object_file : Nat → Option Nat
  /-- The creation property list of a file; `none`: the query fails. -/
  file_fcpl : Nat → Option Int
  /-- The access property list of a file; `none`: the query fails. -/
  file_fapl : Nat → Option Int
  H5Pcopy : Int → Int
  H5Fcreate : List Nat → Nat → Int → Int → Int
  H5VLobject : Int → Nat
  H5Tcopy : Int → Int
  H5Screate : SpaceClass → Int
  H5Acreate : Int → List Nat → Int → Int → Int
  H5Awrite : Int → Int → Int → Int
  H5VLdataset_create : DatasetCreate → Option Nat
  H5VLlink_create : LinkCreate → Int
  /-- The dataset `H5VLdataset_open` returns for an object, a connector, a
  name and the two property lists; `none`: NULL. -/
  H5VLdataset_open : Nat → Int → List Nat → Int → Int → Option Nat
  /-- The status of `H5VLdataset_close` for a dataset, a connector and a
  transfer property list. -/
  H5VLdataset_close : Nat → Int → Int → Int
  H5Fclose : Int → Int
  /-- The status of `H5VLattr_close` for an attribute, a connector and a
  transfer property list. -/
  H5VLattr_close : Nat → Int → Int → Int
  /-- The status of `H5VLfile_close` for a file, a connector and a transfer
  property list. -/
  H5VLfile_close : Nat → Int → Int → Int
  /-- The value `H5VLget_value` stores for a connector; `none`: the call
  fails and stores nothing. -/
  H5VLget_value : Int → Option Int
  /-- The string `H5VLconnector_info_to_str` hands back for an info object
  and a connector; `none`: it leaves the pointer NULL. -/
  H5VLconnector_info_to_str : Nat → Int → Option (List Nat)
  H5T_NATIVE_INT32 : Int
  H5P_LINK_CREATE_DEFAULT : Int
  H5P_DATASET_XFER_DEFAULT : Int

/-! ## Helper functions of the connector -/

/-- The function `dset_split_extlink_create`: its return value and the call
it makes. -/
def dset_split_extlink_create (b : Backend) (file_name dsetname obj_name : List Nat)
    (loc_obj_type : Int) (vol_obj : Nat) (connector_id lcpl_id lapl_id dxpl_id : Int) :
    Option (Int × List Call) :=
  match extlink_encode file_name dsetname, cstring obj_name with
  | some (ext_link_buf, buf_size), some obj_text =>
    let link : LinkCreate :=
      { op_type := LinkOp.H5VL_LINK_CREATE_UD
        ud_type := H5L_TYPE_EXTERNAL
        ud_buf := ext_link_buf
        ud_buf_size := buf_size
        vol_obj := vol_obj
        loc_type := LocType.H5VL_OBJECT_BY_NAME
        loc_name := obj_text
        loc_lapl_id := lapl_id
        loc_obj_type := loc_obj_type
        connector_id := connector_id
        lcpl_id := lcpl_id
        lapl_id := lapl_id
        dxpl_id := dxpl_id }
    some (b.H5VLlink_create link, [Call.H5VLlink_create link])
  | _, _ => none

/-- The function `get_parent_file_fapl`. -/
def get_parent_file_fapl (b : Backend) (file_obj : Nat) (connector_id : Int) :
    Int × List Call :=
  match b.file_fapl file_obj with
  | none => (H5I_INVALID_HID, [Call.H5VLfile_get_fapl file_obj connector_id])
  | some fapl_id => (fapl_id, [Call.H5VLfile_get_fapl file_obj connector_id])

/-- The function `get_parent_file_fcpl`. -/
def get_parent_file_fcpl (b : Backend) (file_obj : Nat) (connector_id : Int) :
    Int × List Call :=
  match b.file_fcpl file_obj with
  | none => (H5I_INVALID_HID, [Call.H5VLfile_get_fcpl file_obj connector_id])
  | some fcpl_id => (fcpl_id, [Call.H5VLfile_get_fcpl file_obj connector_id])

/-- The function `get_file_name`: its return value, the buffer `name`
after the call, and the call made.  On success the library stores the
name, cut to `size - 1` bytes and terminated, in a buffer that is given, and
reports the full length of the name; on failure the return value is
`(size_t)-1`. -/
def get_file_name (b : Backend) (obj : Nat) (connector_id : Int) (type : Int)
    (name : Option (List Nat)) (size : Nat) : Option (Nat × Option (List Nat) × List Call) :=
  let query := Call.H5VLfile_get_name obj connector_id type name.isSome size
  match b.file_name obj type with
  | none => some (SIZE_MAX, name, [query])
  | some n =>
    match name with
    | none => some (n.length, none, [query])
    | some buf =>
      if size = 0 then none
      else
        match store buf 0 (n.take (size - 1) ++ [0]) with
        | none => none
        | some buf' => some (n.length, some buf', [query])

/-- The function `dset_split_file_create`: the identifier it returns and
the calls it makes. -/
def dset_split_file_create (b : Backend) (name : List Nat) (obj : Nat) (obj_type : Int)
    (connector_id : Int) : Option (Int × List Call) :=
  let get_file := Call.H5VLobject_get_file obj LocType.H5VL_OBJECT_BY_SELF obj_type connector_id
  match b.object_file obj with
  | none => some (H5I_INVALID_HID, [get_file])
  | some vol_obj_file =>
    let (pfcpl_id, calls_fcpl) := get_parent_file_fcpl b vol_obj_file connector_id
    let fcpl_id := b.H5Pcopy pfcpl_id
    let (pfapl_id, calls_fapl) := get_parent_file_fapl b vol_obj_file connector_id
    let fapl_id := b.H5Pcopy pfapl_id
    match cstring name with
    | none => none
    | some text =>
      let file_id := b.H5Fcreate text H5F_ACC_TRUNC fcpl_id fapl_id
      some (file_id,
        [get_file] ++ calls_fcpl ++ [Call.H5Pcopy pfcpl_id] ++ calls_fapl
          ++ [Call.H5Pcopy pfapl_id,
              Call.H5Fcreate text H5F_ACC_TRUNC fcpl_id fapl_id,
              Call.H5Pclose fapl_id, Call.H5Pclose pfapl_id,
              Call.H5Pclose fcpl_id, Call.H5Pclose pfcpl_id])

/-- The function `dset_split_create_attribute`: the status it returns and
the calls it makes. -/
def dset_split_create_attribute (b : Backend) (file_id : Int) : Int × List Call :=
  let value : Int := 1
  let intType := b.H5Tcopy b.H5T_NATIVE_INT32
  let valueSpace := b.H5Screate SpaceClass.H5S_SCALAR
  let attr := b.H5Acreate file_id ATTRIBUTE_NAME intType valueSpace
  let status := b.H5Awrite attr intType value
  (status,
    [Call.H5Tcopy b.H5T_NATIVE_INT32, Call.H5Screate SpaceClass.H5S_SCALAR,
     Call.H5Acreate file_id ATTRIBUTE_NAME intType valueSpace H5P_DEFAULT H5P_DEFAULT,
     Call.H5Awrite attr intType value, Call.H5Sclose valueSpace, Call.H5Aclose attr])

/-- The function `H5VL_dset_split_new_dataset_obj`. -/
def H5VL_dset_split_new_dataset_obj (under_obj : Nat) (under_vol_id : Int) (fid : Int)
    (type : Int) : H5VL_dset_split_t × List Call :=
  ({ under_object := under_obj, under_vol_id := under_vol_id, fid := fid, type := type,
     set := 1 },
   [Call.H5Iinc_ref under_vol_id])

/-- The function `H5VL_dset_split_new_obj`; the fields it does not assign
keep the zero of `calloc`. -/
def H5VL_dset_split_new_obj (under_obj : Nat) (under_vol_id : Int) :
    H5VL_dset_split_t × List Call :=
  ({ under_object := under_obj, under_vol_id := under_vol_id, fid := 0, type := 0, set := 0 },
   [Call.H5Iinc_ref under_vol_id])

/-! ## `H5VL_dset_split_dataset_create`

The macros `FUNC_ENTER_VOL`, `HGOTO_ERROR`, `FUNC_RETURN_SET` and
`FUNC_LEAVE_VOL` come from `H5VLerror.h`: `HGOTO_ERROR` records an error,
sets the return value given to it and leaves through `done`, where the
function returns that value.  Memory allocation is taken to succeed. -/

/-- Lines 1457-1469: the object `parent_name` and the calls made. -/
def dataset_create_parent_name (b : Backend) (o : H5VL_dset_split_t) (loc_obj_type : Int) :
    Option (List Nat × List Call) :=
  match get_file_name b o.under_object o.under_vol_id loc_obj_type none 0 with
  | none => none
  | some (size, _, calls1) =>
    if size > 0 then
      -- parent_name = calloc(size + 1, sizeof(char)), in `size_t` arithmetic
      let size1 := (size + 1) % (SIZE_MAX + 1)
      match get_file_name b o.under_object o.under_vol_id loc_obj_type
          (some (calloc size1 1)) size1 with
      | some (_, some parent_name, calls2) =>
        match dset_get_normalized_name parent_name with
        | none => none
        | some parent_name => some (parent_name, calls1 ++ calls2)
      | _ => none
    else
      match strcpy (calloc 6 1) 0 (cstr (ascii "Split")) with
      | none => none
      | some parent_name => some (parent_name, calls1)

/-- Lines 1471-1482: the copy `temp_path` of the path, the leaf pointer
`dsetname` and the formatted `file_name[1000]`.  Result: NULL leaf, or the
pointer `dsetname` and the object `file_name`. -/
def dataset_create_file_name (parent_name name : List Nat) (now : Int) :
    Option (Option (List Nat × List Nat)) :=
  match strlen name with
  | none => none
  | some len =>
    match strcpy (calloc (len + 1) 1) 0 name with
    | none => none
    | some temp_path =>
      match get_dataset_name temp_path with
      | none => none
      | some (none, _) => some none
      | some (some off, temp_path) =>
        let dsetname := temp_path.drop off
        match sprintf (List.replicate 1000 0) (ascii "%s-%s-%ld%s")
            [FmtArg.str parent_name, FmtArg.str dsetname, FmtArg.long now,
             FmtArg.str (cstr FILE_EXTENTION)] with
        | none => none
        | some file_name => some (some (dsetname, file_name))

/-- The outcome of a dataset create: the calls made, the object returned
(or NULL) and the wrapped request, when there is one. -/
structure CreateResult where
  calls : List Call
  ret : Option H5VL_dset_split_t
  req : Option H5VL_dset_split_t
deriving DecidableEq, Repr

/-- The function `H5VL_dset_split_dataset_create`.  `req` is the request
the underlying create left in `*req`, when `req` is given and one was left.
`none`: undefined behaviour. -/
def H5VL_dset_split_dataset_create (b : Backend) (o : H5VL_dset_split_t) (loc_obj_type : Int)
    (name : List Nat) (lcpl_id type_id space_id dcpl_id dapl_id dxpl_id : Int)
    (req : Option Nat) : Option CreateResult :=
  match dataset_create_parent_name b o loc_obj_type with
  | none => none
  | some (parent_name, calls1) =>
    match dataset_create_file_name parent_name name b.time with
    | none => none
    | some none => some { calls := calls1, ret := none, req := none }
    | some (some (dsetname, file_name)) =>
      match dset_split_file_create b file_name o.under_object loc_obj_type o.under_vol_id with
      | none => none
      | some (file_id, calls2) =>
        if file_id < 0 then some { calls := calls1 ++ calls2, ret := none, req := none }
        else
          let file_under := b.H5VLobject file_id
          let calls3 := calls1 ++ calls2 ++ [Call.H5VLobject file_id]
            ++ (dset_split_create_attribute b file_id).2
          if (dset_split_create_attribute b file_id).1 < 0 then
            some { calls := calls3, ret := none, req := none }
          else
            match cstring dsetname with
            | none => none
            | some leaf =>
              let create : DatasetCreate :=
                { obj := file_under
                  loc_type := LocType.H5VL_OBJECT_BY_SELF
                  loc_obj_type := H5I_FILE
                  connector_id := o.under_vol_id
                  name := leaf
                  lcpl_id := lcpl_id
                  type_id := type_id
                  space_id := space_id
                  dcpl_id := dcpl_id
                  dapl_id := dapl_id
                  dxpl_id := dxpl_id }
              let calls4 := calls3 ++ [Call.H5VLdataset_create create]
              match b.H5VLdataset_create create with
              | none => some { calls := calls4, ret := none, req := none }
              | some dset_under =>
                match dset_split_extlink_create b file_name dsetname name loc_obj_type
                    o.under_object o.under_vol_id b.H5P_LINK_CREATE_DEFAULT
                    b.H5P_LINK_CREATE_DEFAULT b.H5P_DATASET_XFER_DEFAULT with
                | none => none
                | some (ret, calls_link) =>
                  if ret < 0 then
                    some { calls := calls4 ++ calls_link, ret := none, req := none }
                  else
                    let dset :=
                      H5VL_dset_split_new_dataset_obj dset_under o.under_vol_id file_id
                        H5I_DATASET
                    match req with
                    | none =>
                      some { calls := calls4 ++ calls_link ++ dset.2,
                             ret := some dset.1, req := none }
                    | some r =>
                      let wrapped :=
                        H5VL_dset_split_new_dataset_obj r o.under_vol_id file_id H5I_DATASET
                      some { calls := calls4 ++ calls_link ++ dset.2 ++ wrapped.2,
                             ret := some dset.1, req := some wrapped.1 }

/-- The arguments `H5VL_dset_split_dataset_create` gives to
`H5VLdataset_create` (lines 1492-1496), for the child container `file_id`
and the leaf `leaf`. -/
def child_dataset_args (b : Backend) (o : H5VL_dset_split_t) (file_id : Int) (leaf : List Nat)
    (lcpl_id type_id space_id dcpl_id dapl_id dxpl_id : Int) : DatasetCreate :=
  { obj := b.H5VLobject file_id
    loc_type := LocType.H5VL_OBJECT_BY_SELF
    loc_obj_type := H5I_FILE
    connector_id := o.under_vol_id
    name := leaf
    lcpl_id := lcpl_id
    type_id := type_id
    space_id := space_id
    dcpl_id := dcpl_id
    dapl_id := dapl_id
    dxpl_id := dxpl_id }

/-- The arguments `dset_split_extlink_create`, called as in line 1499,
gives to `H5VLlink_create`, for the record `buf` of `size` bytes and the
caller's path `path`. -/
def parent_link_args (b : Backend) (o : H5VL_dset_split_t) (loc_obj_type : Int)
    (buf : List Nat) (size : Nat) (path : List Nat) : LinkCreate :=
  { op_type := LinkOp.H5VL_LINK_CREATE_UD
    ud_type := H5L_TYPE_EXTERNAL
    ud_buf := buf
    ud_buf_size := size
    vol_obj := o.under_object
    loc_type := LocType.H5VL_OBJECT_BY_NAME
    loc_name := path
    loc_lapl_id := b.H5P_LINK_CREATE_DEFAULT
    loc_obj_type := loc_obj_type
    connector_id := o.under_vol_id
    lcpl_id := b.H5P_LINK_CREATE_DEFAULT
    lapl_id := b.H5P_LINK_CREATE_DEFAULT
    dxpl_id := b.H5P_DATASET_XFER_DEFAULT }

/-- The names under which a run created containers, in order. -/
def created_files (calls : List Call) : List (List Nat) :=
  calls.filterMap fun c =>
    match c with
    | Call.H5Fcreate name _ _ _ => some name
    | _ => none

/-! ## `H5VL_dset_split_dataset_open` and `H5VL_dset_split_dataset_close` -/

/-- The outcome of a dataset open: the calls made, the object returned (or
NULL) and the wrapped request, when there is one. -/
structure OpenResult where
  calls : List Call
  ret : Option H5VL_dset_split_t
  req : Option H5VL_dset_split_t
deriving DecidableEq, Repr

/-- The function `H5VL_dset_split_dataset_open`.  `req` is the request the
underlying open left in `*req`, when `req` is given and one was left. -/
def H5VL_dset_split_dataset_open (b : Backend) (o : H5VL_dset_split_t) (name : List Nat)
    (dapl_id dxpl_id : Int) (req : Option Nat) : Option OpenResult :=
  match cstring name with
  | none => none
  | some text =>
    let open_call := Call.H5VLdataset_open o.under_object o.under_vol_id text
    match b.H5VLdataset_open o.under_object o.under_vol_id text dapl_id dxpl_id with
    | none => some { calls := [open_call], ret := none, req := none }
    | some under =>
      let dset := H5VL_dset_split_new_obj under o.under_vol_id
      match req with
      | none => some { calls := [open_call] ++ dset.2, ret := some dset.1, req := none }
      | some r =>
        let wrapped := H5VL_dset_split_new_obj r o.under_vol_id
        some { calls := [open_call] ++ dset.2 ++ wrapped.2, ret := some dset.1,
               req := some wrapped.1 }

/-- The function `H5VL_dset_split_free_obj`: its return value and the call
that changes the reference count (the error stack is saved before it and
restored after it; the wrapper is freed). -/
def H5VL_dset_split_free_obj (obj : H5VL_dset_split_t) : Int × List Call :=
  (0, [Call.H5Idec_ref obj.under_vol_id])

/-- The outcome of a dataset close: the calls made, the value returned,
whether the wrapper was released, and the wrapped request, when there is
one. -/
structure CloseResult where
  calls : List Call
  ret : Int
  released : Bool
  req : Option H5VL_dset_split_t
deriving DecidableEq, Repr

/-- The function `H5VL_dset_split_dataset_close`.  `req` is the request the
underlying close left in `*req`, when `req` is given and one was left. -/
def H5VL_dset_split_dataset_close (b : Backend) (o : H5VL_dset_split_t) (dxpl_id : Int)
    (req : Option Nat) : CloseResult :=
  -- ret_value = H5VLdataset_close(o->under_object, o->under_vol_id, dxpl_id, req);
  let ret_value := b.H5VLdataset_close o.under_object o.under_vol_id dxpl_id
  let calls := [Call.H5VLdataset_close o.under_object o.under_vol_id]
  -- if(o->set) ret_value = H5Fclose(o->fid);
  let ret_value := if o.set ≠ 0 then b.H5Fclose o.fid else ret_value
  let calls := if o.set ≠ 0 then calls ++ [Call.H5Fclose o.fid] else calls
  -- if (req && *req) *req = H5VL_dset_split_new_obj(*req, o->under_vol_id);
  let wrapped := req.map fun r => H5VL_dset_split_new_obj r o.under_vol_id
  let calls := calls ++ (match wrapped with | none => [] | some w => w.2)
  -- if (ret_value >= 0) H5VL_dset_split_free_obj(o);
  if ret_value ≥ 0 then
    { calls := calls ++ (H5VL_dset_split_free_obj o).2, ret := ret_value, released := true,
      req := wrapped.map Prod.fst }
  else
    { calls := calls, ret := ret_value, released := false, req := wrapped.map Prod.fst }

/-- The function `H5VL_dset_split_attr_close`.  `req` is the request the
underlying close left in `*req`, when `req` is given and one was left. -/
def H5VL_dset_split_attr_close (b : Backend) (o : H5VL_dset_split_t) (dxpl_id : Int)
    (req : Option Nat) : CloseResult :=
  -- ret_value = H5VLattr_close(o->under_object, o->under_vol_id, dxpl_id, req);
  let ret_value := b.H5VLattr_close o.under_object o.under_vol_id dxpl_id
  let calls := [Call.H5VLattr_close o.under_object o.under_vol_id]
  -- if (req && *req) *req = H5VL_dset_split_new_obj(*req, o->under_vol_id);
  let wrapped := req.map fun r => H5VL_dset_split_new_obj r o.under_vol_id
  let calls := calls ++ (match wrapped with | none => [] | some w => w.2)
  -- if (ret_value >= 0) H5VL_dset_split_free_obj(o);
  if ret_value ≥ 0 then
    { calls := calls ++ (H5VL_dset_split_free_obj o).2, ret := ret_value, released := true,
      req := wrapped.map Prod.fst }
  else
    { calls := calls, ret := ret_value, released := false, req := wrapped.map Prod.fst }

/-- The function `H5VL_dset_split_file_close`.  `req` is the request the
underlying close left in `*req`, when `req` is given and one was left. -/
def H5VL_dset_split_file_close (b : Backend) (o : H5VL_dset_split_t) (dxpl_id : Int)
    (req : Option Nat) : CloseResult :=
  -- ret_value = H5VLfile_close(o->under_object, o->under_vol_id, dxpl_id, req);
  let ret_value := b.H5VLfile_close o.under_object o.under_vol_id dxpl_id
  let calls := [Call.H5VLfile_close o.under_object o.under_vol_id]
  -- if (req && *req) *req = H5VL_dset_split_new_obj(*req, o->under_vol_id);
  let wrapped := req.map fun r => H5VL_dset_split_new_obj r o.under_vol_id
  let calls := calls ++ (match wrapped with | none => [] | some w => w.2)
  -- if (ret_value >= 0) H5VL_dset_split_free_obj(o);
  if ret_value ≥ 0 then
    { calls := calls ++ (H5VL_dset_split_free_obj o).2, ret := ret_value, released := true,
      req := wrapped.map Prod.fst }
  else
    { calls := calls, ret := ret_value, released := false, req := wrapped.map Prod.fst }

/-! ## `H5VL_dset_split_info_to_str` -/

/-- The connector info `H5VL_dset_split_info_t`. -/
structure H5VL_dset_split_info_t where
  under_vol_id : Int
  under_vol_info : Nat
deriving DecidableEq, Repr

/-- The function `H5VL_dset_split_info_to_str`: the value returned, the
object `*str` after the call and the calls made.  The object that
`H5allocate_memory` hands out has `32 + under_vol_str_len` bytes (shown as
zeros; they are not cleared); `(unsigned)under_value` is the value modulo
`2 ^ 32`. -/
def H5VL_dset_split_info_to_str (b : Backend) (info : H5VL_dset_split_info_t) :
    Option (Int × List Nat × List Call) :=
  -- H5VL_class_value_t under_value = (H5VL_class_value_t)-1;
  let under_value : Int := (b.H5VLget_value info.under_vol_id).getD (-1)
  let under_vol_string := b.H5VLconnector_info_to_str info.under_vol_info info.under_vol_id
  let calls := [Call.H5VLget_value info.under_vol_id,
                Call.H5VLconnector_info_to_str info.under_vol_info info.under_vol_id]
  -- if (under_vol_string) under_vol_str_len = strlen(under_vol_string);
  match (match under_vol_string with
         | none => some 0
         | some s => strlen s) with
  | none => none
  | some under_vol_str_len =>
    let str := List.replicate (32 + under_vol_str_len) 0
    match sprintf str (ascii "under_vol=%u;under_info=\x7b%s\x7d")
        [FmtArg.uint (under_value % 2 ^ 32).toNat,
         FmtArg.str (match under_vol_string with
                     | none => cstr []
                     | some s => s)] with
    | none => none
    | some str => some (0, str, calls)

/-- A dataset handle the connector hands out, and whether it comes from the
split-create path: the object returned by a create, or by an open. -/
inductive DatasetHandle : H5VL_dset_split_t → Bool → Prop where
  | created (b : Backend) (o : H5VL_dset_split_t) (loc_obj_type : Int) (name : List Nat)
      (lcpl_id type_id space_id dcpl_id dapl_id dxpl_id : Int) (req : Option Nat)
      (r : CreateResult) (h : H5VL_dset_split_t) :
      H5VL_dset_split_dataset_create b o loc_obj_type name lcpl_id type_id space_id dcpl_id
        dapl_id dxpl_id req = some r →
      r.ret = some h → DatasetHandle h true
  | opened (b : Backend) (o : H5VL_dset_split_t) (name : List Nat) (dapl_id dxpl_id : Int)
      (req : Option Nat) (r : OpenResult) (h : H5VL_dset_split_t) :
      H5VL_dset_split_dataset_open b o name dapl_id dxpl_id req = some r →
      r.ret = some h → DatasetHandle h false

/-! ## Properties stated in the words of the specification -/

/-- The segment `seg` is the last non-empty segment of the path `p` split
on `/`: a non-empty run without `/`, followed in `p` by `/` characters only,
and preceded by nothing or by a `/`. -/
def LastSegment (p seg : List Nat) : Prop :=
  seg ≠ [] ∧ 47 ∉ seg ∧
    ∃ pre post, p = pre ++ seg ++ post ∧ (∀ c ∈ post, c = 47) ∧
      (pre = [] ∨ ∃ pre', pre = pre' ++ [47])

/-- Reading of an external-link record as the resolver of the underlying
library does it: the version is the high nibble of the first byte, the
flags are the low nibble, the file name is the string after the first byte
and the object path is the string after the terminator of the file name.
Only the `buf_size` bytes of the record are read; `none` when a string is
not terminated inside them. -/
def extlink_decode (buf : List Nat) (buf_size : Nat) :
    Option (Nat × Nat × List Nat × List Nat) :=
  match buf.take buf_size with
  | [] => none
  | b0 :: rest =>
    match cstring rest with
    | none => none
    | some file =>
      match cstring (rest.drop (file.length + 1)) with
      | none => none
      | some path => some (b0 >>> 4, b0 &&& 15, file, path)

/-- The change a call makes to the reference count of the identifier `id`:
`H5Iinc_ref` adds one, `H5Idec_ref` takes one. -/
def ref_change (id : Int) : Call → Int
  | Call.H5Iinc_ref i => if i = id then 1 else 0
  | Call.H5Idec_ref i => if i = id then -1 else 0
  | _ => 0

/-- The net change of the reference count of `id` over a trace. -/
def ref_count (id : Int) (calls : List Call) : Int := (calls.map (ref_change id)).sum

/-- The constructions and releases of objects of the connector: every
operation of the connector builds and releases its objects through these
three functions.  `free_obj k` releases the object at position `k` among the
live ones. -/
inductive HandleOp where
  | new_obj (under_obj : Nat) (under_vol_id : Int)
  | new_dataset_obj (under_obj : Nat) (under_vol_id : Int) (fid : Int) (type : Int)
  | free_obj (k : Nat)
deriving DecidableEq, Repr

/-- The live objects of the connector and the calls made so far. -/
structure Handles where
  live : List H5VL_dset_split_t
  calls : List Call
deriving DecidableEq, Repr

/-- One construction or release.  Releasing an object that is not live is a
use after `free`: `none`. -/
def handle_step (s : Handles) : HandleOp → Option Handles
  | HandleOp.new_obj under_obj under_vol_id =>
    let r := H5VL_dset_split_new_obj under_obj under_vol_id
    some { live := s.live ++ [r.1], calls := s.calls ++ r.2 }
  | HandleOp.new_dataset_obj under_obj under_vol_id fid type =>
    let r := H5VL_dset_split_new_dataset_obj under_obj under_vol_id fid type
    some { live := s.live ++ [r.1], calls := s.calls ++ r.2 }
  | HandleOp.free_obj k =>
    match s.live.get? k with
    | none => none
    | some obj =>
      some { live := s.live.eraseIdx k, calls := s.calls ++ (H5VL_dset_split_free_obj obj).2 }

/-- A sequence of constructions and releases, from a given state. -/
def handle_run : Handles → List HandleOp → Option Handles
  | s, [] => some s
  | s, op :: ops =>
    match handle_step s op with
    | none => none
    | some s' => handle_run s' ops

/-- The number of live objects that hold the identifier `id`. -/
def live_count (id : Int) (live : List H5VL_dset_split_t) : Nat :=
  (live.filter fun h => h.under_vol_id = id).length

/-! ## Sample inputs -/

/-- A backend in which every call succeeds, with the given answer to the
parent name query and the given clock. -/
def sample_backend (name : Option (List Nat)) (now : Int) : Backend :=
  { file_name := fun _ _ => name
    time := now
    object_file := fun _ => some 7
    file_fcpl := fun _ => some 11
    file_fapl := fun _ => some 12
    H5Pcopy := fun id => id + 100
    H5Fcreate := fun _ _ _ _ => 50
    H5VLobject := fun _ => 8
    H5Tcopy := fun _ => 60
    H5Screate := fun _ => 61
    H5Acreate := fun _ _ _ _ => 62
    H5Awrite := fun _ _ _ => 0
    H5VLdataset_create := fun _ => some 9
    H5VLlink_create := fun _ => 0
    H5VLdataset_open := fun _ _ _ _ _ => some 10
    H5VLdataset_close := fun _ _ _ => 0
    H5Fclose := fun _ => 0
    H5VLattr_close := fun _ _ _ => 0
    H5VLfile_close := fun _ _ _ => 0
    H5VLget_value := fun _ => some 0
    H5VLconnector_info_to_str := fun _ _ => none
    H5T_NATIVE_INT32 := 30
    H5P_LINK_CREATE_DEFAULT := 31
    H5P_DATASET_XFER_DEFAULT := 32 }

/-- A location object of the connector, as the handle of a file is. -/
def sample_loc : H5VL_dset_split_t :=
  { under_vol_id := 3, under_object := 4, type := 0, fid := 0, set := 0 }

/-- A second location object, as the handle of a group is. -/
def sample_group : H5VL_dset_split_t :=
  { under_vol_id := 3, under_object := 5, type := 0, fid := 0, set := 0 }

/-- The child file name of the scenario of the specification (parent
`master.h5`, path `/Data1/Compressed_Data`) at a given clock. -/
def sample_child_name (now : Int) : List Nat :=
  ascii "master-Compressed_Data-" ++ decimal now ++ ascii ".split"

/-- The run of the scenario of the specification on `sample_backend`, at the
location `sample_loc`, with the identifiers 1..6 as the caller's property
lists, type and space: the calls in order, and the object returned. -/
def sample_run (now : Int) : CreateResult :=
  { calls :=
      [Call.H5VLfile_get_name 4 3 H5I_FILE false 0,
       Call.H5VLfile_get_name 4 3 H5I_FILE true 10,
       Call.H5VLobject_get_file 4 LocType.H5VL_OBJECT_BY_SELF H5I_FILE 3,
       Call.H5VLfile_get_fcpl 7 3, Call.H5Pcopy 11,
       Call.H5VLfile_get_fapl 7 3, Call.H5Pcopy 12,
       Call.H5Fcreate (sample_child_name now) H5F_ACC_TRUNC 111 112,
       Call.H5Pclose 112, Call.H5Pclose 12, Call.H5Pclose 111, Call.H5Pclose 11,
       Call.H5VLobject 50,
       Call.H5Tcopy 30, Call.H5Screate SpaceClass.H5S_SCALAR,
       Call.H5Acreate 50 (ascii "split_file") 60 61 0 0,
       Call.H5Awrite 62 60 1, Call.H5Sclose 61, Call.H5Aclose 62,
       Call.H5VLdataset_create
         { obj := 8, loc_type := LocType.H5VL_OBJECT_BY_SELF, loc_obj_type := H5I_FILE,
           connector_id := 3, name := ascii "Compressed_Data", lcpl_id := 1, type_id := 2,
           space_id := 3, dcpl_id := 4, dapl_id := 5, dxpl_id := 6 },
       Call.H5VLlink_create
         { op_type := LinkOp.H5VL_LINK_CREATE_UD, ud_type := H5L_TYPE_EXTERNAL,
           ud_buf := 0 :: sample_child_name now ++ 0 :: ascii "/Compressed_Data" ++ [0, 0],
           ud_buf_size := (sample_child_name now).length + 20,
           vol_obj := 4, loc_type := LocType.H5VL_OBJECT_BY_NAME,
           loc_name := ascii "/Data1/Compressed_Data", loc_lapl_id := 31,
           loc_obj_type := H5I_FILE, connector_id := 3, lcpl_id := 31, lapl_id := 31,
           dxpl_id := 32 },
       Call.H5Iinc_ref 3]
    ret := some { under_vol_id := 3, under_object := 9, type := H5I_DATASET, fid := 50,
                  set := 1 }
    req := none }

/-- A dataset handle that owns its child container, as `sample_run` returns. -/
def sample_owner : H5VL_dset_split_t :=
  { under_vol_id := 3, under_object := 9, type := H5I_DATASET, fid := 50, set := 1 }

/-- A backend in which the dataset close fails and every other call
succeeds. -/
def sample_backend_close_fails : Backend :=
  { sample_backend none 0 with H5VLdataset_close := fun _ _ _ => -1 }

/-- A backend in which the creation of the dataset in the child container
fails and every other call succeeds, with the parent name `master.h5`. -/
def sample_backend_dataset_fails : Backend :=
  { sample_backend (some (ascii "master.h5")) 1700000000 with
    H5VLdataset_create := fun _ => none }

/-- The run of the scenario of the specification on
`sample_backend_dataset_fails`: the calls of `sample_run` up to the creation
of the dataset, and NULL. -/
def sample_run_dataset_fails : CreateResult :=
  { calls := (sample_run 1700000000).calls.take 20, ret := none, req := none }

/-- A backend in which the value query of the underlying connector fails and
the underlying connector has no info string. -/
def sample_backend_no_value : Backend :=
  { sample_backend none 0 with H5VLget_value := fun _ => none }

/-- A connector info. -/
def sample_info : H5VL_dset_split_info_t := { under_vol_id := 3, under_vol_info := 0 }

/-- A path of one segment of 1000 letters `A`. -/
def sample_long_path : List Nat := List.replicate 1000 65

/-- A handle as a dataset open returns. -/
def sample_opened : H5VL_dset_split_t :=
  { under_vol_id := 3, under_object := 10, type := 0, fid := 0, set := 0 }

/-! # Lemmas and theorems -/

set_option maxRecDepth 20000

/-! ## Memory routines -/

theorem cstring_append_nul (s tail : List Nat) (h : 0 ∉ s) :
    cstring (s ++ 0 :: tail) = some s := by
  induction s with
  | nil => simp [cstring]
  | cons c s ih =>
    have hc : c ≠ 0 := fun e => h (by simp [e])
    have hs : 0 ∉ s := fun e => h (by simp [e])
    simp [cstring, hc, ih hs]

theorem cstring_cstr (s : List Nat) (h : 0 ∉ s) : cstring (cstr s) = some s := by
  simpa [cstr] using cstring_append_nul s [] h

/-- A pointer at which a string is read points to that string, its
terminator and whatever follows in the object. -/
theorem cstring_eq_some {blk s : List Nat} (h : cstring blk = some s) :
    0 ∉ s ∧ ∃ tail, blk = s ++ 0 :: tail := by
  induction blk generalizing s with
  | nil => simp [cstring] at h
  | cons c rest ih =>
    by_cases hc : c = 0
    · simp [cstring, hc] at h
      subst h
      exact ⟨by simp, rest, by simp [hc]⟩
    · simp only [cstring, hc, if_false, Option.map_eq_some'] at h
      obtain ⟨s', hs', rfl⟩ := h
      obtain ⟨h0, tail, rfl⟩ := ih hs'
      refine ⟨?_, tail, by simp⟩
      intro hmem
      rcases List.mem_cons.1 hmem with e | e
      · exact hc e.symm
      · exact h0 e

theorem strlen_append_nul (s tail : List Nat) (h : 0 ∉ s) :
    strlen (s ++ 0 :: tail) = some s.length := by
  simp [strlen, cstring_append_nul s tail h]

theorem store_mid (a b c b' : List Nat) (h : b'.length = b.length) :
    store (a ++ b ++ c) a.length b' = some (a ++ b' ++ c) := by
  unfold store
  have h1 : a.length + b'.length ≤ (a ++ b ++ c).length := by simp [h]
  rw [if_pos h1]
  have h2 : (a ++ b ++ c).take a.length = a := by simp
  have h3 : (a ++ b ++ c).drop (a.length + b'.length) = c := by
    rw [h, ← List.length_append, List.drop_left]
  rw [h2, h3]

theorem takeWhile_ne_zero_append_nul (s tail : List Nat) (h : 0 ∉ s) :
    (s ++ 0 :: tail).takeWhile (· ≠ 0) = s := by
  rw [List.takeWhile_append_of_pos]
  · simp
  · intro a ha
    have : a ≠ 0 := fun e => h (e ▸ ha)
    simpa using this

theorem takeWhile_ne_zero_self (s : List Nat) (h : 0 ∉ s) :
    s.takeWhile (· ≠ 0) = s := by
  rw [List.takeWhile_eq_self_iff]
  intro a ha
  have : a ≠ 0 := fun e => h (e ▸ ha)
  simpa using this

/-! ## The external-link record -/

/-- The closed form of the record: for a file name `f` and a leaf `d` read
at the two pointers, the buffer is the header byte, `f`, NUL, `/`, `d` and
two NUL bytes, and `buf_size` counts all of them. -/
theorem extlink_encode_blocks (f d tf td : List Nat) (hf : 0 ∉ f) (hd : 0 ∉ d) :
    extlink_encode (f ++ 0 :: tf) (d ++ 0 :: td)
      = some (0 :: f ++ 0 :: 47 :: d ++ [0, 0], f.length + d.length + 5) := by
  have hslash : strlen (cstr (ascii "/")) = some 1 := by decide
  unfold extlink_encode
  rw [strlen_append_nul f tf hf, strlen_append_nul d td hd, hslash]
  simp only []
  have hsize : 1 + (f.length + 1) + (1 + 1 + d.length + 1) = f.length + d.length + 5 := by omega
  rw [hsize]
  have hbuf : calloc (f.length + d.length + 5) 1
      = [] ++ [0] ++ List.replicate (f.length + d.length + 4) 0 := by
    simp [calloc, List.replicate_succ]
  have hhead : (H5L_EXT_VERSION <<< 4) ||| H5L_EXT_FLAGS_ALL = 0 := by decide
  rw [hbuf, hhead]
  have s1 := store_mid [] [0] (List.replicate (f.length + d.length + 4) 0) [0] rfl
  simp only [List.length_nil] at s1
  rw [s1]
  simp only []
  -- strncpy of the file name: the name, then zeros up to the end of the buffer
  have hsrc : ((f ++ 0 :: tf).take (f.length + d.length + 5 - 1)).takeWhile (· ≠ 0) = f := by
    have e : f.length + d.length + 5 - 1 = f.length + (d.length + 3 + 1) := by omega
    rw [e, List.take_append, List.take_succ_cons, takeWhile_ne_zero_append_nul f _ hf]
  have c2 : strncpy ([] ++ [0] ++ List.replicate (f.length + d.length + 4) 0) (0 + 1)
      (f ++ 0 :: tf) (f.length + d.length + 5 - 1)
      = some ([0] ++ (f ++ List.replicate (d.length + 4) 0) ++ []) := by
    unfold strncpy
    simp only [hsrc]
    have hno : ¬ (f.length < f.length + d.length + 5 - 1 ∧ (f ++ 0 :: tf).length ≤ f.length) := by
      simp
    rw [if_neg hno]
    have e : f.length + d.length + 5 - 1 - f.length = d.length + 4 := by omega
    rw [e]
    have := store_mid [0] (List.replicate (f.length + d.length + 4) 0) []
      (f ++ List.replicate (d.length + 4) 0) (by simp; omega)
    simpa using this
  rw [c2]
  simp only []
  -- strcpy of "/"
  have c3 : strcpy ([0] ++ (f ++ List.replicate (d.length + 4) 0) ++ []) (0 + 1 + (f.length + 1))
      (cstr (ascii "/"))
      = some ((0 :: f ++ [0]) ++ [47, 0] ++ List.replicate (d.length + 1) 0) := by
    unfold strcpy
    have : cstring (cstr (ascii "/")) = some [47] := by decide
    rw [this]
    have e : [0] ++ (f ++ List.replicate (d.length + 4) 0) ++ []
        = (0 :: f ++ [0]) ++ [0, 0] ++ List.replicate (d.length + 1) 0 := by
      simp [List.replicate_succ]
    have l : 0 + 1 + (f.length + 1) = (0 :: f ++ [0]).length := by simp; omega
    rw [e, l]
    exact store_mid _ _ _ _ rfl
  rw [c3]
  simp only []
  -- strncpy of the leaf: its bytes and no terminator
  have c4 : strncpy ((0 :: f ++ [0]) ++ [47, 0] ++ List.replicate (d.length + 1) 0)
      (0 + 1 + (f.length + 1) + 1) (d ++ 0 :: td) d.length
      = some ((0 :: f ++ [0, 47]) ++ d ++ [0, 0]) := by
    unfold strncpy
    have hsrc2 : ((d ++ 0 :: td).take d.length).takeWhile (· ≠ 0) = d := by
      rw [List.take_left, takeWhile_ne_zero_self d hd]
    simp only [hsrc2]
    have hno : ¬ (d.length < d.length ∧ (d ++ 0 :: td).length ≤ d.length) := by simp
    rw [if_neg hno]
    have e : (0 :: f ++ [0]) ++ [47, 0] ++ List.replicate (d.length + 1) 0
        = (0 :: f ++ [0, 47]) ++ (List.replicate d.length 0) ++ [0, 0] := by
      have r : 0 :: List.replicate (d.length + 1) 0 = List.replicate d.length 0 ++ [0, 0] := by
        have : d.length + 1 + 1 = d.length + 2 := rfl
        rw [← List.replicate_succ, this, List.replicate_add]
        rfl
      simp [r]
    have l : 0 + 1 + (f.length + 1) + 1 = (0 :: f ++ [0, 47]).length := by simp; omega
    rw [e, l]
    have := store_mid (0 :: f ++ [0, 47]) (List.replicate d.length 0) [0, 0]
      (d ++ List.replicate (d.length - d.length) 0) (by simp)
    simpa using this
  rw [c4]
  simp

theorem extlink_encode_cstr (f d : List Nat) (hf : 0 ∉ f) (hd : 0 ∉ d) :
    extlink_encode (cstr f) (cstr d)
      = some (0 :: f ++ 0 :: 47 :: d ++ [0, 0], f.length + d.length + 5) :=
  extlink_encode_blocks f d [] [] hf hd

/-! ## Tokenising: `strtok` and `get_dataset_name` -/

theorem ascii_slash : ascii "/" = [47] := by decide

theorem set_at_length (a b : List Nat) (c x : Nat) :
    (a ++ c :: b).set a.length x = a ++ x :: b := by
  induction a with
  | nil => rfl
  | cons y a ih => simp [List.set, ih]

theorem dropWhile_head_false {p : Nat → Bool} {l r : List Nat} {c : Nat}
    (h : l.dropWhile p = c :: r) : p c = false := by
  induction l with
  | nil => simp at h
  | cons y l ih =>
    by_cases hy : p y = true
    · rw [List.dropWhile_cons_of_pos hy] at h
      exact ih h
    · rw [List.dropWhile_cons_of_neg hy] at h
      injection h with h1 _
      subst h1
      simpa using hy

theorem mem_takeWhile_true {p : Nat → Bool} {l : List Nat} {c : Nat}
    (h : c ∈ l.takeWhile p) : p c = true := by
  induction l with
  | nil => simp at h
  | cons y l ih =>
    by_cases hy : p y = true
    · rw [List.takeWhile_cons_of_pos hy] at h
      rcases List.mem_cons.1 h with e | e
      · exact e ▸ hy
      · exact ih e
    · rw [List.takeWhile_cons_of_neg hy] at h
      simp at h

/-- One call of `strtok` on a string whose unread part is `rest`. -/
theorem strtok_step (done rest : List Nat) (h0 : 0 ∉ rest) :
    strtok (done ++ rest ++ [0]) done.length (ascii "/") =
      (if rest.dropWhile (fun c => decide (c ∈ ascii "/")) = [] then
        some (none, done ++ rest ++ [0],
          done.length + (rest.takeWhile (fun c => decide (c ∈ ascii "/"))).length)
      else if (rest.dropWhile (fun c => decide (c ∈ ascii "/"))).dropWhile
            (fun c => decide (c ∉ ascii "/")) = [] then
        some (some (done.length + (rest.takeWhile (fun c => decide (c ∈ ascii "/"))).length),
          done ++ rest ++ [0], done.length + rest.length)
      else
        some (some (done.length + (rest.takeWhile (fun c => decide (c ∈ ascii "/"))).length),
          done ++ rest.takeWhile (fun c => decide (c ∈ ascii "/"))
            ++ (rest.dropWhile (fun c => decide (c ∈ ascii "/"))).takeWhile
                (fun c => decide (c ∉ ascii "/"))
            ++ 0 :: ((rest.dropWhile (fun c => decide (c ∈ ascii "/"))).dropWhile
                (fun c => decide (c ∉ ascii "/"))).tail ++ [0],
          done.length + (rest.takeWhile (fun c => decide (c ∈ ascii "/"))).length
            + ((rest.dropWhile (fun c => decide (c ∈ ascii "/"))).takeWhile
                (fun c => decide (c ∉ ascii "/"))).length + 1)) := by
  generalize hsl : rest.takeWhile (fun c => decide (c ∈ ascii "/")) = sl
  generalize hr1 : rest.dropWhile (fun c => decide (c ∈ ascii "/")) = r1
  generalize htk : r1.takeWhile (fun c => decide (c ∉ ascii "/")) = tok
  generalize hr2 : r1.dropWhile (fun c => decide (c ∉ ascii "/")) = r2
  have e1 : rest = sl ++ r1 := by rw [← hsl, ← hr1, List.takeWhile_append_dropWhile]
  have e2 : r1 = tok ++ r2 := by rw [← htk, ← hr2, List.takeWhile_append_dropWhile]
  have hread : cstring ((done ++ rest ++ [0]).drop done.length) = some rest := by
    rw [List.append_assoc, List.drop_left]
    exact cstring_append_nul rest [] h0
  unfold strtok
  rw [hread]
  simp only [hsl]
  have hdrop : rest.drop sl.length = r1 := by rw [e1, List.drop_left]
  rw [hdrop]
  by_cases c1 : r1 = []
  · simp [c1]
  · rw [if_neg c1, if_neg c1]
    simp only [htk]
    by_cases c2 : r2 = []
    · have hlen : tok.length = r1.length := by rw [e2, c2]; simp
      rw [if_pos hlen, if_pos c2]
      have : done.length + sl.length + tok.length = done.length + rest.length := by
        rw [e1, List.length_append, hlen]; omega
      rw [this]
    · have hlen : ¬ tok.length = r1.length := by
        intro h
        rw [e2, List.length_append] at h
        have : r2.length = 0 := by omega
        exact c2 (List.length_eq_zero.1 this)
      rw [if_neg hlen, if_neg c2]
      obtain ⟨c, r3, hc⟩ := List.exists_cons_of_ne_nil c2
      have hmem : done ++ rest ++ [0] = (done ++ sl ++ tok) ++ c :: (r3 ++ [0]) := by
        rw [e1, e2, hc]; simp
      have hidx : done.length + sl.length + tok.length = (done ++ sl ++ tok).length := by
        simp; omega
      rw [hmem, hidx, set_at_length, hc]
      simp

theorem loop_null (fuel : Nat) (mem : List Nat) (save : Nat) (temp : Option Nat) :
    get_dataset_name_loop fuel mem save none temp = some (temp, mem) := by
  cases fuel <;> rfl

theorem loop_succ (fuel : Nat) (mem : List Nat) (save p : Nat) (temp : Option Nat) :
    get_dataset_name_loop (fuel + 1) mem save (some p) temp
      = (strtok mem save (ascii "/")).bind
          (fun r => get_dataset_name_loop fuel r.2.1 r.2.2 r.1 (some p)) := by
  cases h : strtok mem save (ascii "/") with
  | none => simp [get_dataset_name_loop, h]
  | some r =>
    obtain ⟨p', mem', save'⟩ := r
    simp [get_dataset_name_loop, h]

theorem sep_run_shape {l : List Nat} (h : ∀ c ∈ l, c = 47) :
    l = [] ∨ ∃ l', l = l' ++ [47] := by
  rcases List.eq_nil_or_concat l with e | ⟨l', a, e⟩
  · exact Or.inl e
  · right
    have ha : a = 47 := h a (by rw [e]; simp)
    exact ⟨l', by rw [e, ha, List.concat_eq_append]⟩

theorem mem_sep_iff (c : Nat) : decide (c ∈ ascii "/") = true ↔ c = 47 := by
  rw [ascii_slash]; simp

/-- A call of `strtok` followed by the loop of `get_dataset_name`, on a
string whose unread part is `rest`: when `rest` holds `/` only, the pointer
kept so far is returned; otherwise the pointer returned is at the last
non-empty segment of `rest`. -/
theorem strtok_loop_spec : ∀ (n : Nat) (rest done : List Nat) (temp : Option Nat) (fuel : Nat),
    rest.length ≤ n → 0 ∉ rest → rest.length ≤ fuel →
    ((∀ c ∈ rest, c = 47) ∧
      (strtok (done ++ rest ++ [0]) done.length (ascii "/")).bind
        (fun r => get_dataset_name_loop fuel r.2.1 r.2.2 r.1 temp)
        = some (temp, done ++ rest ++ [0]))
    ∨ (∃ tok mem seg,
      (strtok (done ++ rest ++ [0]) done.length (ascii "/")).bind
        (fun r => get_dataset_name_loop fuel r.2.1 r.2.2 r.1 temp)
        = some (some tok, mem)
      ∧ cstring (mem.drop tok) = some seg ∧ LastSegment rest seg) := by
  intro n
  induction n with
  | zero =>
    intro rest done temp fuel hn h0 _
    have hr : rest = [] := List.length_eq_zero.1 (Nat.le_zero.1 hn)
    subst hr
    left
    refine ⟨by simp, ?_⟩
    rw [strtok_step done [] h0]
    simp [loop_null]
  | succ n ih =>
    intro rest done temp fuel hn h0 hfuel
    rw [strtok_step done rest h0]
    generalize hsl : rest.takeWhile (fun c => decide (c ∈ ascii "/")) = sl
    generalize hr1 : rest.dropWhile (fun c => decide (c ∈ ascii "/")) = r1
    generalize htk : r1.takeWhile (fun c => decide (c ∉ ascii "/")) = tok
    generalize hr2 : r1.dropWhile (fun c => decide (c ∉ ascii "/")) = r2
    have e1 : rest = sl ++ r1 := by rw [← hsl, ← hr1, List.takeWhile_append_dropWhile]
    have e2 : r1 = tok ++ r2 := by rw [← htk, ← hr2, List.takeWhile_append_dropWhile]
    have hslsep : ∀ c ∈ sl, c = 47 := by
      intro c hc
      rw [← hsl] at hc
      exact (mem_sep_iff c).1 (mem_takeWhile_true hc)
    have htoksep : 47 ∉ tok := by
      intro hc
      rw [← htk] at hc
      have := mem_takeWhile_true hc
      simp [ascii_slash] at this
    have htok0 : 0 ∉ tok := by
      intro hc
      apply h0
      rw [e1, e2]
      simp [hc]
    by_cases c1 : r1 = []
    · -- only separators are left
      left
      rw [if_pos c1]
      constructor
      · intro c hc
        rw [e1, c1, List.append_nil] at hc
        exact hslsep c hc
      · simp [loop_null]
    · rw [if_neg c1]
      right
      have htokne : tok ≠ [] := by
        intro ht
        obtain ⟨c, r, hc⟩ := List.exists_cons_of_ne_nil c1
        have hcsep : decide (c ∈ ascii "/") = false :=
          dropWhile_head_false (p := fun c => decide (c ∈ ascii "/")) (l := rest) (r := r)
            (by rw [hr1, hc])
        rw [hc, List.takeWhile_cons_of_pos (by simpa using hcsep)] at htk
        rw [← htk] at ht
        simp at ht
      have hfuel1 : 1 ≤ fuel := by
        have : 1 ≤ rest.length := by
          rw [e1, e2]
          have := List.length_pos.2 htokne
          simp; omega
        omega
      obtain ⟨f, rfl⟩ : ∃ f, fuel = f + 1 := ⟨fuel - 1, by omega⟩
      by_cases c2 : r2 = []
      · -- the token runs to the end of the string
        rw [if_pos c2]
        have hrest : rest = sl ++ tok := by rw [e1, e2, c2, List.append_nil]
        refine ⟨done.length + sl.length, done ++ rest ++ [0], tok, ?_, ?_, ?_⟩
        · simp only [Option.some_bind]
          rw [loop_succ]
          have hs := strtok_step (done ++ rest) [] (by simp)
          simp only [List.append_nil, List.length_append, List.dropWhile_nil,
            List.takeWhile_nil, List.length_nil, Nat.add_zero, if_true] at hs
          rw [hs]
          simp [loop_null]
        · have : done ++ rest ++ [0] = (done ++ sl) ++ (tok ++ 0 :: []) := by
            rw [hrest]; simp
          rw [this, ← List.length_append, List.drop_left]
          exact cstring_append_nul tok [] htok0
        · refine ⟨htokne, htoksep, sl, [], ?_, by simp, sep_run_shape hslsep⟩
          rw [hrest]; simp
      · -- a separator follows the token: it is overwritten and the scan goes on
        rw [if_neg c2]
        obtain ⟨c, r3, hc⟩ := List.exists_cons_of_ne_nil c2
        have hc47 : c = 47 := by
          have : decide (c ∉ ascii "/") = false :=
            dropWhile_head_false (p := fun c => decide (c ∉ ascii "/")) (l := r1) (r := r3)
              (by rw [hr2, hc])
          simpa [ascii_slash] using this
        have hrest : rest = sl ++ tok ++ 47 :: r3 := by
          rw [e1, e2, hc, hc47]; simp
        have hr30 : 0 ∉ r3 := by
          intro h
          apply h0
          rw [hrest]
          simp [h]
        have hlen3 : r3.length ≤ n := by
          have : rest.length = sl.length + tok.length + (r3.length + 1) := by
            rw [hrest]; simp; omega
          omega
        have hfuel3 : r3.length ≤ f := by
          have : rest.length = sl.length + tok.length + (r3.length + 1) := by
            rw [hrest]; simp; omega
          omega
        simp only [Option.some_bind, hc, List.tail_cons]
        rw [loop_succ]
        have hmem : done ++ sl ++ tok ++ 0 :: r3 ++ [0] = (done ++ sl ++ tok ++ [0]) ++ r3 ++ [0] := by
          simp
        have hsave : done.length + sl.length + tok.length + 1 = (done ++ sl ++ tok ++ [0]).length := by
          simp; omega
        rw [hmem, hsave]
        have hread : ∀ sfx, cstring (((done ++ sl ++ tok ++ [0]) ++ sfx).drop
            (done.length + sl.length)) = some tok := by
          intro sfx
          have : (done ++ sl ++ tok ++ [0]) ++ sfx = (done ++ sl) ++ (tok ++ 0 :: sfx) := by simp
          rw [this, ← List.length_append, List.drop_left]
          exact cstring_append_nul tok sfx htok0
        rcases ih r3 (done ++ sl ++ tok ++ [0]) (some (done.length + sl.length)) f hlen3 hr30 hfuel3
          with ⟨hall, hres⟩ | ⟨tok', mem', seg', hres, hcs, hls⟩
        · refine ⟨done.length + sl.length, _, tok, hres, ?_, ?_⟩
          · rw [List.append_assoc]
            exact hread _
          · refine ⟨htokne, htoksep, sl, 47 :: r3, hrest, ?_, sep_run_shape hslsep⟩
            intro x hx
            rcases List.mem_cons.1 hx with e | e
            · exact e
            · exact hall x e
        · refine ⟨tok', mem', seg', hres, hcs, ?_⟩
          obtain ⟨hne, hns, pre, post, hdec, hpost, hpre⟩ := hls
          refine ⟨hne, hns, sl ++ tok ++ 47 :: pre, post, ?_, hpost, ?_⟩
          · rw [hrest, hdec]; simp
          · right
            rcases hpre with e | ⟨pre', e⟩
            · exact ⟨sl ++ tok, by rw [e]⟩
            · exact ⟨sl ++ tok ++ 47 :: pre', by rw [e]; simp⟩

theorem loop_temp (fuel : Nat) (mem : List Nat) (save : Nat) (p : Option Nat) :
    get_dataset_name_loop fuel mem save p p = get_dataset_name_loop fuel mem save p none := by
  cases p with
  | none => rw [loop_null]
  | some q =>
    cases fuel with
    | zero => rfl
    | succ f => rw [loop_succ, loop_succ]

theorem get_dataset_name_eq (path : List Nat) :
    get_dataset_name path
      = (strtok path 0 (ascii "/")).bind
          (fun r => get_dataset_name_loop path.length r.2.1 r.2.2 r.1 none) := by
  unfold get_dataset_name
  cases h : strtok path 0 (ascii "/") with
  | none => rfl
  | some r =>
    obtain ⟨p, mem, save⟩ := r
    simp only [Option.some_bind]
    exact loop_temp _ _ _ _

/-- The result of `get_dataset_name` on the image of a path: NULL, the
object untouched, when the path holds `/` only; otherwise a pointer at the
last non-empty segment. -/
theorem get_dataset_name_spec (p : List Nat) (h0 : 0 ∉ p) :
    ((∀ c ∈ p, c = 47) ∧ get_dataset_name (cstr p) = some (none, cstr p))
    ∨ (∃ off mem seg, get_dataset_name (cstr p) = some (some off, mem)
        ∧ cstring (mem.drop off) = some seg ∧ LastSegment p seg) := by
  have h := strtok_loop_spec p.length p [] none (cstr p).length (Nat.le_refl _) h0
    (by simp [cstr])
  rw [get_dataset_name_eq]
  simpa [cstr] using h

theorem lastSegment_not_all_sep {p seg : List Nat} (h : LastSegment p seg) :
    ¬ ∀ c ∈ p, c = 47 := by
  obtain ⟨hne, hns, pre, post, hdec, _, _⟩ := h
  intro hall
  obtain ⟨c, r, hc⟩ := List.exists_cons_of_ne_nil hne
  have hmem : c ∈ p := by rw [hdec, hc]; simp
  have : c = 47 := hall c hmem
  apply hns
  rw [hc, this]
  simp

theorem leaf_of_spec (p : List Nat) (h0 : 0 ∉ p) :
    ((∀ c ∈ p, c = 47) ∧ leaf_of p = some none)
    ∨ (∃ seg, leaf_of p = some (some seg) ∧ LastSegment p seg) := by
  rcases get_dataset_name_spec p h0 with ⟨hall, h⟩ | ⟨off, mem, seg, h, hcs, hls⟩
  · left
    exact ⟨hall, by simp [leaf_of, h]⟩
  · right
    exact ⟨seg, by simp [leaf_of, h, hcs], hls⟩

/-- The last non-empty segment of a path is determined by the path. -/
theorem lastSegment_eq {p seg : List Nat} (h : LastSegment p seg) :
    seg = (((p.reverse).dropWhile (fun c => decide (c = 47))).takeWhile
      (fun c => decide (c ≠ 47))).reverse := by
  obtain ⟨hne, hns, pre, post, hdec, hpost, hpre⟩ := h
  have hrev : p.reverse = post.reverse ++ (seg.reverse ++ pre.reverse) := by
    rw [hdec]; simp
  have hsegrev : ∀ a ∈ seg.reverse, (fun c => decide (c ≠ 47)) a = true := by
    intro a ha
    have : a ≠ 47 := fun e => hns (e ▸ List.mem_reverse.1 ha)
    simpa using this
  have hd1 : (post.reverse ++ (seg.reverse ++ pre.reverse)).dropWhile (fun c => decide (c = 47))
      = (seg.reverse ++ pre.reverse).dropWhile (fun c => decide (c = 47)) := by
    apply List.dropWhile_append_of_pos
    intro a ha
    simpa using hpost a (List.mem_reverse.1 ha)
  have hd2 : (seg.reverse ++ pre.reverse).dropWhile (fun c => decide (c = 47))
      = seg.reverse ++ pre.reverse := by
    obtain ⟨c, r, hc⟩ := List.exists_cons_of_ne_nil (fun e => hne (List.reverse_eq_nil_iff.1 e))
    have hc47 : (fun c => decide (c = 47)) c = false := by
      have := hsegrev c (by rw [hc]; simp)
      simpa using this
    rw [hc, List.cons_append, List.dropWhile_cons_of_neg (by simpa using hc47)]
  have ht : (seg.reverse ++ pre.reverse).takeWhile (fun c => decide (c ≠ 47)) = seg.reverse := by
    rw [List.takeWhile_append_of_pos hsegrev]
    rcases hpre with e | ⟨pre', e⟩
    · simp [e]
    · simp [e]
  rw [hrev, hd1, hd2, ht, List.reverse_reverse]

theorem lastSegment_unique {p s1 s2 : List Nat} (h1 : LastSegment p s1)
    (h2 : LastSegment p s2) : s1 = s2 := by
  rw [lastSegment_eq h1, lastSegment_eq h2]

/-- The leaf that `get_dataset_name` finds is the last non-empty segment,
whichever way it is described. -/
theorem leaf_of_lastSegment {p seg : List Nat} (h0 : 0 ∉ p) (h : LastSegment p seg) :
    leaf_of p = some (some seg) := by
  rcases leaf_of_spec p h0 with ⟨hall, _⟩ | ⟨s, hs, hls⟩
  · exact absurd hall (lastSegment_not_all_sep h)
  · rw [hs, lastSegment_unique hls h]

/-- What `leaf_of` reports is what `get_dataset_name` points to. -/
theorem leaf_of_some {p d : List Nat} (h : leaf_of p = some (some d)) :
    ∃ off mem, get_dataset_name (cstr p) = some (some off, mem)
      ∧ cstring (mem.drop off) = some d := by
  unfold leaf_of at h
  cases hg : get_dataset_name (cstr p) with
  | none => simp [hg] at h
  | some r =>
    obtain ⟨q, mem⟩ := r
    cases q with
    | none => simp [hg] at h
    | some off =>
      simp only [hg, Option.map_eq_some'] at h
      obtain ⟨a, ha, hd⟩ := h
      refine ⟨off, mem, rfl, ?_⟩
      rw [ha]
      simpa using hd

/-! ## Formatting the child file name -/

theorem decDigits_ge : ∀ (fuel n c : Nat), c ∈ decDigits fuel n → 48 ≤ c := by
  intro fuel
  induction fuel with
  | zero =>
    intro n c h
    simp [decDigits] at h
    omega
  | succ f ih =>
    intro n c h
    unfold decDigits at h
    split at h
    · simp at h; omega
    · rcases List.mem_append.1 h with h1 | h1
      · exact ih _ _ h1
      · simp at h1; omega

theorem zero_not_mem_decimal (t : Int) : 0 ∉ decimal t := by
  intro h
  cases t with
  | ofNat n =>
    have := decDigits_ge n n 0 h
    omega
  | negSucc n =>
    simp only [decimal, List.mem_cons] at h
    rcases h with h | h
    · omega
    · have := decDigits_ge _ _ 0 h
      omega

theorem store_start (n : Nat) (s : List Nat) (h : s.length ≤ n) :
    store (List.replicate n 0) 0 s = some (s ++ List.replicate (n - s.length) 0) := by
  have e : List.replicate n 0 = [] ++ List.replicate s.length 0 ++ List.replicate (n - s.length) 0 := by
    rw [List.nil_append, ← List.replicate_add]
    congr 1
    omega
  have := store_mid [] (List.replicate s.length 0) (List.replicate (n - s.length) 0) s (by simp)
  rw [← e] at this
  simpa using this

theorem strcpy_calloc {name p : List Nat} (h : cstring name = some p) :
    strcpy (calloc (p.length + 1) 1) 0 name = some (cstr p) := by
  unfold strcpy
  rw [h]
  simp only [calloc, Nat.mul_one]
  rw [store_start (p.length + 1) (p ++ [0]) (by simp)]
  simp [cstr]

theorem format_file_name {pn dn base d : List Nat} (t : Int)
    (hbase : cstring pn = some base) (hd : cstring dn = some d) :
    format_expand (ascii "%s-%s-%ld%s")
        [FmtArg.str pn, FmtArg.str dn, FmtArg.long t, FmtArg.str (cstr FILE_EXTENTION)]
      = some (base ++ ascii "-" ++ d ++ ascii "-" ++ decimal t ++ ascii ".split") := by
  have hfmt : ascii "%s-%s-%ld%s" = [37, 115, 45, 37, 115, 45, 37, 108, 100, 37, 115] := by decide
  have hext : cstring (cstr FILE_EXTENTION) = some (ascii ".split") := by decide
  have hdash : ascii "-" = [45] := by decide
  rw [hfmt, hdash]
  simp [format_expand, hbase, hd, hext]

/-- Lines 1471-1482 for a path with leaf `d` and a parent base `base` that
fit in `file_name[1000]`: the pointer `dsetname` is at the leaf and
`file_name` holds `base-d-t.split`. -/
theorem file_name_phase {pn base p d : List Nat} (t : Int) (h0 : 0 ∉ p)
    (hbase : cstring pn = some base) (hleaf : leaf_of p = some (some d))
    (hfit : base.length + d.length + (decimal t).length + 8 + 1 ≤ 1000) :
    ∃ dn fn, dataset_create_file_name pn (cstr p) t = some (some (dn, fn))
      ∧ cstring dn = some d
      ∧ cstring fn
          = some (base ++ ascii "-" ++ d ++ ascii "-" ++ decimal t ++ ascii ".split") := by
  obtain ⟨off, mem, hg, hd⟩ := leaf_of_some hleaf
  have hname : cstring (cstr p) = some p := cstring_cstr p h0
  have hlen : strlen (cstr p) = some p.length := by simp [strlen, hname]
  have hf := format_file_name t hbase hd
  have hb0 := (cstring_eq_some hbase).1
  have hd0 := (cstring_eq_some hd).1
  have h0s : 0 ∉ base ++ ascii "-" ++ d ++ ascii "-" ++ decimal t ++ ascii ".split" := by
    have h1 : 0 ∉ ascii "-" := by decide
    have h2 : 0 ∉ ascii ".split" := by decide
    have h3 := zero_not_mem_decimal t
    simp only [List.mem_append, not_or]
    exact ⟨⟨⟨⟨⟨hb0, h1⟩, hd0⟩, h1⟩, h3⟩, h2⟩
  have hslen : (base ++ ascii "-" ++ d ++ ascii "-" ++ decimal t ++ ascii ".split" ++ [0]).length
      ≤ 1000 := by
    have h1 : (ascii "-").length = 1 := by decide
    have h2 : (ascii ".split").length = 6 := by decide
    simp only [List.length_append, h1, h2, List.length_singleton]
    omega
  refine ⟨mem.drop off,
    (base ++ ascii "-" ++ d ++ ascii "-" ++ decimal t ++ ascii ".split" ++ [0])
      ++ List.replicate (1000
        - (base ++ ascii "-" ++ d ++ ascii "-" ++ decimal t ++ ascii ".split" ++ [0]).length) 0,
    ?_, hd, ?_⟩
  · unfold dataset_create_file_name
    rw [hlen]
    simp only []
    rw [strcpy_calloc hname]
    simp only []
    rw [hg]
    simp only []
    unfold sprintf
    rw [hf]
    simp only []
    rw [store_start 1000 _ hslen]
  · rw [List.append_assoc _ [0]]
    exact cstring_append_nul _ _ h0s

/-! ## The parent base -/

theorem cstring_of_mem_zero : ∀ (l : List Nat), 0 ∈ l → ∃ s, cstring l = some s := by
  intro l
  induction l with
  | nil => intro h; simp at h
  | cons c rest ih =>
    intro h
    by_cases hc : c = 0
    · exact ⟨[], by simp [cstring, hc]⟩
    · have hr : 0 ∈ rest := by
        rcases List.mem_cons.1 h with e | e
        · exact absurd e.symm hc
        · exact e
      obtain ⟨s, hs⟩ := ih hr
      exact ⟨c :: s, by simp [cstring, hc, hs]⟩

theorem mem_zero_set : ∀ (l : List Nat) (i : Nat), 0 ∈ l → 0 ∈ l.set i 0 := by
  intro l
  induction l with
  | nil => intro i h; simp at h
  | cons c rest ih =>
    intro i h
    cases i with
    | zero => simp
    | succ j =>
      rcases List.mem_cons.1 h with e | e
      · simp [List.set, ← e]
      · simp only [List.set, List.mem_cons]
        exact Or.inr (ih j e)

theorem normalized_name_reads (name : List Nat) (h : 0 ∈ name) :
    ∃ out s, dset_get_normalized_name name = some out ∧ cstring out = some s
      ∧ out.length = name.length := by
  obtain ⟨hay, hhay⟩ := cstring_of_mem_zero name h
  have hneedle : cstring (cstr (ascii ".h5")) = some (ascii ".h5") := by decide
  unfold dset_get_normalized_name strstr
  rw [hhay, hneedle]
  simp only []
  cases hfind : find_sub (ascii ".h5") hay with
  | none =>
    exact ⟨name, hay, rfl, hhay, rfl⟩
  | some temp =>
    obtain ⟨s, hs⟩ := cstring_of_mem_zero _ (mem_zero_set name temp h)
    exact ⟨_, s, rfl, hs, by simp⟩

theorem cstring_length_lt {blk s : List Nat} (h : cstring blk = some s) :
    s.length < blk.length := by
  obtain ⟨_, tail, rfl⟩ := cstring_eq_some h
  simp

/-- Lines 1457-1464 when the name query gives a non-empty name `n`: both
queries are made and `parent_name` holds the name as
`dset_get_normalized_name` leaves it. -/
theorem parent_name_of_name (b : Backend) (o : H5VL_dset_split_t) (ty : Int) (n : List Nat)
    (hq : b.file_name o.under_object ty = some n) (hne : n ≠ [])
    (hlen : n.length + 1 < SIZE_MAX + 1) :
    ∃ pn base, dset_get_normalized_name (cstr n) = some pn
      ∧ dataset_create_parent_name b o ty
        = some (pn, [Call.H5VLfile_get_name o.under_object o.under_vol_id ty false 0,
                     Call.H5VLfile_get_name o.under_object o.under_vol_id ty true (n.length + 1)])
      ∧ cstring pn = some base ∧ base.length ≤ n.length := by
  have hpos : 0 < n.length := List.length_pos.2 hne
  have hmod : (n.length + 1) % (SIZE_MAX + 1) = n.length + 1 := Nat.mod_eq_of_lt hlen
  have hfill : store (calloc (n.length + 1) 1) 0 (n.take (n.length + 1 - 1) ++ [0])
      = some (n ++ [0]) := by
    simp only [calloc, Nat.mul_one, Nat.add_sub_cancel, List.take_length]
    rw [store_start (n.length + 1) (n ++ [0]) (by simp)]
    simp
  obtain ⟨out, s, hout, hs, hol⟩ := normalized_name_reads (n ++ [0]) (by simp)
  have hsl := cstring_length_lt hs
  refine ⟨out, s, hout, ?_, hs, by simp at hol; omega⟩
  unfold dataset_create_parent_name
  have hnz : ¬ (n.length + 1 = 0) := by omega
  simp only [get_file_name, hq, hmod, gt_iff_lt, hpos, if_true, hfill, hnz, if_false, hout,
    Option.isSome_none, Option.isSome_some, List.singleton_append]

/-- Lines 1465-1469 when the name query gives the empty name. -/
theorem parent_name_of_empty (b : Backend) (o : H5VL_dset_split_t) (ty : Int)
    (hq : b.file_name o.under_object ty = some []) :
    dataset_create_parent_name b o ty
      = some (cstr (ascii "Split"),
          [Call.H5VLfile_get_name o.under_object o.under_vol_id ty false 0]) := by
  have hcopy : strcpy (calloc 6 1) 0 (cstr (ascii "Split")) = some (cstr (ascii "Split")) := by
    decide
  unfold dataset_create_parent_name
  simp [get_file_name, hq, hcopy]

/-- Lines 1457-1464 when the name query fails: `get_file_name` returns
`(size_t)-1`, which is positive, so the branch of the name is taken with a
buffer of `(size + 1) mod 2^64 = 0` bytes, and `dset_get_normalized_name`
reads past it. -/
theorem parent_name_of_failure (b : Backend) (o : H5VL_dset_split_t) (ty : Int)
    (hq : b.file_name o.under_object ty = none) :
    dataset_create_parent_name b o ty = none := by
  have hsz : (SIZE_MAX + 1) % (SIZE_MAX + 1) = 0 := Nat.mod_self _
  have hpos : SIZE_MAX > 0 := by decide
  have hnorm : dset_get_normalized_name (calloc 0 1) = none := by decide
  unfold dataset_create_parent_name
  simp only [get_file_name, hq, hsz, hpos, if_true, hnorm]

theorem get_file_name_calls {b : Backend} {obj : Nat} {cid ty : Int}
    {name : Option (List Nat)} {size r : Nat} {buf : Option (List Nat)} {calls : List Call}
    (h : get_file_name b obj cid ty name size = some (r, buf, calls)) :
    calls = [Call.H5VLfile_get_name obj cid ty name.isSome size] := by
  unfold get_file_name at h
  cases hq : b.file_name obj ty with
  | none =>
    simp only [hq, Option.some.injEq, Prod.mk.injEq] at h
    exact h.2.2.symm
  | some n =>
    cases name with
    | none =>
      simp only [hq, Option.some.injEq, Prod.mk.injEq] at h
      exact h.2.2.symm
    | some blk =>
      simp only [hq] at h
      split at h
      · simp at h
      · split at h
        · simp at h
        · simp only [Option.some.injEq, Prod.mk.injEq] at h
          exact h.2.2.symm

/-- Only name queries are made while `parent_name` is set up. -/
theorem parent_name_calls (b : Backend) (o : H5VL_dset_split_t) (ty : Int)
    (pn : List Nat) (calls : List Call)
    (h : dataset_create_parent_name b o ty = some (pn, calls)) :
    ∀ c ∈ calls, ∃ given size,
      c = Call.H5VLfile_get_name o.under_object o.under_vol_id ty given size := by
  unfold dataset_create_parent_name at h
  cases h1 : get_file_name b o.under_object o.under_vol_id ty none 0 with
  | none => simp [h1] at h
  | some r =>
    obtain ⟨size, x, calls1⟩ := r
    have hc1 := get_file_name_calls h1
    simp only [h1] at h
    by_cases hs : size > 0
    · simp only [hs, if_true] at h
      cases h2 : get_file_name b o.under_object o.under_vol_id ty
          (some (calloc ((size + 1) % (SIZE_MAX + 1)) 1)) ((size + 1) % (SIZE_MAX + 1)) with
      | none => simp [h2] at h
      | some r2 =>
        obtain ⟨y, buf, calls2⟩ := r2
        have hc2 := get_file_name_calls h2
        cases buf with
        | none => simp [h2] at h
        | some pn' =>
          simp only [h2] at h
          cases h3 : dset_get_normalized_name pn' with
          | none => simp [h3] at h
          | some out =>
            simp only [h3, Option.some.injEq, Prod.mk.injEq] at h
            intro c hc
            rw [← h.2, hc1, hc2] at hc
            simp only [List.singleton_append, List.mem_cons, List.mem_singleton,
              List.not_mem_nil, or_false] at hc
            rcases hc with e | e
            · exact ⟨_, _, e⟩
            · exact ⟨_, _, e⟩
    · simp only [hs, if_false] at h
      cases h3 : strcpy (calloc 6 1) 0 (cstr (ascii "Split")) with
      | none => simp [h3] at h
      | some out =>
        simp only [h3, Option.some.injEq, Prod.mk.injEq] at h
        intro c hc
        rw [← h.2, hc1] at hc
        simp only [List.mem_singleton] at hc
        exact ⟨_, _, hc⟩

/-- Lines 1471-1480 for a path without a segment: the leaf pointer is NULL. -/
theorem file_name_phase_null (pn p : List Nat) (t : Int) (h0 : 0 ∉ p)
    (hall : ∀ c ∈ p, c = 47) :
    dataset_create_file_name pn (cstr p) t = some none := by
  have hname : cstring (cstr p) = some p := cstring_cstr p h0
  have hlen : strlen (cstr p) = some p.length := by simp [strlen, hname]
  have hg : get_dataset_name (cstr p) = some (none, cstr p) := by
    rcases get_dataset_name_spec p h0 with ⟨_, h⟩ | ⟨_, _, seg, _, _, hls⟩
    · exact h
    · exact absurd hall (lastSegment_not_all_sep hls)
  unfold dataset_create_file_name
  rw [hlen]
  simp only []
  rw [strcpy_calloc hname]
  simp only []
  rw [hg]

/-! ## The create call as a whole -/

/-- The record built from the two pointers of the create call. -/
theorem extlink_encode_strings {fn dn f d : List Nat} (hf : cstring fn = some f)
    (hd : cstring dn = some d) :
    extlink_encode fn dn
      = some (0 :: f ++ 0 :: 47 :: d ++ [0, 0], f.length + d.length + 5) := by
  obtain ⟨hf0, tf, rfl⟩ := cstring_eq_some hf
  obtain ⟨hd0, td, rfl⟩ := cstring_eq_some hd
  exact extlink_encode_blocks f d tf td hf0 hd0

/-- Once the names are formed and the file object of the location is found,
the create call is defined, and it creates the child container under the
name held in `file_name`, in truncate mode. -/
theorem create_makes_file (b : Backend) (o : H5VL_dset_split_t) (ty : Int)
    (pn p dn fn fname d : List Nat) (calls : List Call) (vf : Nat)
    (lcpl_id type_id space_id dcpl_id dapl_id dxpl_id : Int) (req : Option Nat)
    (hpar : dataset_create_parent_name b o ty = some (pn, calls))
    (hfn : dataset_create_file_name pn (cstr p) b.time = some (some (dn, fn)))
    (hname : cstring fn = some fname) (hd : cstring dn = some d) (h0 : 0 ∉ p)
    (hvf : b.object_file o.under_object = some vf) :
    ∃ r, H5VL_dset_split_dataset_create b o ty (cstr p) lcpl_id type_id space_id dcpl_id
        dapl_id dxpl_id req = some r
      ∧ Call.H5Fcreate fname H5F_ACC_TRUNC
          (b.H5Pcopy (get_parent_file_fcpl b vf o.under_vol_id).1)
          (b.H5Pcopy (get_parent_file_fapl b vf o.under_vol_id).1) ∈ r.calls := by
  have hlink := extlink_encode_strings hname hd
  have hpath : cstring (cstr p) = some p := cstring_cstr p h0
  unfold H5VL_dset_split_dataset_create
  rw [hpar]
  simp only []
  rw [hfn]
  simp only [dset_split_file_create, hvf, hname, hd, dset_split_extlink_create, hlink, hpath]
  repeat' split
  all_goals exact ⟨_, rfl, by simp⟩

/-- Reading the closed form of the record the way the resolver does. -/
theorem extlink_decode_record (f d : List Nat) (hf : 0 ∉ f) (hd : 0 ∉ d) :
    extlink_decode (0 :: f ++ 0 :: 47 :: d ++ [0, 0]) (f.length + d.length + 5)
      = some (0, 0, f, ascii "/" ++ d) := by
  have htake : (0 :: f ++ 0 :: 47 :: d ++ [0, 0]).take (f.length + d.length + 5)
      = 0 :: (f ++ 0 :: (47 :: d ++ [0, 0])) := by
    rw [List.take_of_length_le (by simp; omega)]
    simp
  have hfile : cstring (f ++ 0 :: (47 :: d ++ [0, 0])) = some f :=
    cstring_append_nul f _ hf
  have hrest : (f ++ 0 :: (47 :: d ++ [0, 0])).drop (f.length + 1) = (47 :: d) ++ 0 :: [0] := by
    have : f ++ 0 :: (47 :: d ++ [0, 0]) = (f ++ [0]) ++ (47 :: d ++ [0, 0]) := by simp
    have hl : f.length + 1 = (f ++ [0]).length := by simp
    rw [this, hl, List.drop_left]
  have hpath : cstring ((47 :: d) ++ 0 :: [0]) = some (47 :: d) :=
    cstring_append_nul (47 :: d) [0] (by
      intro h
      rcases List.mem_cons.1 h with e | e
      · omega
      · exact hd e)
  unfold extlink_decode
  rw [htake]
  simp only [hfile, hrest, hpath, ascii_slash]
  rfl

/-- The create call for a path without a segment, once `parent_name` is set
up: NULL is returned after the name queries alone. -/
theorem create_null_leaf (b : Backend) (o : H5VL_dset_split_t) (ty : Int)
    (pn p : List Nat) (calls : List Call)
    (lcpl_id type_id space_id dcpl_id dapl_id dxpl_id : Int) (req : Option Nat)
    (hpar : dataset_create_parent_name b o ty = some (pn, calls))
    (h0 : 0 ∉ p) (hall : ∀ c ∈ p, c = 47) :
    H5VL_dset_split_dataset_create b o ty (cstr p) lcpl_id type_id space_id dcpl_id dapl_id
        dxpl_id req
      = some { calls := calls, ret := none, req := none } := by
  unfold H5VL_dset_split_dataset_create
  rw [hpar]
  simp only []
  rw [file_name_phase_null pn p b.time h0 hall]

/-- When the name query succeeds with the name `n`, `parent_name` is set up
and holds a string; the object depends on `n` alone. -/
theorem parent_name_defined (b : Backend) (o : H5VL_dset_split_t) (ty : Int) (n : List Nat)
    (hq : b.file_name o.under_object ty = some n) (hlen : n.length + 1 < SIZE_MAX + 1) :
    ∃ pn calls base, dataset_create_parent_name b o ty = some (pn, calls)
      ∧ cstring pn = some base ∧ base.length ≤ n.length + 5
      ∧ ((n = [] ∧ pn = cstr (ascii "Split"))
          ∨ (n ≠ [] ∧ dset_get_normalized_name (cstr n) = some pn)) := by
  by_cases hn : n = []
  · subst hn
    exact ⟨_, _, ascii "Split", parent_name_of_empty b o ty hq, by decide, by decide,
      Or.inl ⟨rfl, rfl⟩⟩
  · obtain ⟨pn, base, hnorm, h, hb, hl⟩ := parent_name_of_name b o ty n hq hn hlen
    exact ⟨pn, _, base, h, hb, by omega, Or.inr ⟨hn, hnorm⟩⟩

/-! ## The claims -/

/-- C1 (the code differs): the length `buf_size` handed to link creation is
one more than `1 + (len(f)+1) + (len("/"+d)+1)`.  For the file name
`master-B-17.split` and the leaf `B` the code computes 23, the formula of
the specification gives 22. -/
theorem extlink_buf_size_has_extra_byte :
    (extlink_encode (cstr (ascii "master-B-17.split")) (cstr (ascii "B"))).map Prod.snd
        = some 23
      ∧ 1 + ((ascii "master-B-17.split").length + 1) + ((ascii "/" ++ ascii "B").length + 1)
        = 22 := by
  decide

/-- C2: in the record built for a file name `f` and a leaf `d`, byte 0 is 0,
bytes `1..len(f)` are `f`, a zero byte follows, then the byte `/` (47), the
bytes of `d`, and a zero byte at offset `len(f)+3+len(d)`. -/
theorem extlink_record_layout (f d : List Nat) (hf : 0 ∉ f) (hd : 0 ∉ d) :
    ∃ buf n, extlink_encode (cstr f) (cstr d) = some (buf, n)
      ∧ buf[0]? = some 0
      ∧ (buf.drop 1).take f.length = f
      ∧ buf[f.length + 1]? = some 0
      ∧ buf[f.length + 2]? = some 47
      ∧ (buf.drop (f.length + 3)).take d.length = d
      ∧ buf[f.length + 3 + d.length]? = some 0 := by
  refine ⟨_, _, extlink_encode_cstr f d hf hd, ?_, ?_, ?_, ?_, ?_, ?_⟩
  · simp
  · simp
  · have : 0 :: f ++ 0 :: 47 :: d ++ [0, 0] = (0 :: f) ++ (0 :: (47 :: d ++ [0, 0])) := by simp
    rw [this, List.getElem?_append_right (by simp)]
    simp
  · have : 0 :: f ++ 0 :: 47 :: d ++ [0, 0] = (0 :: f ++ [0]) ++ (47 :: d ++ [0, 0]) := by simp
    rw [this, List.getElem?_append_right (by simp)]
    simp
  · have : 0 :: f ++ 0 :: 47 :: d ++ [0, 0] = (0 :: f ++ [0, 47]) ++ (d ++ [0, 0]) := by simp
    have hl : f.length + 3 = (0 :: f ++ [0, 47]).length := by simp
    rw [this, hl, List.drop_left]
    simp
  · have : 0 :: f ++ 0 :: 47 :: d ++ [0, 0] = (0 :: f ++ [0, 47] ++ d) ++ [0, 0] := by simp
    rw [this, List.getElem?_append_right (by simp; omega)]
    have : f.length + 3 + d.length - (0 :: f ++ [0, 47] ++ d).length = 0 := by simp; omega
    rw [this]
    rfl

theorem extlink_record_layout_witness :
    ∃ buf n, extlink_encode (cstr (ascii "m.split")) (cstr (ascii "B")) = some (buf, n)
      ∧ buf[0]? = some 0
      ∧ (buf.drop 1).take (ascii "m.split").length = ascii "m.split"
      ∧ buf[(ascii "m.split").length + 1]? = some 0
      ∧ buf[(ascii "m.split").length + 2]? = some 47
      ∧ (buf.drop ((ascii "m.split").length + 3)).take (ascii "B").length = ascii "B"
      ∧ buf[(ascii "m.split").length + 3 + (ascii "B").length]? = some 0 :=
  extlink_record_layout (ascii "m.split") (ascii "B") (by decide) (by decide)

/-- C3: reading the record built for `f` and `d` the way the resolver does
gives version 0, flags 0, the file name `f` and the object path `/` followed
by `d`; both strings end inside the `buf_size` bytes of the record. -/
theorem extlink_record_decodes (f d : List Nat) (hf : 0 ∉ f) (hd : 0 ∉ d) :
    ∃ buf n, extlink_encode (cstr f) (cstr d) = some (buf, n)
      ∧ extlink_decode buf n = some (0, 0, f, ascii "/" ++ d) :=
  ⟨_, _, extlink_encode_cstr f d hf hd, extlink_decode_record f d hf hd⟩

theorem extlink_record_decodes_witness :
    ∃ buf n, extlink_encode (cstr (ascii "m.split")) (cstr (ascii "B")) = some (buf, n)
      ∧ extlink_decode buf n = some (0, 0, ascii "m.split", ascii "/" ++ ascii "B") :=
  extlink_record_decodes (ascii "m.split") (ascii "B") (by decide) (by decide)

/-- C4: for a path with a character other than `/`, `get_dataset_name`
returns a pointer at the last non-empty segment of the path: a non-empty
run without `/`, followed by `/` characters only up to the end of the path,
and not preceded by a character other than `/`. -/
theorem get_dataset_name_last_segment (p : List Nat) (h0 : 0 ∉ p)
    (hseg : ∃ c ∈ p, c ≠ 47) :
    ∃ off mem seg, get_dataset_name (cstr p) = some (some off, mem)
      ∧ cstring (mem.drop off) = some seg ∧ LastSegment p seg := by
  rcases get_dataset_name_spec p h0 with ⟨hall, _⟩ | h
  · obtain ⟨c, hc, hne⟩ := hseg
    exact absurd (hall c hc) hne
  · exact h

theorem get_dataset_name_last_segment_witness :
    ∃ off mem seg, get_dataset_name (cstr (ascii "//A//B")) = some (some off, mem)
      ∧ cstring (mem.drop off) = some seg ∧ LastSegment (ascii "//A//B") seg :=
  get_dataset_name_last_segment (ascii "//A//B") (by decide) ⟨65, by decide, by decide⟩

/-- The paths named in the specification all have the leaf `B`. -/
theorem get_dataset_name_examples :
    leaf_of (ascii "/A/B") = some (some (ascii "B"))
      ∧ leaf_of (ascii "A/B") = some (some (ascii "B"))
      ∧ leaf_of (ascii "B") = some (some (ascii "B"))
      ∧ leaf_of (ascii "//A//B") = some (some (ascii "B"))
      ∧ leaf_of (ascii "/A/B/") = some (some (ascii "B")) := by
  decide

/-- C5: for a path without a non-empty segment (empty, or `/` characters
only) `get_dataset_name` returns NULL, and `H5VL_dset_split_dataset_create`,
the parent name query having succeeded, returns NULL having made no call
but the name queries: no child container, marker attribute, dataset or link
is created.  For a path with a character other than `/` the leaf
extraction returns a pointer. -/
theorem dataset_create_fails_without_segment (b : Backend) (o : H5VL_dset_split_t)
    (ty : Int) (n p : List Nat)
    (lcpl_id type_id space_id dcpl_id dapl_id dxpl_id : Int) (req : Option Nat)
    (hq : b.file_name o.under_object ty = some n) (hlen : n.length + 1 < SIZE_MAX + 1)
    (h0 : 0 ∉ p) (hall : ∀ c ∈ p, c = 47) :
    get_dataset_name (cstr p) = some (none, cstr p)
    ∧ (∃ r, H5VL_dset_split_dataset_create b o ty (cstr p) lcpl_id type_id space_id dcpl_id
          dapl_id dxpl_id req = some r
        ∧ r.ret = none ∧ r.req = none
        ∧ ∀ c ∈ r.calls, ∃ given size,
            c = Call.H5VLfile_get_name o.under_object o.under_vol_id ty given size)
    ∧ (∀ q : List Nat, 0 ∉ q → (∃ c ∈ q, c ≠ 47) →
        ∃ off mem, get_dataset_name (cstr q) = some (some off, mem)) := by
  refine ⟨?_, ?_, ?_⟩
  · rcases get_dataset_name_spec p h0 with ⟨_, h⟩ | ⟨_, _, seg, _, _, hls⟩
    · exact h
    · exact absurd hall (lastSegment_not_all_sep hls)
  · obtain ⟨pn, calls, base, hpar, _, _, _⟩ := parent_name_defined b o ty n hq hlen
    refine ⟨_, create_null_leaf b o ty pn p calls lcpl_id type_id space_id dcpl_id dapl_id
      dxpl_id req hpar h0 hall, rfl, rfl, ?_⟩
    exact parent_name_calls b o ty pn calls hpar
  · intro q hq0 hseg
    rcases get_dataset_name_spec q hq0 with ⟨hall', _⟩ | ⟨off, mem, _, h, _, _⟩
    · obtain ⟨c, hc, hne⟩ := hseg
      exact absurd (hall' c hc) hne
    · exact ⟨off, mem, h⟩

theorem dataset_create_fails_without_segment_witness :
    get_dataset_name (cstr (ascii "//")) = some (none, cstr (ascii "//"))
    ∧ (∃ r, H5VL_dset_split_dataset_create (sample_backend (some (ascii "master.h5")) 17)
          sample_loc H5I_GROUP (cstr (ascii "//")) 1 2 3 4 5 6 none = some r
        ∧ r.ret = none ∧ r.req = none
        ∧ ∀ c ∈ r.calls, ∃ given size,
            c = Call.H5VLfile_get_name sample_loc.under_object sample_loc.under_vol_id
              H5I_GROUP given size)
    ∧ (∀ q : List Nat, 0 ∉ q → (∃ c ∈ q, c ≠ 47) →
        ∃ off mem, get_dataset_name (cstr q) = some (some off, mem)) :=
  dataset_create_fails_without_segment (sample_backend (some (ascii "master.h5")) 17)
    sample_loc H5I_GROUP (ascii "master.h5") (ascii "//") 1 2 3 4 5 6 none rfl (by decide)
    (by decide) (by decide)

/-- C6 (the code differs): `dset_get_normalized_name` cuts the name at the
first `.h5` wherever it stands, so `run.h5.bak` becomes `run` and
`/data.h5dir/master` becomes `/data`; a name that ends in `.h5` and holds an
earlier `.h5` loses more than its last three characters. -/
theorem normalized_name_cuts_at_first_h5 :
    (dset_get_normalized_name (cstr (ascii "run.h5.bak"))).bind cstring = some (ascii "run")
      ∧ (dset_get_normalized_name (cstr (ascii "/data.h5dir/master"))).bind cstring
          = some (ascii "/data")
      ∧ (dset_get_normalized_name (cstr (ascii "a.h5b.h5"))).bind cstring = some (ascii "a") := by
  decide

/-- C7: for a parent base `base`, a path with leaf `d` and a timestamp `t`
whose formatted name fits `file_name[1000]`, lines 1471-1482 leave in
`file_name` the string `base-d-t.split`, with `t` in decimal, and `dsetname`
at the leaf; the name contains the leaf, and when the file object of the
location is found the child container is created under that name. -/
theorem child_file_name_format (b : Backend) (o : H5VL_dset_split_t) (ty : Int)
    (pn base p d : List Nat) (calls : List Call)
    (lcpl_id type_id space_id dcpl_id dapl_id dxpl_id : Int) (req : Option Nat)
    (hpar : dataset_create_parent_name b o ty = some (pn, calls))
    (hbase : cstring pn = some base) (h0 : 0 ∉ p) (hleaf : leaf_of p = some (some d))
    (hfit : base.length + d.length + (decimal b.time).length + 8 + 1 ≤ 1000) :
    ∃ dn fn, dataset_create_file_name pn (cstr p) b.time = some (some (dn, fn))
      ∧ cstring dn = some d
      ∧ cstring fn
          = some (base ++ ascii "-" ++ d ++ ascii "-" ++ decimal b.time ++ ascii ".split")
      ∧ d <:+: base ++ ascii "-" ++ d ++ ascii "-" ++ decimal b.time ++ ascii ".split"
      ∧ ∀ vf, b.object_file o.under_object = some vf →
          ∃ r, H5VL_dset_split_dataset_create b o ty (cstr p) lcpl_id type_id space_id dcpl_id
              dapl_id dxpl_id req = some r
            ∧ Call.H5Fcreate
                (base ++ ascii "-" ++ d ++ ascii "-" ++ decimal b.time ++ ascii ".split")
                H5F_ACC_TRUNC
                (b.H5Pcopy (get_parent_file_fcpl b vf o.under_vol_id).1)
                (b.H5Pcopy (get_parent_file_fapl b vf o.under_vol_id).1) ∈ r.calls := by
  obtain ⟨dn, fn, h1, h2, h3⟩ := file_name_phase b.time h0 hbase hleaf hfit
  refine ⟨dn, fn, h1, h2, h3, ?_, ?_⟩
  · exact ⟨base ++ ascii "-", ascii "-" ++ decimal b.time ++ ascii ".split", by simp⟩
  · intro vf hvf
    exact create_makes_file b o ty pn p dn fn _ d calls vf lcpl_id type_id space_id dcpl_id
      dapl_id dxpl_id req hpar h1 h3 h2 h0 hvf

theorem child_file_name_format_witness :
    ∃ dn fn, dataset_create_file_name ((cstr (ascii "master.h5")).set 6 0)
        (cstr (ascii "/Data1/Compressed_Data"))
        (sample_backend (some (ascii "master.h5")) 1700000000).time = some (some (dn, fn))
      ∧ cstring dn = some (ascii "Compressed_Data")
      ∧ cstring fn
          = some (ascii "master" ++ ascii "-" ++ ascii "Compressed_Data" ++ ascii "-"
              ++ decimal (sample_backend (some (ascii "master.h5")) 1700000000).time
              ++ ascii ".split")
      ∧ ascii "Compressed_Data" <:+: ascii "master" ++ ascii "-" ++ ascii "Compressed_Data"
          ++ ascii "-" ++ decimal (sample_backend (some (ascii "master.h5")) 1700000000).time
          ++ ascii ".split"
      ∧ ∀ vf, (sample_backend (some (ascii "master.h5")) 1700000000).object_file
            sample_loc.under_object = some vf →
          ∃ r, H5VL_dset_split_dataset_create
              (sample_backend (some (ascii "master.h5")) 1700000000) sample_loc H5I_FILE
              (cstr (ascii "/Data1/Compressed_Data")) 1 2 3 4 5 6 none = some r
            ∧ Call.H5Fcreate
                (ascii "master" ++ ascii "-" ++ ascii "Compressed_Data" ++ ascii "-"
                  ++ decimal (sample_backend (some (ascii "master.h5")) 1700000000).time
                  ++ ascii ".split")
                H5F_ACC_TRUNC
                ((sample_backend (some (ascii "master.h5")) 1700000000).H5Pcopy
                  (get_parent_file_fcpl (sample_backend (some (ascii "master.h5")) 1700000000)
                    vf sample_loc.under_vol_id).1)
                ((sample_backend (some (ascii "master.h5")) 1700000000).H5Pcopy
                  (get_parent_file_fapl (sample_backend (some (ascii "master.h5")) 1700000000)
                    vf sample_loc.under_vol_id).1) ∈ r.calls :=
  child_file_name_format (sample_backend (some (ascii "master.h5")) 1700000000) sample_loc
    H5I_FILE ((cstr (ascii "master.h5")).set 6 0) (ascii "master")
    (ascii "/Data1/Compressed_Data") (ascii "Compressed_Data")
    [Call.H5VLfile_get_name 4 3 H5I_FILE false 0, Call.H5VLfile_get_name 4 3 H5I_FILE true 10]
    1 2 3 4 5 6 none (by decide) (by decide) (by decide) (by decide) (by decide)

/-- The scenario of the specification, through the whole create call: for
the parent `master.h5` and the path `/Data1/Compressed_Data` the child
container is created under the name `master-Compressed_Data-<t>.split`. -/
theorem create_master_example :
    ∃ r, H5VL_dset_split_dataset_create (sample_backend (some (ascii "master.h5")) 1700000000)
        sample_loc H5I_FILE (cstr (ascii "/Data1/Compressed_Data")) 1 2 3 4 5 6 none = some r
      ∧ Call.H5Fcreate (ascii "master-Compressed_Data-1700000000.split") H5F_ACC_TRUNC 111 112
          ∈ r.calls := by
  refine ⟨_, rfl, ?_⟩
  decide

/-- C8: when the name query succeeds with the empty name, `parent_name`
holds `Split` and, for a path with leaf `d` that fits `file_name[1000]`,
the child file name is `Split-d-t.split`; when the file object of the
location is found, the child container is created under that name. -/
theorem child_file_name_split_fallback (b : Backend) (o : H5VL_dset_split_t) (ty : Int)
    (p d : List Nat) (lcpl_id type_id space_id dcpl_id dapl_id dxpl_id : Int)
    (req : Option Nat)
    (hq : b.file_name o.under_object ty = some []) (h0 : 0 ∉ p)
    (hleaf : leaf_of p = some (some d))
    (hfit : d.length + (decimal b.time).length + 14 ≤ 1000) :
    ∃ pn calls dn fn, dataset_create_parent_name b o ty = some (pn, calls)
      ∧ cstring pn = some (ascii "Split")
      ∧ dataset_create_file_name pn (cstr p) b.time = some (some (dn, fn))
      ∧ cstring fn
          = some (ascii "Split" ++ ascii "-" ++ d ++ ascii "-" ++ decimal b.time
              ++ ascii ".split")
      ∧ ∀ vf, b.object_file o.under_object = some vf →
          ∃ r, H5VL_dset_split_dataset_create b o ty (cstr p) lcpl_id type_id space_id dcpl_id
              dapl_id dxpl_id req = some r
            ∧ Call.H5Fcreate
                (ascii "Split" ++ ascii "-" ++ d ++ ascii "-" ++ decimal b.time
                  ++ ascii ".split")
                H5F_ACC_TRUNC
                (b.H5Pcopy (get_parent_file_fcpl b vf o.under_vol_id).1)
                (b.H5Pcopy (get_parent_file_fapl b vf o.under_vol_id).1) ∈ r.calls := by
  have hpar := parent_name_of_empty b o ty hq
  have hbase : cstring (cstr (ascii "Split")) = some (ascii "Split") := by decide
  have hl : (ascii "Split").length = 5 := by decide
  obtain ⟨dn, fn, hfn, hd, hname⟩ :=
    file_name_phase b.time h0 hbase hleaf (by rw [hl]; omega)
  refine ⟨_, _, dn, fn, hpar, hbase, hfn, hname, ?_⟩
  intro vf hvf
  exact create_makes_file b o ty _ p dn fn _ d _ vf lcpl_id type_id space_id dcpl_id dapl_id
    dxpl_id req hpar hfn hname hd h0 hvf

theorem child_file_name_split_fallback_witness :
    ∃ pn calls dn fn,
      dataset_create_parent_name (sample_backend (some []) 1700000000) sample_loc H5I_FILE
        = some (pn, calls)
      ∧ cstring pn = some (ascii "Split")
      ∧ dataset_create_file_name pn (cstr (ascii "/A/B"))
          (sample_backend (some []) 1700000000).time = some (some (dn, fn))
      ∧ cstring fn
          = some (ascii "Split" ++ ascii "-" ++ ascii "B" ++ ascii "-"
              ++ decimal (sample_backend (some []) 1700000000).time ++ ascii ".split")
      ∧ ∀ vf, (sample_backend (some []) 1700000000).object_file sample_loc.under_object
            = some vf →
          ∃ r, H5VL_dset_split_dataset_create (sample_backend (some []) 1700000000) sample_loc
              H5I_FILE (cstr (ascii "/A/B")) 1 2 3 4 5 6 none = some r
            ∧ Call.H5Fcreate
                (ascii "Split" ++ ascii "-" ++ ascii "B" ++ ascii "-"
                  ++ decimal (sample_backend (some []) 1700000000).time ++ ascii ".split")
                H5F_ACC_TRUNC
                ((sample_backend (some []) 1700000000).H5Pcopy
                  (get_parent_file_fcpl (sample_backend (some []) 1700000000) vf
                    sample_loc.under_vol_id).1)
                ((sample_backend (some []) 1700000000).H5Pcopy
                  (get_parent_file_fapl (sample_backend (some []) 1700000000) vf
                    sample_loc.under_vol_id).1) ∈ r.calls :=
  child_file_name_split_fallback (sample_backend (some []) 1700000000) sample_loc H5I_FILE
    (ascii "/A/B") (ascii "B") 1 2 3 4 5 6 none rfl (by decide) (by decide) (by decide)

/-- C9 (the code differs): when the name query fails, `get_file_name`
returns `(size_t)-1`; that value is positive, so the test `size > 0` sends
the create call into the branch of the name: a buffer of
`(size + 1) mod 2^64 = 0` bytes is allocated, the query is repeated on it
and `dset_get_normalized_name` reads past it.  The branch that copies
`Split` is not taken. -/
theorem failed_name_query_skips_fallback :
    get_file_name (sample_backend none 17) sample_loc.under_object sample_loc.under_vol_id
        H5I_FILE none 0
        = some (SIZE_MAX, none, [Call.H5VLfile_get_name 4 3 H5I_FILE false 0])
      ∧ SIZE_MAX > 0
      ∧ (SIZE_MAX + 1) % (SIZE_MAX + 1) = 0
      ∧ get_file_name (sample_backend none 17) sample_loc.under_object sample_loc.under_vol_id
          H5I_FILE (some (calloc 0 1)) 0
          = some (SIZE_MAX, some [], [Call.H5VLfile_get_name 4 3 H5I_FILE true 0])
      ∧ dset_get_normalized_name [] = none
      ∧ dataset_create_parent_name (sample_backend none 17) sample_loc H5I_FILE = none
      ∧ H5VL_dset_split_dataset_create (sample_backend none 17) sample_loc H5I_FILE
          (cstr (ascii "/A/B")) 1 2 3 4 5 6 none = none := by
  decide

/-- C10: for one parent container name and one timestamp, two paths with the
same leaf `d`, given at two locations of any kinds (file or group), get the
same `parent_name`, the same child file name and the same link record,
whose object path is `/` followed by `d`. -/
theorem child_names_depend_on_leaf_only (b : Backend) (o1 o2 : H5VL_dset_split_t)
    (ty1 ty2 : Int) (n p1 p2 d : List Nat)
    (hq1 : b.file_name o1.under_object ty1 = some n)
    (hq2 : b.file_name o2.under_object ty2 = some n)
    (h1 : 0 ∉ p1) (h2 : 0 ∉ p2)
    (hl1 : leaf_of p1 = some (some d)) (hl2 : leaf_of p2 = some (some d))
    (hfit : n.length + d.length + (decimal b.time).length + 14 ≤ 1000) :
    ∃ pn dn1 fn1 dn2 fn2 fname buf size,
      (dataset_create_parent_name b o1 ty1).map Prod.fst = some pn
      ∧ (dataset_create_parent_name b o2 ty2).map Prod.fst = some pn
      ∧ dataset_create_file_name pn (cstr p1) b.time = some (some (dn1, fn1))
      ∧ dataset_create_file_name pn (cstr p2) b.time = some (some (dn2, fn2))
      ∧ cstring fn1 = some fname ∧ cstring fn2 = some fname
      ∧ extlink_encode fn1 dn1 = some (buf, size)
      ∧ extlink_encode fn2 dn2 = some (buf, size)
      ∧ extlink_decode buf size = some (0, 0, fname, ascii "/" ++ d) := by
  have hlen : n.length + 1 < SIZE_MAX + 1 := by
    have : (1000 : Nat) < SIZE_MAX := by decide
    omega
  obtain ⟨pn, calls, base, hpar, hbase, hbl, hpn⟩ := parent_name_defined b o1 ty1 n hq1 hlen
  obtain ⟨pn', calls', base', hpar', _, _, hpn'⟩ := parent_name_defined b o2 ty2 n hq2 hlen
  have hsame : pn' = pn := by
    rcases hpn with ⟨hn, e⟩ | ⟨hn, e⟩
    · rcases hpn' with ⟨_, e'⟩ | ⟨hn', _⟩
      · rw [e, e']
      · exact absurd hn hn'
    · rcases hpn' with ⟨hn', _⟩ | ⟨_, e'⟩
      · exact absurd hn' hn
      · rw [e] at e'
        exact (Option.some.inj e').symm
  have hfit' : base.length + d.length + (decimal b.time).length + 8 + 1 ≤ 1000 := by omega
  obtain ⟨dn1, fn1, hf1, hd1, hn1⟩ := file_name_phase b.time h1 hbase hl1 hfit'
  obtain ⟨dn2, fn2, hf2, hd2, hn2⟩ := file_name_phase b.time h2 hbase hl2 hfit'
  have he1 := extlink_encode_strings hn1 hd1
  have he2 := extlink_encode_strings hn2 hd2
  have hb0 := (cstring_eq_some hn1).1
  have hd0 := (cstring_eq_some hd1).1
  refine ⟨pn, dn1, fn1, dn2, fn2, _, _, _, ?_, ?_, hf1, hf2, hn1, hn2, he1, he2,
    extlink_decode_record _ d hb0 hd0⟩
  · rw [hpar]; rfl
  · rw [hpar', hsame]; rfl

theorem child_names_depend_on_leaf_only_witness :
    ∃ pn dn1 fn1 dn2 fn2 fname buf size,
      (dataset_create_parent_name (sample_backend (some (ascii "master.h5")) 1700000000)
          sample_loc H5I_FILE).map Prod.fst = some pn
      ∧ (dataset_create_parent_name (sample_backend (some (ascii "master.h5")) 1700000000)
          sample_group H5I_GROUP).map Prod.fst = some pn
      ∧ dataset_create_file_name pn (cstr (ascii "/Data1/Compressed_Data"))
          (sample_backend (some (ascii "master.h5")) 1700000000).time = some (some (dn1, fn1))
      ∧ dataset_create_file_name pn (cstr (ascii "Compressed_Data"))
          (sample_backend (some (ascii "master.h5")) 1700000000).time = some (some (dn2, fn2))
      ∧ cstring fn1 = some fname ∧ cstring fn2 = some fname
      ∧ extlink_encode fn1 dn1 = some (buf, size)
      ∧ extlink_encode fn2 dn2 = some (buf, size)
      ∧ extlink_decode buf size = some (0, 0, fname, ascii "/" ++ ascii "Compressed_Data") :=
  child_names_depend_on_leaf_only (sample_backend (some (ascii "master.h5")) 1700000000)
    sample_loc sample_group H5I_FILE H5I_GROUP (ascii "master.h5")
    (ascii "/Data1/Compressed_Data") (ascii "Compressed_Data") (ascii "Compressed_Data")
    rfl rfl (by decide) (by decide) (by decide) (by decide) (by decide)


/-! ## The trace of a create call -/

theorem get_parent_file_fcpl_calls (b : Backend) (file_obj : Nat) (connector_id : Int) :
    (get_parent_file_fcpl b file_obj connector_id).2
      = [Call.H5VLfile_get_fcpl file_obj connector_id] := by
  unfold get_parent_file_fcpl
  cases b.file_fcpl file_obj <;> rfl

theorem get_parent_file_fapl_calls (b : Backend) (file_obj : Nat) (connector_id : Int) :
    (get_parent_file_fapl b file_obj connector_id).2
      = [Call.H5VLfile_get_fapl file_obj connector_id] := by
  unfold get_parent_file_fapl
  cases b.file_fapl file_obj <;> rfl

/-- What `dset_split_file_create` did when it returned: either the file
object of the location was not found, and the invalid identifier is
returned after that one query, or the child container was created under
the name read at `name`, in truncate mode, with copies of the two property
lists of the parent, and the four lists were closed. -/
theorem file_create_inv {b : Backend} {name : List Nat} {obj : Nat} {obj_type cid file_id : Int}
    {calls : List Call}
    (h : dset_split_file_create b name obj obj_type cid = some (file_id, calls)) :
    (b.object_file obj = none ∧ file_id = H5I_INVALID_HID
      ∧ calls = [Call.H5VLobject_get_file obj LocType.H5VL_OBJECT_BY_SELF obj_type cid])
    ∨ ∃ vf text, b.object_file obj = some vf ∧ cstring name = some text
      ∧ file_id = b.H5Fcreate text H5F_ACC_TRUNC
          (b.H5Pcopy (get_parent_file_fcpl b vf cid).1)
          (b.H5Pcopy (get_parent_file_fapl b vf cid).1)
      ∧ calls
        = [Call.H5VLobject_get_file obj LocType.H5VL_OBJECT_BY_SELF obj_type cid,
           Call.H5VLfile_get_fcpl vf cid,
           Call.H5Pcopy (get_parent_file_fcpl b vf cid).1,
           Call.H5VLfile_get_fapl vf cid,
           Call.H5Pcopy (get_parent_file_fapl b vf cid).1,
           Call.H5Fcreate text H5F_ACC_TRUNC
             (b.H5Pcopy (get_parent_file_fcpl b vf cid).1)
             (b.H5Pcopy (get_parent_file_fapl b vf cid).1),
           Call.H5Pclose (b.H5Pcopy (get_parent_file_fapl b vf cid).1),
           Call.H5Pclose (get_parent_file_fapl b vf cid).1,
           Call.H5Pclose (b.H5Pcopy (get_parent_file_fcpl b vf cid).1),
           Call.H5Pclose (get_parent_file_fcpl b vf cid).1] := by
  unfold dset_split_file_create at h
  cases hv : b.object_file obj with
  | none =>
    simp only [hv, Option.some.injEq, Prod.mk.injEq] at h
    exact Or.inl ⟨rfl, h.1.symm, h.2.symm⟩
  | some vf =>
    simp only [hv] at h
    cases hn : cstring name with
    | none => simp [hn] at h
    | some text =>
      simp only [hn, Option.some.injEq, Prod.mk.injEq] at h
      refine Or.inr ⟨vf, text, rfl, rfl, h.1.symm, ?_⟩
      rw [← h.2, get_parent_file_fcpl_calls, get_parent_file_fapl_calls]
      rfl

/-- What `dset_split_extlink_create`, called as in line 1499, did when it
returned. -/
theorem extlink_create_inv {b : Backend} {o : H5VL_dset_split_t} {fn dn name : List Nat}
    {ty ret : Int} {calls : List Call}
    (h : dset_split_extlink_create b fn dn name ty o.under_object o.under_vol_id
      b.H5P_LINK_CREATE_DEFAULT b.H5P_LINK_CREATE_DEFAULT b.H5P_DATASET_XFER_DEFAULT
      = some (ret, calls)) :
    ∃ buf size path, extlink_encode fn dn = some (buf, size) ∧ cstring name = some path
      ∧ ret = b.H5VLlink_create (parent_link_args b o ty buf size path)
      ∧ calls = [Call.H5VLlink_create (parent_link_args b o ty buf size path)] := by
  unfold dset_split_extlink_create at h
  cases he : extlink_encode fn dn with
  | none => simp [he] at h
  | some x =>
    obtain ⟨buf, size⟩ := x
    cases hn : cstring name with
    | none => simp [he, hn] at h
    | some path =>
      simp only [he, hn, Option.some.injEq, Prod.mk.injEq] at h
      exact ⟨buf, size, path, rfl, rfl, h.1.symm, h.2.symm⟩

/-- The runs of `H5VL_dset_split_dataset_create`, step by step: the call
stops at the first step that fails and returns NULL with the calls made so
far; it returns the new object after all the steps. -/
theorem create_trace {b : Backend} {o : H5VL_dset_split_t} {ty : Int} {name : List Nat}
    {lcpl_id type_id space_id dcpl_id dapl_id dxpl_id : Int} {req : Option Nat}
    {r : CreateResult}
    (hrun : H5VL_dset_split_dataset_create b o ty name lcpl_id type_id space_id dcpl_id dapl_id
      dxpl_id req = some r) :
    ∃ pn calls1, dataset_create_parent_name b o ty = some (pn, calls1) ∧
      ((dataset_create_file_name pn name b.time = some none
          ∧ r = { calls := calls1, ret := none, req := none })
      ∨ ∃ dn fn file_id calls2,
          dataset_create_file_name pn name b.time = some (some (dn, fn))
          ∧ dset_split_file_create b fn o.under_object ty o.under_vol_id
              = some (file_id, calls2)
          ∧ ((file_id < 0 ∧ r = { calls := calls1 ++ calls2, ret := none, req := none })
            ∨ (0 ≤ file_id ∧ (dset_split_create_attribute b file_id).1 < 0
                ∧ r = { calls := calls1 ++ calls2 ++ [Call.H5VLobject file_id]
                          ++ (dset_split_create_attribute b file_id).2,
                        ret := none, req := none })
            ∨ ∃ leaf, 0 ≤ file_id ∧ 0 ≤ (dset_split_create_attribute b file_id).1
                ∧ cstring dn = some leaf
                ∧ ((b.H5VLdataset_create (child_dataset_args b o file_id leaf lcpl_id type_id
                        space_id dcpl_id dapl_id dxpl_id) = none
                    ∧ r = { calls := calls1 ++ calls2 ++ [Call.H5VLobject file_id]
                              ++ (dset_split_create_attribute b file_id).2
                              ++ [Call.H5VLdataset_create (child_dataset_args b o file_id leaf
                                    lcpl_id type_id space_id dcpl_id dapl_id dxpl_id)],
                            ret := none, req := none })
                  ∨ ∃ dset_under buf size path,
                      b.H5VLdataset_create (child_dataset_args b o file_id leaf lcpl_id type_id
                        space_id dcpl_id dapl_id dxpl_id) = some dset_under
                      ∧ extlink_encode fn dn = some (buf, size) ∧ cstring name = some path
                      ∧ ((b.H5VLlink_create (parent_link_args b o ty buf size path) < 0
                          ∧ r = { calls := calls1 ++ calls2 ++ [Call.H5VLobject file_id]
                                    ++ (dset_split_create_attribute b file_id).2
                                    ++ [Call.H5VLdataset_create (child_dataset_args b o file_id
                                          leaf lcpl_id type_id space_id dcpl_id dapl_id dxpl_id)]
                                    ++ [Call.H5VLlink_create
                                          (parent_link_args b o ty buf size path)],
                                  ret := none, req := none })
                        ∨ (0 ≤ b.H5VLlink_create (parent_link_args b o ty buf size path)
                          ∧ r = { calls := calls1 ++ calls2 ++ [Call.H5VLobject file_id]
                                    ++ (dset_split_create_attribute b file_id).2
                                    ++ [Call.H5VLdataset_create (child_dataset_args b o file_id
                                          leaf lcpl_id type_id space_id dcpl_id dapl_id dxpl_id)]
                                    ++ [Call.H5VLlink_create
                                          (parent_link_args b o ty buf size path)]
                                    ++ [Call.H5Iinc_ref o.under_vol_id]
                                    ++ (req.toList.map fun _ =>
                                          Call.H5Iinc_ref o.under_vol_id),
                                  ret := some { under_vol_id := o.under_vol_id,
                                                under_object := dset_under,
                                                type := H5I_DATASET, fid := file_id, set := 1 },
                                  req := req.map fun q =>
                                    { under_vol_id := o.under_vol_id, under_object := q,
                                      type := H5I_DATASET, fid := file_id, set := 1 } }))))) := by
  unfold H5VL_dset_split_dataset_create at hrun
  cases hpar : dataset_create_parent_name b o ty with
  | none => simp [hpar] at hrun
  | some x =>
    obtain ⟨pn, calls1⟩ := x
    refine ⟨pn, calls1, rfl, ?_⟩
    simp only [hpar] at hrun
    cases hfn : dataset_create_file_name pn name b.time with
    | none => simp [hfn] at hrun
    | some y =>
      cases y with
      | none =>
        simp only [hfn, Option.some.injEq] at hrun
        exact Or.inl ⟨rfl, hrun.symm⟩
      | some z =>
        obtain ⟨dn, fn⟩ := z
        right
        simp only [hfn] at hrun
        cases hfc : dset_split_file_create b fn o.under_object ty o.under_vol_id with
        | none => simp [hfc] at hrun
        | some w =>
          obtain ⟨file_id, calls2⟩ := w
          refine ⟨dn, fn, file_id, calls2, rfl, hfc, ?_⟩
          simp only [hfc] at hrun
          by_cases hid : file_id < 0
          · simp only [hid, if_true, Option.some.injEq] at hrun
            exact Or.inl ⟨hid, hrun.symm⟩
          · simp only [hid, if_false] at hrun
            have hid' : 0 ≤ file_id := Int.not_lt.1 hid
            right
            by_cases hst : (dset_split_create_attribute b file_id).1 < 0
            · simp only [hst, if_true, Option.some.injEq] at hrun
              exact Or.inl ⟨hid', hst, hrun.symm⟩
            · simp only [hst, if_false] at hrun
              have hst' : 0 ≤ (dset_split_create_attribute b file_id).1 := Int.not_lt.1 hst
              right
              cases hleaf : cstring dn with
              | none => simp [hleaf] at hrun
              | some leaf =>
                refine ⟨leaf, hid', hst', rfl, ?_⟩
                simp only [hleaf] at hrun
                change (match b.H5VLdataset_create (child_dataset_args b o file_id leaf lcpl_id
                    type_id space_id dcpl_id dapl_id dxpl_id) with
                  | none => _
                  | some dset_under => _) = some r at hrun
                cases hdc : b.H5VLdataset_create (child_dataset_args b o file_id leaf lcpl_id
                    type_id space_id dcpl_id dapl_id dxpl_id) with
                | none =>
                  simp only [hdc, Option.some.injEq] at hrun
                  exact Or.inl ⟨rfl, hrun.symm⟩
                | some dset_under =>
                  right
                  simp only [hdc] at hrun
                  cases hl : dset_split_extlink_create b fn dn name ty o.under_object
                      o.under_vol_id b.H5P_LINK_CREATE_DEFAULT b.H5P_LINK_CREATE_DEFAULT
                      b.H5P_DATASET_XFER_DEFAULT with
                  | none => simp [hl] at hrun
                  | some v =>
                    obtain ⟨ret, calls_link⟩ := v
                    obtain ⟨buf, size, path, henc, hpath, hret, hcalls⟩ := extlink_create_inv hl
                    refine ⟨dset_under, buf, size, path, rfl, henc, hpath, ?_⟩
                    simp only [hl] at hrun
                    subst hret hcalls
                    by_cases hlr : b.H5VLlink_create (parent_link_args b o ty buf size path) < 0
                    · simp only [hlr, if_true, Option.some.injEq] at hrun
                      exact Or.inl ⟨hlr, hrun.symm⟩
                    · simp only [hlr, if_false] at hrun
                      right
                      refine ⟨Int.not_lt.1 hlr, ?_⟩
                      cases req with
                      | none =>
                        simp only [Option.some.injEq] at hrun
                        subst hrun
                        simp [H5VL_dset_split_new_dataset_obj]
                        rfl
                      | some q =>
                        simp only [Option.some.injEq] at hrun
                        subst hrun
                        simp [H5VL_dset_split_new_dataset_obj]
                        rfl


theorem create_attribute_calls (b : Backend) (file_id : Int) :
    (dset_split_create_attribute b file_id).2
      = [Call.H5Tcopy b.H5T_NATIVE_INT32, Call.H5Screate SpaceClass.H5S_SCALAR,
         Call.H5Acreate file_id ATTRIBUTE_NAME (b.H5Tcopy b.H5T_NATIVE_INT32)
           (b.H5Screate SpaceClass.H5S_SCALAR) H5P_DEFAULT H5P_DEFAULT,
         Call.H5Awrite
           (b.H5Acreate file_id ATTRIBUTE_NAME (b.H5Tcopy b.H5T_NATIVE_INT32)
             (b.H5Screate SpaceClass.H5S_SCALAR))
           (b.H5Tcopy b.H5T_NATIVE_INT32) 1,
         Call.H5Sclose (b.H5Screate SpaceClass.H5S_SCALAR),
         Call.H5Aclose (b.H5Acreate file_id ATTRIBUTE_NAME (b.H5Tcopy b.H5T_NATIVE_INT32)
           (b.H5Screate SpaceClass.H5S_SCALAR))] := rfl

theorem create_attribute_status (b : Backend) (file_id : Int) :
    (dset_split_create_attribute b file_id).1
      = b.H5Awrite
          (b.H5Acreate file_id ATTRIBUTE_NAME (b.H5Tcopy b.H5T_NATIVE_INT32)
            (b.H5Screate SpaceClass.H5S_SCALAR))
          (b.H5Tcopy b.H5T_NATIVE_INT32) 1 := rfl

/-- The container was created when `dset_split_file_create` returned a
valid identifier. -/
theorem file_create_ok {b : Backend} {name : List Nat} {obj : Nat} {obj_type cid file_id : Int}
    {calls : List Call}
    (h : dset_split_file_create b name obj obj_type cid = some (file_id, calls))
    (hid : 0 ≤ file_id) :
    ∃ vf text, b.object_file obj = some vf ∧ cstring name = some text
      ∧ file_id = b.H5Fcreate text H5F_ACC_TRUNC
          (b.H5Pcopy (get_parent_file_fcpl b vf cid).1)
          (b.H5Pcopy (get_parent_file_fapl b vf cid).1)
      ∧ calls
        = [Call.H5VLobject_get_file obj LocType.H5VL_OBJECT_BY_SELF obj_type cid,
           Call.H5VLfile_get_fcpl vf cid,
           Call.H5Pcopy (get_parent_file_fcpl b vf cid).1,
           Call.H5VLfile_get_fapl vf cid,
           Call.H5Pcopy (get_parent_file_fapl b vf cid).1,
           Call.H5Fcreate text H5F_ACC_TRUNC
             (b.H5Pcopy (get_parent_file_fcpl b vf cid).1)
             (b.H5Pcopy (get_parent_file_fapl b vf cid).1),
           Call.H5Pclose (b.H5Pcopy (get_parent_file_fapl b vf cid).1),
           Call.H5Pclose (get_parent_file_fapl b vf cid).1,
           Call.H5Pclose (b.H5Pcopy (get_parent_file_fcpl b vf cid).1),
           Call.H5Pclose (get_parent_file_fcpl b vf cid).1] := by
  rcases file_create_inv h with ⟨_, hbad, _⟩ | h'
  · rw [hbad] at hid
    exact absurd hid (by decide)
  · exact h'

/-- Every link-create call of a run is the one of line 1499: it carries the
record encoded from `file_name` and `dsetname` and the caller's path. -/
theorem create_link_calls {b : Backend} {o : H5VL_dset_split_t} {ty : Int} {name : List Nat}
    {lcpl_id type_id space_id dcpl_id dapl_id dxpl_id : Int} {req : Option Nat}
    {r : CreateResult}
    (hrun : H5VL_dset_split_dataset_create b o ty name lcpl_id type_id space_id dcpl_id dapl_id
      dxpl_id req = some r)
    (l : LinkCreate) (hl : Call.H5VLlink_create l ∈ r.calls) :
    ∃ pn calls1 dn fn buf size path,
      dataset_create_parent_name b o ty = some (pn, calls1)
      ∧ dataset_create_file_name pn name b.time = some (some (dn, fn))
      ∧ extlink_encode fn dn = some (buf, size) ∧ cstring name = some path
      ∧ l = parent_link_args b o ty buf size path := by
  obtain ⟨pn, calls1, hpar, hcases⟩ := create_trace hrun
  have h1 := parent_name_calls b o ty pn calls1 hpar
  have hno1 : Call.H5VLlink_create l ∉ calls1 := by
    intro hm
    obtain ⟨_, _, e⟩ := h1 _ hm
    cases e
  have hno2 : ∀ {fn : List Nat} {file_id : Int} {calls2 : List Call},
      dset_split_file_create b fn o.under_object ty o.under_vol_id = some (file_id, calls2) →
      Call.H5VLlink_create l ∉ calls2 := by
    intro fn file_id calls2 hfc hm
    rcases file_create_inv hfc with ⟨_, _, e⟩ | ⟨_, _, _, _, _, e⟩ <;>
    · rw [e] at hm
      simp at hm
  rcases hcases with ⟨_, rfl⟩ | ⟨dn, fn, file_id, calls2, hfn, hfc, hcases⟩
  · exact absurd hl hno1
  · have hno2' := hno2 hfc
    rcases hcases with ⟨_, rfl⟩ | ⟨_, _, rfl⟩ | ⟨leaf, _, _, _, hcases⟩
    · simp [hno1, hno2'] at hl
    · simp [hno1, hno2', create_attribute_calls] at hl
    · rcases hcases with ⟨_, rfl⟩ | ⟨du, buf, size, path, _, henc, hpath, hcases⟩
      · simp [hno1, hno2', create_attribute_calls] at hl
      · refine ⟨pn, calls1, dn, fn, buf, size, path, hpar, hfn, henc, hpath, ?_⟩
        rcases hcases with ⟨_, rfl⟩ | ⟨_, rfl⟩
        · simpa [hno1, hno2', create_attribute_calls] using hl
        · cases req <;> simpa [hno1, hno2', create_attribute_calls] using hl


/-- Every dataset-create call of a run is the one of lines 1495-1496, made
on the child container that `dset_split_file_create` returned. -/
theorem create_dataset_calls {b : Backend} {o : H5VL_dset_split_t} {ty : Int} {name : List Nat}
    {lcpl_id type_id space_id dcpl_id dapl_id dxpl_id : Int} {req : Option Nat}
    {r : CreateResult}
    (hrun : H5VL_dset_split_dataset_create b o ty name lcpl_id type_id space_id dcpl_id dapl_id
      dxpl_id req = some r)
    (c : DatasetCreate) (hc : Call.H5VLdataset_create c ∈ r.calls) :
    ∃ pn calls1 dn fn file_id calls2 leaf,
      dataset_create_parent_name b o ty = some (pn, calls1)
      ∧ dataset_create_file_name pn name b.time = some (some (dn, fn))
      ∧ dset_split_file_create b fn o.under_object ty o.under_vol_id = some (file_id, calls2)
      ∧ 0 ≤ file_id ∧ cstring dn = some leaf
      ∧ c = child_dataset_args b o file_id leaf lcpl_id type_id space_id dcpl_id dapl_id
          dxpl_id := by
  obtain ⟨pn, calls1, hpar, hcases⟩ := create_trace hrun
  have h1 := parent_name_calls b o ty pn calls1 hpar
  have hno1 : Call.H5VLdataset_create c ∉ calls1 := by
    intro hm
    obtain ⟨_, _, e⟩ := h1 _ hm
    cases e
  have hno2 : ∀ {fn : List Nat} {file_id : Int} {calls2 : List Call},
      dset_split_file_create b fn o.under_object ty o.under_vol_id = some (file_id, calls2) →
      Call.H5VLdataset_create c ∉ calls2 := by
    intro fn file_id calls2 hfc hm
    rcases file_create_inv hfc with ⟨_, _, e⟩ | ⟨_, _, _, _, _, e⟩ <;>
    · rw [e] at hm
      simp at hm
  rcases hcases with ⟨_, rfl⟩ | ⟨dn, fn, file_id, calls2, hfn, hfc, hcases⟩
  · exact absurd hc hno1
  · have hno2' := hno2 hfc
    rcases hcases with ⟨_, rfl⟩ | ⟨_, _, rfl⟩ | ⟨leaf, hid, _, hleaf, hcases⟩
    · simp [hno1, hno2'] at hc
    · simp [hno1, hno2', create_attribute_calls] at hc
    · refine ⟨pn, calls1, dn, fn, file_id, calls2, leaf, hpar, hfn, hfc, hid, hleaf, ?_⟩
      rcases hcases with ⟨_, rfl⟩ | ⟨du, buf, size, path, _, _, _, hcases⟩
      · simpa [hno1, hno2', create_attribute_calls] using hc
      · rcases hcases with ⟨_, rfl⟩ | ⟨_, rfl⟩
        · simpa [hno1, hno2', create_attribute_calls] using hc
        · cases req <;> simpa [hno1, hno2', create_attribute_calls] using hc

/-- Every container a run creates is created by `dset_split_file_create`
under the name held in `file_name`, in truncate mode. -/
theorem create_file_calls {b : Backend} {o : H5VL_dset_split_t} {ty : Int} {name : List Nat}
    {lcpl_id type_id space_id dcpl_id dapl_id dxpl_id : Int} {req : Option Nat}
    {r : CreateResult}
    (hrun : H5VL_dset_split_dataset_create b o ty name lcpl_id type_id space_id dcpl_id dapl_id
      dxpl_id req = some r)
    (text : List Nat) (flags : Nat) (fcpl fapl : Int)
    (hc : Call.H5Fcreate text flags fcpl fapl ∈ r.calls) :
    ∃ pn calls1 dn fn vf,
      dataset_create_parent_name b o ty = some (pn, calls1)
      ∧ dataset_create_file_name pn name b.time = some (some (dn, fn))
      ∧ b.object_file o.under_object = some vf
      ∧ cstring fn = some text ∧ flags = H5F_ACC_TRUNC
      ∧ fcpl = b.H5Pcopy (get_parent_file_fcpl b vf o.under_vol_id).1
      ∧ fapl = b.H5Pcopy (get_parent_file_fapl b vf o.under_vol_id).1 := by
  obtain ⟨pn, calls1, hpar, hcases⟩ := create_trace hrun
  have h1 := parent_name_calls b o ty pn calls1 hpar
  have hno1 : Call.H5Fcreate text flags fcpl fapl ∉ calls1 := by
    intro hm
    obtain ⟨_, _, e⟩ := h1 _ hm
    cases e
  rcases hcases with ⟨_, rfl⟩ | ⟨dn, fn, file_id, calls2, hfn, hfc, hcases⟩
  · exact absurd hc hno1
  · have hin2 : Call.H5Fcreate text flags fcpl fapl ∈ calls2 := by
      rcases hcases with ⟨_, rfl⟩ | ⟨_, _, rfl⟩ | ⟨leaf, _, _, _, hcases⟩
      · simpa [hno1] using hc
      · simpa [hno1, create_attribute_calls] using hc
      · rcases hcases with ⟨_, rfl⟩ | ⟨du, buf, size, path, _, _, _, hcases⟩
        · simpa [hno1, create_attribute_calls] using hc
        · rcases hcases with ⟨_, rfl⟩ | ⟨_, rfl⟩
          · simpa [hno1, create_attribute_calls] using hc
          · cases req <;> simpa [hno1, create_attribute_calls] using hc
    rcases file_create_inv hfc with ⟨_, _, e⟩ | ⟨vf, text', hvf, htext, _, e⟩
    · rw [e] at hin2
      simp at hin2
    · rw [e] at hin2
      simp only [List.mem_cons, List.mem_singleton, List.not_mem_nil, or_false, reduceCtorEq,
        false_or, Call.H5Fcreate.injEq] at hin2
      obtain ⟨e1, e2, e3, e4⟩ := hin2
      exact ⟨pn, calls1, dn, fn, vf, hpar, hfn, hvf, by rw [htext, e1], e2, e3, e4⟩

/-- Every attribute write of a run is the one of `dset_split_create_attribute`
on the child container, and the run returns NULL when its status is
negative. -/
theorem create_awrite_calls {b : Backend} {o : H5VL_dset_split_t} {ty : Int} {name : List Nat}
    {lcpl_id type_id space_id dcpl_id dapl_id dxpl_id : Int} {req : Option Nat}
    {r : CreateResult}
    (hrun : H5VL_dset_split_dataset_create b o ty name lcpl_id type_id space_id dcpl_id dapl_id
      dxpl_id req = some r)
    (attr type_ value : Int) (hc : Call.H5Awrite attr type_ value ∈ r.calls) :
    ∃ file_id, attr = b.H5Acreate file_id ATTRIBUTE_NAME (b.H5Tcopy b.H5T_NATIVE_INT32)
          (b.H5Screate SpaceClass.H5S_SCALAR)
      ∧ type_ = b.H5Tcopy b.H5T_NATIVE_INT32 ∧ value = 1
      ∧ (b.H5Awrite attr type_ value < 0 → r.ret = none) := by
  obtain ⟨pn, calls1, hpar, hcases⟩ := create_trace hrun
  have h1 := parent_name_calls b o ty pn calls1 hpar
  have hno1 : Call.H5Awrite attr type_ value ∉ calls1 := by
    intro hm
    obtain ⟨_, _, e⟩ := h1 _ hm
    cases e
  have hno2 : ∀ {fn : List Nat} {file_id : Int} {calls2 : List Call},
      dset_split_file_create b fn o.under_object ty o.under_vol_id = some (file_id, calls2) →
      Call.H5Awrite attr type_ value ∉ calls2 := by
    intro fn file_id calls2 hfc hm
    rcases file_create_inv hfc with ⟨_, _, e⟩ | ⟨_, _, _, _, _, e⟩ <;>
    · rw [e] at hm
      simp at hm
  rcases hcases with ⟨_, rfl⟩ | ⟨dn, fn, file_id, calls2, hfn, hfc, hcases⟩
  · exact absurd hc hno1
  · have hno2' := hno2 hfc
    rcases hcases with ⟨_, rfl⟩ | ⟨_, hst, rfl⟩ | ⟨leaf, _, hst, _, hcases⟩
    · simp [hno1, hno2'] at hc
    · have := hc
      simp only [List.mem_append, hno1, hno2', create_attribute_calls, List.mem_cons,
        List.mem_singleton, List.not_mem_nil, or_false, reduceCtorEq, false_or,
        Call.H5Awrite.injEq] at this
      obtain ⟨e1, e2, e3⟩ := this
      exact ⟨file_id, e1, e2, e3, fun _ => rfl⟩
    · have key : attr = b.H5Acreate file_id ATTRIBUTE_NAME (b.H5Tcopy b.H5T_NATIVE_INT32)
            (b.H5Screate SpaceClass.H5S_SCALAR)
          ∧ type_ = b.H5Tcopy b.H5T_NATIVE_INT32 ∧ value = 1 := by
        rcases hcases with ⟨_, rfl⟩ | ⟨du, buf, size, path, _, _, _, hcases⟩
        · simpa [hno1, hno2', create_attribute_calls] using hc
        · rcases hcases with ⟨_, rfl⟩ | ⟨_, rfl⟩
          · simpa [hno1, hno2', create_attribute_calls] using hc
          · cases req <;> simpa [hno1, hno2', create_attribute_calls] using hc
      obtain ⟨e1, e2, e3⟩ := key
      refine ⟨file_id, e1, e2, e3, ?_⟩
      intro hneg
      rw [e1, e2, e3, ← create_attribute_status] at hneg
      omega

/-- A run that returns an object went through all the steps. -/
theorem create_success {b : Backend} {o : H5VL_dset_split_t} {ty : Int} {name : List Nat}
    {lcpl_id type_id space_id dcpl_id dapl_id dxpl_id : Int} {req : Option Nat}
    {r : CreateResult} {h : H5VL_dset_split_t}
    (hrun : H5VL_dset_split_dataset_create b o ty name lcpl_id type_id space_id dcpl_id dapl_id
      dxpl_id req = some r)
    (hret : r.ret = some h) :
    ∃ pn calls1 dn fn file_id calls2 leaf dset_under buf size path,
      dataset_create_parent_name b o ty = some (pn, calls1)
      ∧ dataset_create_file_name pn name b.time = some (some (dn, fn))
      ∧ dset_split_file_create b fn o.under_object ty o.under_vol_id = some (file_id, calls2)
      ∧ 0 ≤ file_id ∧ 0 ≤ (dset_split_create_attribute b file_id).1
      ∧ cstring dn = some leaf
      ∧ b.H5VLdataset_create (child_dataset_args b o file_id leaf lcpl_id type_id space_id
          dcpl_id dapl_id dxpl_id) = some dset_under
      ∧ extlink_encode fn dn = some (buf, size) ∧ cstring name = some path
      ∧ 0 ≤ b.H5VLlink_create (parent_link_args b o ty buf size path)
      ∧ r.calls = calls1 ++ calls2 ++ [Call.H5VLobject file_id]
          ++ (dset_split_create_attribute b file_id).2
          ++ [Call.H5VLdataset_create (child_dataset_args b o file_id leaf lcpl_id type_id
                space_id dcpl_id dapl_id dxpl_id)]
          ++ [Call.H5VLlink_create (parent_link_args b o ty buf size path)]
          ++ [Call.H5Iinc_ref o.under_vol_id]
          ++ (req.toList.map fun _ => Call.H5Iinc_ref o.under_vol_id)
      ∧ h = { under_vol_id := o.under_vol_id, under_object := dset_under, type := H5I_DATASET,
              fid := file_id, set := 1 }
      ∧ r.req = req.map fun q =>
          { under_vol_id := o.under_vol_id, under_object := q, type := H5I_DATASET,
            fid := file_id, set := 1 } := by
  obtain ⟨pn, calls1, hpar, hcases⟩ := create_trace hrun
  rcases hcases with ⟨_, rfl⟩ | ⟨dn, fn, file_id, calls2, hfn, hfc, hcases⟩
  · simp at hret
  · rcases hcases with ⟨_, rfl⟩ | ⟨_, _, rfl⟩ | ⟨leaf, hid, hst, hleaf, hcases⟩
    · simp at hret
    · simp at hret
    · rcases hcases with ⟨_, rfl⟩ | ⟨du, buf, size, path, hdc, henc, hpath, hcases⟩
      · simp at hret
      · rcases hcases with ⟨_, rfl⟩ | ⟨hlr, rfl⟩
        · simp at hret
        · simp only [Option.some.injEq] at hret
          exact ⟨pn, calls1, dn, fn, file_id, calls2, leaf, du, buf, size, path, hpar, hfn, hfc,
            hid, hst, hleaf, hdc, henc, hpath, hlr, rfl, hret.symm, rfl⟩


/-! ## The decimal text of the timestamp -/

theorem decDigits_fuel : ∀ (n fuel : Nat), n ≤ fuel → decDigits fuel n = decDigits n n := by
  intro n
  induction n using Nat.strong_induction_on with
  | _ n ih =>
    intro fuel hle
    cases n with
    | zero =>
      cases fuel with
      | zero => rfl
      | succ f => simp [decDigits]
    | succ m =>
      obtain ⟨f, rfl⟩ : ∃ f, fuel = f + 1 := ⟨fuel - 1, by omega⟩
      unfold decDigits
      by_cases hlt : m + 1 < 10
      · simp [hlt]
      · simp only [hlt, if_false]
        have hdiv : (m + 1) / 10 < m + 1 := Nat.div_lt_self (by omega) (by omega)
        rw [ih _ hdiv f (by omega), ih _ hdiv m (by omega)]

theorem decimalNat_unfold (n : Nat) :
    decimalNat n = if n < 10 then [48 + n] else decimalNat (n / 10) ++ [48 + n % 10] := by
  cases n with
  | zero => simp [decimalNat, decDigits]
  | succ m =>
    have e : decimalNat (m + 1)
        = if m + 1 < 10 then [48 + (m + 1)]
          else decDigits m ((m + 1) / 10) ++ [48 + (m + 1) % 10] := rfl
    rw [e]
    by_cases hlt : m + 1 < 10
    · simp [hlt]
    · simp only [hlt, if_false]
      have hdiv : (m + 1) / 10 < m + 1 := Nat.div_lt_self (by omega) (by omega)
      rw [decDigits_fuel _ m (by omega)]
      rfl

theorem decimalNat_ne_nil (n : Nat) : decimalNat n ≠ [] := by
  rw [decimalNat_unfold]
  split <;> simp

/-- Different numbers have different decimal texts. -/
theorem decimalNat_injective : ∀ (n m : Nat), decimalNat n = decimalNat m → n = m := by
  intro n
  induction n using Nat.strong_induction_on with
  | _ n ih =>
    intro m h
    rw [decimalNat_unfold n, decimalNat_unfold m] at h
    by_cases hn : n < 10 <;> by_cases hm : m < 10
    · simp only [hn, hm, if_true, List.cons.injEq, and_true] at h
      omega
    · simp only [hn, hm, if_true, if_false] at h
      have hl := congrArg List.length h
      have := List.length_pos.2 (decimalNat_ne_nil (m / 10))
      simp only [List.length_append, List.length_singleton] at hl
      omega
    · simp only [hn, hm, if_true, if_false] at h
      have hl := congrArg List.length h
      have := List.length_pos.2 (decimalNat_ne_nil (n / 10))
      simp only [List.length_append, List.length_singleton] at hl
      omega
    · simp only [hn, hm, if_false] at h
      obtain ⟨h1, h2⟩ := List.append_inj' h rfl
      have hdiv : n / 10 < n := Nat.div_lt_self (by omega) (by omega)
      have e1 := ih _ hdiv _ h1
      simp only [List.cons.injEq, and_true] at h2
      have := Nat.div_add_mod n 10
      have := Nat.div_add_mod m 10
      omega

/-- Different timestamps have different `%ld` texts. -/
theorem decimal_injective (s t : Int) (h : decimal s = decimal t) : s = t := by
  cases s with
  | ofNat n =>
    cases t with
    | ofNat m =>
      simp only [decimal] at h
      rw [decimalNat_injective n m h]
    | negSucc m =>
      simp only [decimal] at h
      have hmem : 45 ∈ decimalNat n := by rw [h]; simp
      have := decDigits_ge n n 45 hmem
      omega
  | negSucc n =>
    cases t with
    | ofNat m =>
      simp only [decimal] at h
      have hmem : 45 ∈ decimalNat m := by rw [← h]; simp
      have := decDigits_ge m m 45 hmem
      omega
    | negSucc m =>
      simp only [decimal, List.cons.injEq, true_and] at h
      have := decimalNat_injective _ _ h
      have e : n = m := by omega
      rw [e]

/-- Two formatted child file names with the same parent base and leaf are
equal exactly when the timestamps are. -/
theorem file_name_eq_iff (base d : List Nat) (s t : Int) :
    base ++ ascii "-" ++ d ++ ascii "-" ++ decimal s ++ ascii ".split"
        = base ++ ascii "-" ++ d ++ ascii "-" ++ decimal t ++ ascii ".split"
      ↔ s = t := by
  constructor
  · intro h
    have h1 := List.append_cancel_right h
    have h2 := List.append_cancel_left h1
    exact decimal_injective s t h2
  · intro h
    rw [h]


/-! ## The names of a run that formed them -/

theorem format_expand_none_left {pn : List Nat} (args : List FmtArg) (fmt : List Nat)
    (h : cstring pn = none) :
    format_expand (37 :: 115 :: fmt) (FmtArg.str pn :: args) = none := by
  simp [format_expand, h]

/-- Lines 1471-1482, read backwards: when `file_name` was formed, the path
is a string with a leaf `d`, `parent_name` holds a string `base`, `dsetname`
points at `d` and `file_name` holds `base-d-t.split`. -/
theorem file_name_phase_inv {pn name dn fn : List Nat} {t : Int}
    (h : dataset_create_file_name pn name t = some (some (dn, fn))) :
    ∃ p base d, cstring name = some p ∧ leaf_of p = some (some d)
      ∧ cstring pn = some base ∧ cstring dn = some d
      ∧ cstring fn
          = some (base ++ ascii "-" ++ d ++ ascii "-" ++ decimal t ++ ascii ".split") := by
  unfold dataset_create_file_name at h
  cases hname : cstring name with
  | none => simp [strlen, hname] at h
  | some p =>
    have hlen : strlen name = some p.length := by simp [strlen, hname]
    simp only [hlen, strcpy_calloc hname] at h
    cases hg : get_dataset_name (cstr p) with
    | none => simp [hg] at h
    | some x =>
      obtain ⟨q, mem⟩ := x
      cases q with
      | none => simp [hg] at h
      | some off =>
        simp only [hg] at h
        have hfmt : ascii "%s-%s-%ld%s" = [37, 115, 45, 37, 115, 45, 37, 108, 100, 37, 115] := by
          decide
        cases hb : cstring pn with
        | none =>
          simp [sprintf, hfmt, format_expand, hb] at h
        | some base =>
          cases hd : cstring (mem.drop off) with
          | none =>
            simp [sprintf, hfmt, format_expand, hb, hd] at h
          | some d =>
            have hf := format_file_name t hb hd
            unfold sprintf at h
            rw [hf] at h
            simp only [] at h
            cases hst : store (List.replicate 1000 0) 0
                (base ++ ascii "-" ++ d ++ ascii "-" ++ decimal t ++ ascii ".split" ++ [0]) with
            | none =>
              rw [hst] at h
              cases h
            | some fn' =>
              rw [hst] at h
              simp only [Option.some.injEq, Prod.mk.injEq] at h
              obtain ⟨h1, h2⟩ := h
              subst h1 h2
              refine ⟨p, base, d, rfl, ?_, rfl, hd, ?_⟩
              · simp [leaf_of, hg, hd]
              · have hb0 := (cstring_eq_some hb).1
                have hd0 := (cstring_eq_some hd).1
                have h0s : 0 ∉ base ++ ascii "-" ++ d ++ ascii "-" ++ decimal t
                    ++ ascii ".split" := by
                  have e1 : 0 ∉ ascii "-" := by decide
                  have e2 : 0 ∉ ascii ".split" := by decide
                  have e3 := zero_not_mem_decimal t
                  simp only [List.mem_append, not_or]
                  exact ⟨⟨⟨⟨⟨hb0, e1⟩, hd0⟩, e1⟩, e3⟩, e2⟩
                unfold store at hst
                split at hst
                · simp only [Option.some.injEq] at hst
                  rw [← hst, List.take_zero, List.nil_append, List.append_assoc _ [0]]
                  exact cstring_append_nul _ _ h0s
                · simp at hst

theorem created_files_append (l1 l2 : List Call) :
    created_files (l1 ++ l2) = created_files l1 ++ created_files l2 := by
  simp [created_files, List.filterMap_append]

theorem created_files_parent {b : Backend} {o : H5VL_dset_split_t} {ty : Int}
    {pn : List Nat} {calls : List Call}
    (h : dataset_create_parent_name b o ty = some (pn, calls)) :
    created_files calls = [] := by
  have h1 := parent_name_calls b o ty pn calls h
  unfold created_files
  rw [List.filterMap_eq_nil_iff]
  intro c hc
  obtain ⟨_, _, e⟩ := h1 c hc
  rw [e]

/-- A run that returns an object created one container, under the name
held in `file_name`. -/
theorem created_files_success {b : Backend} {o : H5VL_dset_split_t} {ty : Int}
    {name : List Nat} {lcpl_id type_id space_id dcpl_id dapl_id dxpl_id : Int}
    {req : Option Nat} {r : CreateResult} {h : H5VL_dset_split_t}
    (hrun : H5VL_dset_split_dataset_create b o ty name lcpl_id type_id space_id dcpl_id dapl_id
      dxpl_id req = some r)
    (hret : r.ret = some h) :
    ∃ pn calls1 dn fn text, dataset_create_parent_name b o ty = some (pn, calls1)
      ∧ dataset_create_file_name pn name b.time = some (some (dn, fn))
      ∧ cstring fn = some text ∧ created_files r.calls = [text] := by
  obtain ⟨pn, calls1, dn, fn, file_id, calls2, leaf, du, buf, size, path, hpar, hfn, hfc, hid,
    _, _, _, _, _, _, hcalls, _, _⟩ := create_success hrun hret
  obtain ⟨vf, text, _, htext, _, hc2⟩ := file_create_ok hfc hid
  refine ⟨pn, calls1, dn, fn, text, hpar, hfn, htext, ?_⟩
  rw [hcalls]
  simp only [created_files_append, created_files_parent hpar, hc2, create_attribute_calls]
  cases req <;> simp [created_files]


/-! ## The claims on the create call and on the handles -/

/-- The object `parent_name` of two runs whose name query gave the same
name is the same. -/
theorem parent_name_same {b1 b2 : Backend} {o1 o2 : H5VL_dset_split_t} {ty1 ty2 : Int}
    {n pn1 pn2 : List Nat} {calls1 calls2 : List Call}
    (hq1 : b1.file_name o1.under_object ty1 = some n)
    (hq2 : b2.file_name o2.under_object ty2 = some n)
    (hlen : n.length + 1 < SIZE_MAX + 1)
    (h1 : dataset_create_parent_name b1 o1 ty1 = some (pn1, calls1))
    (h2 : dataset_create_parent_name b2 o2 ty2 = some (pn2, calls2)) :
    pn1 = pn2 := by
  obtain ⟨p1, c1, _, e1, _, _, hp1⟩ := parent_name_defined b1 o1 ty1 n hq1 hlen
  obtain ⟨p2, c2, _, e2, _, _, hp2⟩ := parent_name_defined b2 o2 ty2 n hq2 hlen
  rw [h1] at e1
  rw [h2] at e2
  simp only [Option.some.injEq, Prod.mk.injEq] at e1 e2
  rw [e1.1, e2.1]
  rcases hp1 with ⟨hn, e⟩ | ⟨hn, e⟩
  · rcases hp2 with ⟨_, e'⟩ | ⟨hn', _⟩
    · rw [e, e']
    · exact absurd hn hn'
  · rcases hp2 with ⟨hn', _⟩ | ⟨_, e'⟩
    · exact absurd hn' hn
    · rw [e] at e'
      exact Option.some.inj e'

/-- C11 (as the code behaves): two successful split-creates at the same
path in the same parent container create their child containers under names
that are equal exactly when the two calls read the same value of
`time(NULL)`: distinct in different seconds, the same within one second. -/
theorem child_file_names_equal_iff_same_second (b1 b2 : Backend) (o : H5VL_dset_split_t)
    (ty : Int) (n name : List Nat)
    (lcpl_id type_id space_id dcpl_id dapl_id dxpl_id : Int) (req1 req2 : Option Nat)
    (r1 r2 : CreateResult) (h1 h2 : H5VL_dset_split_t)
    (hq1 : b1.file_name o.under_object ty = some n)
    (hq2 : b2.file_name o.under_object ty = some n)
    (hlen : n.length + 1 < SIZE_MAX + 1)
    (hrun1 : H5VL_dset_split_dataset_create b1 o ty name lcpl_id type_id space_id dcpl_id
      dapl_id dxpl_id req1 = some r1)
    (hret1 : r1.ret = some h1)
    (hrun2 : H5VL_dset_split_dataset_create b2 o ty name lcpl_id type_id space_id dcpl_id
      dapl_id dxpl_id req2 = some r2)
    (hret2 : r2.ret = some h2) :
    ∃ f1 f2, created_files r1.calls = [f1] ∧ created_files r2.calls = [f2]
      ∧ (f1 = f2 ↔ b1.time = b2.time) := by
  obtain ⟨pn1, c1, dn1, fn1, f1, hp1, hfn1, ht1, hcf1⟩ := created_files_success hrun1 hret1
  obtain ⟨pn2, c2, dn2, fn2, f2, hp2, hfn2, ht2, hcf2⟩ := created_files_success hrun2 hret2
  have hpn := parent_name_same hq1 hq2 hlen hp1 hp2
  subst hpn
  obtain ⟨p, base, d, hn, hl, hb, _, hf1⟩ := file_name_phase_inv hfn1
  obtain ⟨p', base', d', hn', hl', hb', _, hf2⟩ := file_name_phase_inv hfn2
  rw [hn] at hn'
  rw [hb] at hb'
  have ep : p' = p := (Option.some.inj hn').symm
  have eb : base' = base := (Option.some.inj hb').symm
  subst ep eb
  rw [hl] at hl'
  have ed : d' = d := (Option.some.inj (Option.some.inj hl')).symm
  subst ed
  rw [ht1] at hf1
  rw [ht2] at hf2
  refine ⟨f1, f2, hcf1, hcf2, ?_⟩
  rw [Option.some.inj hf1, Option.some.inj hf2]
  exact file_name_eq_iff _ _ b1.time b2.time

theorem child_file_names_equal_iff_same_second_witness :
    ∃ f1 f2, created_files (sample_run 1700000000).calls = [f1]
      ∧ created_files (sample_run 1700000001).calls = [f2]
      ∧ (f1 = f2 ↔ (sample_backend (some (ascii "master.h5")) 1700000000).time
            = (sample_backend (some (ascii "master.h5")) 1700000001).time) :=
  child_file_names_equal_iff_same_second
    (sample_backend (some (ascii "master.h5")) 1700000000)
    (sample_backend (some (ascii "master.h5")) 1700000001) sample_loc H5I_FILE
    (ascii "master.h5") (cstr (ascii "/Data1/Compressed_Data")) 1 2 3 4 5 6 none none
    (sample_run 1700000000) (sample_run 1700000001) sample_owner sample_owner
    rfl rfl (by decide) rfl rfl rfl rfl

/-- C11 (the claim fails): two split-creates at the same path in the same
parent container within the same second, both successful, create their
child containers under the same name, whatever else differs in the state of
the library. -/
theorem same_second_same_child_file :
    ∃ r1 r2 h1 h2,
      H5VL_dset_split_dataset_create (sample_backend (some (ascii "master.h5")) 1700000000)
        sample_loc H5I_FILE (cstr (ascii "/Data1/Compressed_Data")) 1 2 3 4 5 6 none = some r1
      ∧ H5VL_dset_split_dataset_create
          { sample_backend (some (ascii "master.h5")) 1700000000 with
            H5Fcreate := fun _ _ _ _ => 51, H5VLdataset_create := fun _ => some 19 }
          sample_loc H5I_FILE (cstr (ascii "/Data1/Compressed_Data")) 1 2 3 4 5 6 none = some r2
      ∧ r1.ret = some h1 ∧ r2.ret = some h2 ∧ h1 ≠ h2
      ∧ created_files r1.calls = [ascii "master-Compressed_Data-1700000000.split"]
      ∧ created_files r2.calls = [ascii "master-Compressed_Data-1700000000.split"] := by
  refine ⟨_, _, _, _, rfl, rfl, rfl, rfl, ?_, ?_, ?_⟩ <;> decide


/-- C12: in a successful create the one child container is created under a
name `text`; the one dataset is created on that container under a name
`leaf`; and the one link record installed in the parent names the file
`text` and the object path `/` followed by `leaf`. -/
theorem link_record_names_created_child (b : Backend) (o : H5VL_dset_split_t) (ty : Int)
    (name : List Nat) (lcpl_id type_id space_id dcpl_id dapl_id dxpl_id : Int)
    (req : Option Nat) (r : CreateResult) (h : H5VL_dset_split_t)
    (hrun : H5VL_dset_split_dataset_create b o ty name lcpl_id type_id space_id dcpl_id dapl_id
      dxpl_id req = some r)
    (hret : r.ret = some h) :
    ∃ text fcpl fapl leaf buf size path,
      created_files r.calls = [text]
      ∧ Call.H5Fcreate text H5F_ACC_TRUNC fcpl fapl ∈ r.calls
      ∧ (∀ c, Call.H5VLdataset_create c ∈ r.calls ↔
          c = child_dataset_args b o (b.H5Fcreate text H5F_ACC_TRUNC fcpl fapl) leaf lcpl_id
            type_id space_id dcpl_id dapl_id dxpl_id)
      ∧ (∀ l, Call.H5VLlink_create l ∈ r.calls ↔ l = parent_link_args b o ty buf size path)
      ∧ extlink_decode buf size = some (0, 0, text, ascii "/" ++ leaf) := by
  obtain ⟨pn, calls1, dn, fn, file_id, calls2, leaf, du, buf, size, path, hpar, hfn, hfc, hid,
    _, hleaf, _, henc, _, _, hcalls, _, _⟩ := create_success hrun hret
  obtain ⟨vf, text, _, htext, hfid, hc2⟩ := file_create_ok hfc hid
  obtain ⟨_, _, _, _, text', hpar', hfn', htext', hcf⟩ := created_files_success hrun hret
  rw [hpar] at hpar'
  simp only [Option.some.injEq, Prod.mk.injEq] at hpar'
  rw [← hpar'.1, hfn] at hfn'
  simp only [Option.some.injEq, Prod.mk.injEq] at hfn'
  rw [← hfn'.2, htext] at htext'
  have et : text' = text := (Option.some.inj htext').symm
  subst et
  have h1 := parent_name_calls b o ty pn calls1 hpar
  have hrec := extlink_encode_strings htext hleaf
  rw [henc] at hrec
  simp only [Option.some.injEq, Prod.mk.injEq] at hrec
  refine ⟨text', b.H5Pcopy (get_parent_file_fcpl b vf o.under_vol_id).1,
    b.H5Pcopy (get_parent_file_fapl b vf o.under_vol_id).1, leaf, buf, size, path, hcf,
    ?_, ?_, ?_, ?_⟩
  · rw [hcalls, hc2]
    simp
  · intro c
    have hno1 : Call.H5VLdataset_create c ∉ calls1 := by
      intro hm
      obtain ⟨_, _, e⟩ := h1 _ hm
      cases e
    rw [hcalls, hc2, ← hfid]
    cases req <;> simp [hno1, create_attribute_calls]
  · intro l
    have hno1 : Call.H5VLlink_create l ∉ calls1 := by
      intro hm
      obtain ⟨_, _, e⟩ := h1 _ hm
      cases e
    rw [hcalls, hc2]
    cases req <;> simp [hno1, create_attribute_calls]
  · rw [hrec.1, hrec.2]
    exact extlink_decode_record text' leaf (cstring_eq_some htext).1 (cstring_eq_some hleaf).1

theorem link_record_names_created_child_witness :
    ∃ text fcpl fapl leaf buf size path,
      created_files (sample_run 1700000000).calls = [text]
      ∧ Call.H5Fcreate text H5F_ACC_TRUNC fcpl fapl ∈ (sample_run 1700000000).calls
      ∧ (∀ c, Call.H5VLdataset_create c ∈ (sample_run 1700000000).calls ↔
          c = child_dataset_args (sample_backend (some (ascii "master.h5")) 1700000000)
            sample_loc
            ((sample_backend (some (ascii "master.h5")) 1700000000).H5Fcreate text
              H5F_ACC_TRUNC fcpl fapl) leaf 1 2 3 4 5 6)
      ∧ (∀ l, Call.H5VLlink_create l ∈ (sample_run 1700000000).calls ↔
          l = parent_link_args (sample_backend (some (ascii "master.h5")) 1700000000) sample_loc
            H5I_FILE buf size path)
      ∧ extlink_decode buf size = some (0, 0, text, ascii "/" ++ leaf) :=
  link_record_names_created_child (sample_backend (some (ascii "master.h5")) 1700000000)
    sample_loc H5I_FILE (cstr (ascii "/Data1/Compressed_Data")) 1 2 3 4 5 6 none
    (sample_run 1700000000) sample_owner rfl rfl

/-- C13: every link the create call installs is created by name at the
caller's path, the text of the caller's string itself, from the caller's
location object and with the kind of that location, as a user-defined link
of the external class carrying the record encoded from `file_name` and
`dsetname`; a successful create installs one. -/
theorem link_installed_at_callers_path (b : Backend) (o : H5VL_dset_split_t) (ty : Int)
    (name : List Nat) (lcpl_id type_id space_id dcpl_id dapl_id dxpl_id : Int)
    (req : Option Nat) (r : CreateResult)
    (hrun : H5VL_dset_split_dataset_create b o ty name lcpl_id type_id space_id dcpl_id dapl_id
      dxpl_id req = some r) :
    (∀ l, Call.H5VLlink_create l ∈ r.calls →
      cstring name = some l.loc_name
      ∧ l.loc_type = LocType.H5VL_OBJECT_BY_NAME
      ∧ l.vol_obj = o.under_object ∧ l.loc_obj_type = ty ∧ l.connector_id = o.under_vol_id
      ∧ l.op_type = LinkOp.H5VL_LINK_CREATE_UD ∧ l.ud_type = H5L_TYPE_EXTERNAL
      ∧ ∃ pn calls1 dn fn, dataset_create_parent_name b o ty = some (pn, calls1)
          ∧ dataset_create_file_name pn name b.time = some (some (dn, fn))
          ∧ extlink_encode fn dn = some (l.ud_buf, l.ud_buf_size))
    ∧ (r.ret ≠ none → ∃ l, Call.H5VLlink_create l ∈ r.calls) := by
  constructor
  · intro l hl
    obtain ⟨pn, calls1, dn, fn, buf, size, path, hpar, hfn, henc, hpath, rfl⟩ :=
      create_link_calls hrun l hl
    exact ⟨hpath, rfl, rfl, rfl, rfl, rfl, rfl, pn, calls1, dn, fn, hpar, hfn, henc⟩
  · intro hne
    obtain ⟨h, hret⟩ := Option.ne_none_iff_exists'.1 hne
    obtain ⟨_, _, _, _, _, _, _, _, buf, size, path, _, _, _, _, _, _, _, _, _, _, hcalls, _, _⟩ :=
      create_success hrun hret
    exact ⟨parent_link_args b o ty buf size path, by rw [hcalls]; simp⟩

theorem link_installed_at_callers_path_witness :
    (∀ l, Call.H5VLlink_create l ∈ (sample_run 1700000000).calls →
      cstring (cstr (ascii "/Data1/Compressed_Data")) = some l.loc_name
      ∧ l.loc_type = LocType.H5VL_OBJECT_BY_NAME
      ∧ l.vol_obj = sample_loc.under_object ∧ l.loc_obj_type = H5I_FILE
      ∧ l.connector_id = sample_loc.under_vol_id
      ∧ l.op_type = LinkOp.H5VL_LINK_CREATE_UD ∧ l.ud_type = H5L_TYPE_EXTERNAL
      ∧ ∃ pn calls1 dn fn,
          dataset_create_parent_name (sample_backend (some (ascii "master.h5")) 1700000000)
            sample_loc H5I_FILE = some (pn, calls1)
          ∧ dataset_create_file_name pn (cstr (ascii "/Data1/Compressed_Data"))
              (sample_backend (some (ascii "master.h5")) 1700000000).time
              = some (some (dn, fn))
          ∧ extlink_encode fn dn = some (l.ud_buf, l.ud_buf_size))
    ∧ ((sample_run 1700000000).ret ≠ none →
        ∃ l, Call.H5VLlink_create l ∈ (sample_run 1700000000).calls) :=
  link_installed_at_callers_path (sample_backend (some (ascii "master.h5")) 1700000000)
    sample_loc H5I_FILE (cstr (ascii "/Data1/Compressed_Data")) 1 2 3 4 5 6 none
    (sample_run 1700000000) rfl

/-- C14 (the claim fails): the caller passes the link-creation property
list 1, and the link-create call receives the default list 31 of the
library. -/
theorem link_create_ignores_callers_lcpl :
    ∃ r l,
      H5VL_dset_split_dataset_create (sample_backend (some (ascii "master.h5")) 1700000000)
        sample_loc H5I_FILE (cstr (ascii "/Data1/Compressed_Data")) 1 2 3 4 5 6 none = some r
      ∧ Call.H5VLlink_create l ∈ r.calls
      ∧ l.lcpl_id = (sample_backend (some (ascii "master.h5")) 1700000000).H5P_LINK_CREATE_DEFAULT
      ∧ l.lcpl_id ≠ 1 := by
  refine ⟨sample_run 1700000000,
    parent_link_args (sample_backend (some (ascii "master.h5")) 1700000000) sample_loc H5I_FILE
      (0 :: sample_child_name 1700000000 ++ 0 :: ascii "/Compressed_Data" ++ [0, 0])
      ((sample_child_name 1700000000).length + 20) (ascii "/Data1/Compressed_Data"),
    rfl, ?_, rfl, ?_⟩ <;> decide

/-- C14 (as the code behaves): every link the create call installs is
created with the default link-creation property list of the library,
whatever `lcpl_id` the caller passed; the caller's `lcpl_id` goes unchanged
to every dataset create on the child container. -/
theorem link_created_with_default_lcpl (b : Backend) (o : H5VL_dset_split_t) (ty : Int)
    (name : List Nat) (lcpl_id type_id space_id dcpl_id dapl_id dxpl_id : Int)
    (req : Option Nat) (r : CreateResult)
    (hrun : H5VL_dset_split_dataset_create b o ty name lcpl_id type_id space_id dcpl_id dapl_id
      dxpl_id req = some r) :
    (∀ l, Call.H5VLlink_create l ∈ r.calls → l.lcpl_id = b.H5P_LINK_CREATE_DEFAULT)
    ∧ (∀ c, Call.H5VLdataset_create c ∈ r.calls → c.lcpl_id = lcpl_id)
    ∧ (r.ret ≠ none → ∃ l c, Call.H5VLlink_create l ∈ r.calls
        ∧ Call.H5VLdataset_create c ∈ r.calls) := by
  refine ⟨?_, ?_, ?_⟩
  · intro l hl
    obtain ⟨_, _, _, _, _, _, _, _, _, _, _, rfl⟩ := create_link_calls hrun l hl
    rfl
  · intro c hc
    obtain ⟨_, _, _, _, _, _, _, _, _, _, _, _, rfl⟩ := create_dataset_calls hrun c hc
    rfl
  · intro hne
    obtain ⟨h, hret⟩ := Option.ne_none_iff_exists'.1 hne
    obtain ⟨_, _, _, _, file_id, _, leaf, _, buf, size, path, _, _, _, _, _, _, _, _, _, _,
      hcalls, _, _⟩ := create_success hrun hret
    exact ⟨parent_link_args b o ty buf size path,
      child_dataset_args b o file_id leaf lcpl_id type_id space_id dcpl_id dapl_id dxpl_id,
      by rw [hcalls]; simp, by rw [hcalls]; simp⟩

theorem link_created_with_default_lcpl_witness :
    (∀ l, Call.H5VLlink_create l ∈ (sample_run 1700000000).calls →
      l.lcpl_id = (sample_backend (some (ascii "master.h5")) 1700000000).H5P_LINK_CREATE_DEFAULT)
    ∧ (∀ c, Call.H5VLdataset_create c ∈ (sample_run 1700000000).calls → c.lcpl_id = 1)
    ∧ ((sample_run 1700000000).ret ≠ none →
        ∃ l c, Call.H5VLlink_create l ∈ (sample_run 1700000000).calls
          ∧ Call.H5VLdataset_create c ∈ (sample_run 1700000000).calls) :=
  link_created_with_default_lcpl (sample_backend (some (ascii "master.h5")) 1700000000)
    sample_loc H5I_FILE (cstr (ascii "/Data1/Compressed_Data")) 1 2 3 4 5 6 none
    (sample_run 1700000000) rfl


/-- Once the file phase is reached, the trace of the create call starts with
the calls of the name queries and of `dset_split_file_create`. -/
theorem create_calls_prefix {b : Backend} {o : H5VL_dset_split_t} {ty : Int} {name : List Nat}
    {lcpl_id type_id space_id dcpl_id dapl_id dxpl_id : Int} {req : Option Nat}
    {r : CreateResult} {pn dn fn : List Nat} {calls1 calls2 : List Call} {file_id : Int}
    (hrun : H5VL_dset_split_dataset_create b o ty name lcpl_id type_id space_id dcpl_id dapl_id
      dxpl_id req = some r)
    (hpar : dataset_create_parent_name b o ty = some (pn, calls1))
    (hfn : dataset_create_file_name pn name b.time = some (some (dn, fn)))
    (hfc : dset_split_file_create b fn o.under_object ty o.under_vol_id = some (file_id, calls2)) :
    ∃ tail, r.calls = calls1 ++ calls2 ++ tail := by
  obtain ⟨pn', calls1', hpar', hcases⟩ := create_trace hrun
  rw [hpar] at hpar'
  simp only [Option.some.injEq, Prod.mk.injEq] at hpar'
  obtain ⟨rfl, rfl⟩ := hpar'
  rw [hfn] at hcases
  rcases hcases with ⟨hbad, _⟩ | ⟨dn', fn', file_id', calls2', hfn', hfc', hrest⟩
  · cases hbad
  · simp only [Option.some.injEq, Prod.mk.injEq] at hfn'
    obtain ⟨rfl, rfl⟩ := hfn'
    rw [hfc] at hfc'
    simp only [Option.some.injEq, Prod.mk.injEq] at hfc'
    obtain ⟨rfl, rfl⟩ := hfc'
    rcases hrest with ⟨_, rfl⟩ | ⟨_, _, rfl⟩ | ⟨leaf, _, _, _, ⟨_, rfl⟩ |
      ⟨du, buf, size, path, _, _, _, ⟨_, rfl⟩ | ⟨_, rfl⟩⟩⟩
    · exact ⟨[], by simp⟩
    · exact ⟨_, by simp only [List.append_assoc]; rfl⟩
    · exact ⟨_, by simp only [List.append_assoc]; rfl⟩
    · exact ⟨_, by simp only [List.append_assoc]; rfl⟩
    · exact ⟨_, by simp only [List.append_assoc]; rfl⟩

/-- C15: every dataset the create call creates is created on the object of
the child container itself (location by-self, object kind file), with the
connector of the caller's location, under the name the leaf pointer reads,
and with the caller's type, space, dataset-creation and dataset-access
identifiers (and the caller's link-creation and transfer lists) unchanged;
a successful create creates one. -/
theorem dataset_created_at_child_root (b : Backend) (o : H5VL_dset_split_t) (ty : Int)
    (name : List Nat) (lcpl_id type_id space_id dcpl_id dapl_id dxpl_id : Int)
    (req : Option Nat) (r : CreateResult)
    (hrun : H5VL_dset_split_dataset_create b o ty name lcpl_id type_id space_id dcpl_id dapl_id
      dxpl_id req = some r) :
    (∀ c, Call.H5VLdataset_create c ∈ r.calls →
      c.loc_type = LocType.H5VL_OBJECT_BY_SELF ∧ c.loc_obj_type = H5I_FILE
      ∧ c.connector_id = o.under_vol_id
      ∧ c.type_id = type_id ∧ c.space_id = space_id ∧ c.dcpl_id = dcpl_id
      ∧ c.dapl_id = dapl_id ∧ c.lcpl_id = lcpl_id ∧ c.dxpl_id = dxpl_id
      ∧ ∃ pn calls1 dn fn text fcpl fapl,
          dataset_create_parent_name b o ty = some (pn, calls1)
          ∧ dataset_create_file_name pn name b.time = some (some (dn, fn))
          ∧ cstring dn = some c.name
          ∧ cstring fn = some text
          ∧ Call.H5Fcreate text H5F_ACC_TRUNC fcpl fapl ∈ r.calls
          ∧ c.obj = b.H5VLobject (b.H5Fcreate text H5F_ACC_TRUNC fcpl fapl))
    ∧ (r.ret ≠ none → ∃ c, Call.H5VLdataset_create c ∈ r.calls) := by
  constructor
  · intro c hc
    obtain ⟨pn, calls1, dn, fn, file_id, calls2, leaf, hpar, hfn, hfc, hid, hleaf, rfl⟩ :=
      create_dataset_calls hrun c hc
    obtain ⟨vf, text, _, htext, hfid, hc2⟩ := file_create_ok hfc hid
    refine ⟨rfl, rfl, rfl, rfl, rfl, rfl, rfl, rfl, rfl, pn, calls1, dn, fn, text,
      b.H5Pcopy (get_parent_file_fcpl b vf o.under_vol_id).1,
      b.H5Pcopy (get_parent_file_fapl b vf o.under_vol_id).1, hpar, hfn, hleaf, htext, ?_, ?_⟩
    · obtain ⟨tail, htail⟩ := create_calls_prefix hrun hpar hfn hfc
      rw [htail, hc2]
      simp
    · rw [← hfid]
      rfl
  · intro hne
    obtain ⟨h, hret⟩ := Option.ne_none_iff_exists'.1 hne
    obtain ⟨_, _, _, _, file_id, _, leaf, _, _, _, _, _, _, _, _, _, _, _, _, _, _,
      hcalls, _, _⟩ := create_success hrun hret
    exact ⟨child_dataset_args b o file_id leaf lcpl_id type_id space_id dcpl_id dapl_id dxpl_id,
      by rw [hcalls]; simp⟩

theorem dataset_created_at_child_root_witness :
    (∀ c, Call.H5VLdataset_create c ∈ (sample_run 1700000000).calls →
      c.loc_type = LocType.H5VL_OBJECT_BY_SELF ∧ c.loc_obj_type = H5I_FILE
      ∧ c.connector_id = sample_loc.under_vol_id
      ∧ c.type_id = 2 ∧ c.space_id = 3 ∧ c.dcpl_id = 4
      ∧ c.dapl_id = 5 ∧ c.lcpl_id = 1 ∧ c.dxpl_id = 6
      ∧ ∃ pn calls1 dn fn text fcpl fapl,
          dataset_create_parent_name (sample_backend (some (ascii "master.h5")) 1700000000)
            sample_loc H5I_FILE = some (pn, calls1)
          ∧ dataset_create_file_name pn (cstr (ascii "/Data1/Compressed_Data"))
              (sample_backend (some (ascii "master.h5")) 1700000000).time
              = some (some (dn, fn))
          ∧ cstring dn = some c.name
          ∧ cstring fn = some text
          ∧ Call.H5Fcreate text H5F_ACC_TRUNC fcpl fapl ∈ (sample_run 1700000000).calls
          ∧ c.obj = (sample_backend (some (ascii "master.h5")) 1700000000).H5VLobject
              ((sample_backend (some (ascii "master.h5")) 1700000000).H5Fcreate text
                H5F_ACC_TRUNC fcpl fapl))
    ∧ ((sample_run 1700000000).ret ≠ none →
        ∃ c, Call.H5VLdataset_create c ∈ (sample_run 1700000000).calls) :=
  dataset_created_at_child_root (sample_backend (some (ascii "master.h5")) 1700000000)
    sample_loc H5I_FILE (cstr (ascii "/Data1/Compressed_Data")) 1 2 3 4 5 6 none
    (sample_run 1700000000) rfl

/-- C16: in a successful create the trace reads: the creation of the child
container, then (after the property lists are closed and the object of the
container is fetched) the calls of `dset_split_create_attribute` on the
identifier of that container, with the name `split_file`, a copy of the
native 32-bit integer type, a scalar dataspace and the value 1, then the
creation of the dataset; no other attribute is created or written in the
call.  And in every run, a write of the attribute that fails makes the
create return NULL. -/
theorem marker_attribute_written_before_dataset (b : Backend) (o : H5VL_dset_split_t) (ty : Int)
    (name : List Nat) (lcpl_id type_id space_id dcpl_id dapl_id dxpl_id : Int)
    (req : Option Nat) (r : CreateResult)
    (hrun : H5VL_dset_split_dataset_create b o ty name lcpl_id type_id space_id dcpl_id dapl_id
      dxpl_id req = some r) :
    (r.ret ≠ none →
      ∃ before text fcpl fapl between leaf after,
        r.calls = before ++ [Call.H5Fcreate text H5F_ACC_TRUNC fcpl fapl] ++ between
          ++ [Call.H5Tcopy b.H5T_NATIVE_INT32, Call.H5Screate SpaceClass.H5S_SCALAR,
              Call.H5Acreate (b.H5Fcreate text H5F_ACC_TRUNC fcpl fapl) (ascii "split_file")
                (b.H5Tcopy b.H5T_NATIVE_INT32) (b.H5Screate SpaceClass.H5S_SCALAR)
                H5P_DEFAULT H5P_DEFAULT,
              Call.H5Awrite
                (b.H5Acreate (b.H5Fcreate text H5F_ACC_TRUNC fcpl fapl) (ascii "split_file")
                  (b.H5Tcopy b.H5T_NATIVE_INT32) (b.H5Screate SpaceClass.H5S_SCALAR))
                (b.H5Tcopy b.H5T_NATIVE_INT32) 1,
              Call.H5Sclose (b.H5Screate SpaceClass.H5S_SCALAR),
              Call.H5Aclose
                (b.H5Acreate (b.H5Fcreate text H5F_ACC_TRUNC fcpl fapl) (ascii "split_file")
                  (b.H5Tcopy b.H5T_NATIVE_INT32) (b.H5Screate SpaceClass.H5S_SCALAR))]
          ++ [Call.H5VLdataset_create
                (child_dataset_args b o (b.H5Fcreate text H5F_ACC_TRUNC fcpl fapl) leaf lcpl_id
                  type_id space_id dcpl_id dapl_id dxpl_id)]
          ++ after
        ∧ (∀ l n t s p q, Call.H5Acreate l n t s p q ∉ before ++ between ++ after)
        ∧ (∀ a t v, Call.H5Awrite a t v ∉ before ++ between ++ after))
    ∧ (∀ a t v, Call.H5Awrite a t v ∈ r.calls → b.H5Awrite a t v < 0 → r.ret = none) := by
  constructor
  · intro hne
    obtain ⟨h, hret⟩ := Option.ne_none_iff_exists'.1 hne
    obtain ⟨pn, calls1, dn, fn, file_id, calls2, leaf, du, buf, size, path, hpar, hfn, hfc, hid,
      _, hleaf, _, henc, _, _, hcalls, _, _⟩ := create_success hrun hret
    obtain ⟨vf, text, _, htext, hfid, hc2⟩ := file_create_ok hfc hid
    have h1 := parent_name_calls b o ty pn calls1 hpar
    refine ⟨calls1 ++ [Call.H5VLobject_get_file o.under_object LocType.H5VL_OBJECT_BY_SELF ty
          o.under_vol_id,
        Call.H5VLfile_get_fcpl vf o.under_vol_id,
        Call.H5Pcopy (get_parent_file_fcpl b vf o.under_vol_id).1,
        Call.H5VLfile_get_fapl vf o.under_vol_id,
        Call.H5Pcopy (get_parent_file_fapl b vf o.under_vol_id).1],
      text, b.H5Pcopy (get_parent_file_fcpl b vf o.under_vol_id).1,
      b.H5Pcopy (get_parent_file_fapl b vf o.under_vol_id).1,
      [Call.H5Pclose (b.H5Pcopy (get_parent_file_fapl b vf o.under_vol_id).1),
        Call.H5Pclose (get_parent_file_fapl b vf o.under_vol_id).1,
        Call.H5Pclose (b.H5Pcopy (get_parent_file_fcpl b vf o.under_vol_id).1),
        Call.H5Pclose (get_parent_file_fcpl b vf o.under_vol_id).1,
        Call.H5VLobject file_id],
      leaf,
      [Call.H5VLlink_create (parent_link_args b o ty buf size path),
        Call.H5Iinc_ref o.under_vol_id] ++ (req.toList.map fun _ => Call.H5Iinc_ref o.under_vol_id),
      ?_, ?_, ?_⟩
    · rw [hcalls, hc2, ← hfid, create_attribute_calls]
      simp [ATTRIBUTE_NAME]
    · intro l n t s p q
      have hno1 : Call.H5Acreate l n t s p q ∉ calls1 := by
        intro hm
        obtain ⟨_, _, e⟩ := h1 _ hm
        cases e
      cases req <;> simp [hno1]
    · intro a t v
      have hno1 : Call.H5Awrite a t v ∉ calls1 := by
        intro hm
        obtain ⟨_, _, e⟩ := h1 _ hm
        cases e
      cases req <;> simp [hno1]
  · intro a t v hm hneg
    obtain ⟨_, _, _, _, hfail⟩ := create_awrite_calls hrun a t v hm
    exact hfail hneg

theorem marker_attribute_written_before_dataset_witness :
    ((sample_run 1700000000).ret ≠ none →
      ∃ before text fcpl fapl between leaf after,
        (sample_run 1700000000).calls
          = before ++ [Call.H5Fcreate text H5F_ACC_TRUNC fcpl fapl] ++ between
          ++ [Call.H5Tcopy (sample_backend (some (ascii "master.h5")) 1700000000).H5T_NATIVE_INT32,
              Call.H5Screate SpaceClass.H5S_SCALAR,
              Call.H5Acreate
                ((sample_backend (some (ascii "master.h5")) 1700000000).H5Fcreate text
                  H5F_ACC_TRUNC fcpl fapl) (ascii "split_file")
                ((sample_backend (some (ascii "master.h5")) 1700000000).H5Tcopy
                  (sample_backend (some (ascii "master.h5")) 1700000000).H5T_NATIVE_INT32)
                ((sample_backend (some (ascii "master.h5")) 1700000000).H5Screate
                  SpaceClass.H5S_SCALAR)
                H5P_DEFAULT H5P_DEFAULT,
              Call.H5Awrite
                ((sample_backend (some (ascii "master.h5")) 1700000000).H5Acreate
                  ((sample_backend (some (ascii "master.h5")) 1700000000).H5Fcreate text
                    H5F_ACC_TRUNC fcpl fapl) (ascii "split_file")
                  ((sample_backend (some (ascii "master.h5")) 1700000000).H5Tcopy
                    (sample_backend (some (ascii "master.h5")) 1700000000).H5T_NATIVE_INT32)
                  ((sample_backend (some (ascii "master.h5")) 1700000000).H5Screate
                    SpaceClass.H5S_SCALAR))
                ((sample_backend (some (ascii "master.h5")) 1700000000).H5Tcopy
                  (sample_backend (some (ascii "master.h5")) 1700000000).H5T_NATIVE_INT32) 1,
              Call.H5Sclose
                ((sample_backend (some (ascii "master.h5")) 1700000000).H5Screate
                  SpaceClass.H5S_SCALAR),
              Call.H5Aclose
                ((sample_backend (some (ascii "master.h5")) 1700000000).H5Acreate
                  ((sample_backend (some (ascii "master.h5")) 1700000000).H5Fcreate text
                    H5F_ACC_TRUNC fcpl fapl) (ascii "split_file")
                  ((sample_backend (some (ascii "master.h5")) 1700000000).H5Tcopy
                    (sample_backend (some (ascii "master.h5")) 1700000000).H5T_NATIVE_INT32)
                  ((sample_backend (some (ascii "master.h5")) 1700000000).H5Screate
                    SpaceClass.H5S_SCALAR))]
          ++ [Call.H5VLdataset_create
                (child_dataset_args (sample_backend (some (ascii "master.h5")) 1700000000)
                  sample_loc
                  ((sample_backend (some (ascii "master.h5")) 1700000000).H5Fcreate text
                    H5F_ACC_TRUNC fcpl fapl) leaf 1 2 3 4 5 6)]
          ++ after
        ∧ (∀ l n t s p q, Call.H5Acreate l n t s p q ∉ before ++ between ++ after)
        ∧ (∀ a t v, Call.H5Awrite a t v ∉ before ++ between ++ after))
    ∧ (∀ a t v, Call.H5Awrite a t v ∈ (sample_run 1700000000).calls →
        (sample_backend (some (ascii "master.h5")) 1700000000).H5Awrite a t v < 0 →
        (sample_run 1700000000).ret = none) :=
  marker_attribute_written_before_dataset (sample_backend (some (ascii "master.h5")) 1700000000)
    sample_loc H5I_FILE (cstr (ascii "/Data1/Compressed_Data")) 1 2 3 4 5 6 none
    (sample_run 1700000000) rfl

/-- A run in which the write of the marker attribute fails: the create
returns NULL, and its trace ends with the calls of
`dset_split_create_attribute` (no dataset is created, no link installed). -/
theorem create_fails_on_attribute_write :
    (H5VL_dset_split_dataset_create
        { sample_backend (some (ascii "master.h5")) 1700000000 with
          H5Awrite := fun _ _ _ => -1 }
        sample_loc H5I_FILE (cstr (ascii "/Data1/Compressed_Data")) 1 2 3 4 5 6 none).map
      (fun r => (r.ret, r.calls.drop 12))
    = some (none,
        [Call.H5VLobject 50, Call.H5Tcopy 30, Call.H5Screate SpaceClass.H5S_SCALAR,
         Call.H5Acreate 50 (ascii "split_file") 60 61 H5P_DEFAULT H5P_DEFAULT,
         Call.H5Awrite 62 60 1, Call.H5Sclose 61, Call.H5Aclose 62]) := by
  decide

/-- C17: the object a successful create returns wraps the dataset the
underlying connector created on the child container, carries the connector
of the caller's location, holds the identifier of the container created in
the same call, and has its flag `set` at 1. -/
theorem create_returns_owning_handle (b : Backend) (o : H5VL_dset_split_t) (ty : Int)
    (name : List Nat) (lcpl_id type_id space_id dcpl_id dapl_id dxpl_id : Int)
    (req : Option Nat) (r : CreateResult) (h : H5VL_dset_split_t)
    (hrun : H5VL_dset_split_dataset_create b o ty name lcpl_id type_id space_id dcpl_id dapl_id
      dxpl_id req = some r)
    (hret : r.ret = some h) :
    ∃ text fcpl fapl c,
      Call.H5Fcreate text H5F_ACC_TRUNC fcpl fapl ∈ r.calls
      ∧ Call.H5VLdataset_create c ∈ r.calls
      ∧ c.obj = b.H5VLobject (b.H5Fcreate text H5F_ACC_TRUNC fcpl fapl)
      ∧ b.H5VLdataset_create c = some h.under_object
      ∧ h.under_vol_id = o.under_vol_id
      ∧ h.fid = b.H5Fcreate text H5F_ACC_TRUNC fcpl fapl
      ∧ 0 ≤ h.fid
      ∧ h.set = 1
      ∧ h.type = H5I_DATASET := by
  obtain ⟨pn, calls1, dn, fn, file_id, calls2, leaf, du, buf, size, path, hpar, hfn, hfc, hid,
    _, hleaf, hdu, henc, _, _, hcalls, hh, _⟩ := create_success hrun hret
  obtain ⟨vf, text, _, htext, hfid, hc2⟩ := file_create_ok hfc hid
  subst hh
  refine ⟨text, b.H5Pcopy (get_parent_file_fcpl b vf o.under_vol_id).1,
    b.H5Pcopy (get_parent_file_fapl b vf o.under_vol_id).1,
    child_dataset_args b o file_id leaf lcpl_id type_id space_id dcpl_id dapl_id dxpl_id,
    ?_, ?_, ?_, hdu, rfl, hfid, hid, rfl, rfl⟩
  · rw [hcalls, hc2]
    simp
  · rw [hcalls]
    simp
  · rw [← hfid]
    rfl

theorem create_returns_owning_handle_witness :
    ∃ text fcpl fapl c,
      Call.H5Fcreate text H5F_ACC_TRUNC fcpl fapl ∈ (sample_run 1700000000).calls
      ∧ Call.H5VLdataset_create c ∈ (sample_run 1700000000).calls
      ∧ c.obj = (sample_backend (some (ascii "master.h5")) 1700000000).H5VLobject
          ((sample_backend (some (ascii "master.h5")) 1700000000).H5Fcreate text H5F_ACC_TRUNC
            fcpl fapl)
      ∧ (sample_backend (some (ascii "master.h5")) 1700000000).H5VLdataset_create c
          = some sample_owner.under_object
      ∧ sample_owner.under_vol_id = sample_loc.under_vol_id
      ∧ sample_owner.fid
          = (sample_backend (some (ascii "master.h5")) 1700000000).H5Fcreate text H5F_ACC_TRUNC
              fcpl fapl
      ∧ 0 ≤ sample_owner.fid
      ∧ sample_owner.set = 1
      ∧ sample_owner.type = H5I_DATASET :=
  create_returns_owning_handle (sample_backend (some (ascii "master.h5")) 1700000000)
    sample_loc H5I_FILE (cstr (ascii "/Data1/Compressed_Data")) 1 2 3 4 5 6 none
    (sample_run 1700000000) sample_owner rfl rfl

/-! ## Handles, open and close -/

/-- The object a dataset open returns is built by `H5VL_dset_split_new_obj`
on the dataset of the underlying connector. -/
theorem open_ret_inv {b : Backend} {o : H5VL_dset_split_t} {name : List Nat}
    {dapl_id dxpl_id : Int} {req : Option Nat} {r : OpenResult} {h : H5VL_dset_split_t}
    (hrun : H5VL_dset_split_dataset_open b o name dapl_id dxpl_id req = some r)
    (hret : r.ret = some h) :
    ∃ text under, cstring name = some text
      ∧ b.H5VLdataset_open o.under_object o.under_vol_id text dapl_id dxpl_id = some under
      ∧ h = (H5VL_dset_split_new_obj under o.under_vol_id).1 := by
  unfold H5VL_dset_split_dataset_open at hrun
  cases hn : cstring name with
  | none => simp [hn] at hrun
  | some text =>
    simp only [hn] at hrun
    cases hu : b.H5VLdataset_open o.under_object o.under_vol_id text dapl_id dxpl_id with
    | none =>
      simp only [hu, Option.some.injEq] at hrun
      subst hrun
      cases hret
    | some under =>
      simp only [hu] at hrun
      refine ⟨text, under, rfl, hu, ?_⟩
      cases req with
      | none =>
        simp only [Option.some.injEq] at hrun
        subst hrun
        exact (Option.some.inj hret).symm
      | some q =>
        simp only [Option.some.injEq] at hrun
        subst hrun
        exact (Option.some.inj hret).symm

/-- When the close is reached with a request, the request is wrapped by
`H5VL_dset_split_new_obj`; the wrapper is released exactly when the value
returned is not negative, and the value returned is the status of `H5Fclose`
for an object with `set`, the status of the dataset close otherwise. -/
theorem dataset_close_ret (b : Backend) (o : H5VL_dset_split_t) (dxpl_id : Int)
    (req : Option Nat) :
    (H5VL_dset_split_dataset_close b o dxpl_id req).ret
      = (if o.set ≠ 0 then b.H5Fclose o.fid
         else b.H5VLdataset_close o.under_object o.under_vol_id dxpl_id)
    ∧ ((H5VL_dset_split_dataset_close b o dxpl_id req).released = true
        ↔ 0 ≤ (H5VL_dset_split_dataset_close b o dxpl_id req).ret) := by
  unfold H5VL_dset_split_dataset_close
  by_cases hs : o.set ≠ 0
  · by_cases hr : b.H5Fclose o.fid ≥ 0
    · simp [hs, hr]
    · simp [hs, hr]
  · by_cases hr : b.H5VLdataset_close o.under_object o.under_vol_id dxpl_id ≥ 0
    · simp [hs, hr]
    · simp [hs, hr]

/-- C18: a dataset handle the connector hands out has its flag `set`
non-zero if and only if it is the object returned by the create call (built
there by `H5VL_dset_split_new_dataset_obj`); the object returned by an open
has `set` and `fid` at zero, as has every object built by
`H5VL_dset_split_new_obj`, and every object built by
`H5VL_dset_split_new_dataset_obj` has `set` at 1. -/
theorem owns_child_iff_split_created (h : H5VL_dset_split_t) (split : Bool)
    (hd : DatasetHandle h split) :
    (h.set ≠ 0 ↔ split = true)
    ∧ (split = true → h.set = 1 ∧ ∃ under vol fid type,
        h = (H5VL_dset_split_new_dataset_obj under vol fid type).1)
    ∧ (split = false → h.set = 0 ∧ h.fid = 0 ∧ ∃ under vol,
        h = (H5VL_dset_split_new_obj under vol).1)
    ∧ (∀ under vol, (H5VL_dset_split_new_obj under vol).1.set = 0
        ∧ (H5VL_dset_split_new_obj under vol).1.fid = 0)
    ∧ (∀ under vol fid type, (H5VL_dset_split_new_dataset_obj under vol fid type).1.set = 1
        ∧ (H5VL_dset_split_new_dataset_obj under vol fid type).1.fid = fid) := by
  have hnew : ∀ under vol, (H5VL_dset_split_new_obj under vol).1.set = 0
      ∧ (H5VL_dset_split_new_obj under vol).1.fid = 0 := fun _ _ => ⟨rfl, rfl⟩
  have hnewd : ∀ under vol fid type,
      (H5VL_dset_split_new_dataset_obj under vol fid type).1.set = 1
      ∧ (H5VL_dset_split_new_dataset_obj under vol fid type).1.fid = fid :=
    fun _ _ _ _ => ⟨rfl, rfl⟩
  cases hd with
  | created b o ty name lcpl_id type_id space_id dcpl_id dapl_id dxpl_id req r _ hrun hret =>
    obtain ⟨_, _, _, _, file_id, _, _, du, _, _, _, _, _, _, _, _, _, _, _, _, _, _, hh, _⟩ :=
      create_success hrun hret
    subst hh
    refine ⟨by simp, fun _ => ⟨rfl, du, o.under_vol_id, file_id, H5I_DATASET, rfl⟩,
      fun hf => absurd hf (by decide), hnew, hnewd⟩
  | opened b o name dapl_id dxpl_id req r _ hrun hret =>
    obtain ⟨_, under, _, _, hh⟩ := open_ret_inv hrun hret
    subst hh
    refine ⟨by simp [H5VL_dset_split_new_obj], fun hf => absurd hf (by decide),
      fun _ => ⟨rfl, rfl, under, o.under_vol_id, rfl⟩, hnew, hnewd⟩

theorem owns_child_iff_split_created_witness :
    DatasetHandle sample_owner true
    ∧ ((sample_owner.set ≠ 0 ↔ true = true)
      ∧ (true = true → sample_owner.set = 1 ∧ ∃ under vol fid type,
          sample_owner = (H5VL_dset_split_new_dataset_obj under vol fid type).1)
      ∧ (true = false → sample_owner.set = 0 ∧ sample_owner.fid = 0 ∧ ∃ under vol,
          sample_owner = (H5VL_dset_split_new_obj under vol).1)
      ∧ (∀ under vol, (H5VL_dset_split_new_obj under vol).1.set = 0
          ∧ (H5VL_dset_split_new_obj under vol).1.fid = 0)
      ∧ (∀ under vol fid type, (H5VL_dset_split_new_dataset_obj under vol fid type).1.set = 1
          ∧ (H5VL_dset_split_new_dataset_obj under vol fid type).1.fid = fid)) :=
  ⟨DatasetHandle.created (sample_backend (some (ascii "master.h5")) 1700000000) sample_loc
      H5I_FILE (cstr (ascii "/Data1/Compressed_Data")) 1 2 3 4 5 6 none (sample_run 1700000000)
      sample_owner rfl rfl,
    owns_child_iff_split_created sample_owner true
      (DatasetHandle.created (sample_backend (some (ascii "master.h5")) 1700000000) sample_loc
        H5I_FILE (cstr (ascii "/Data1/Compressed_Data")) 1 2 3 4 5 6 none (sample_run 1700000000)
        sample_owner rfl rfl)⟩

/-- A handle returned by an open, on the sample backend: it is a dataset
handle of the open path, with `set` and `fid` at zero. -/
theorem opened_handle_example :
    H5VL_dset_split_dataset_open (sample_backend none 0) sample_loc
        (cstr (ascii "/Data1/Compressed_Data")) 5 6 none
      = some { calls := [Call.H5VLdataset_open 4 3 (ascii "/Data1/Compressed_Data"),
                         Call.H5Iinc_ref 3],
               ret := some { under_vol_id := 3, under_object := 10, type := 0, fid := 0,
                             set := 0 },
               req := none } := by
  decide

/-- C19: for an object with `set` non-zero, the close calls the dataset close
of the underlying connector on the wrapped dataset, then `H5Fclose` on the
`fid` of the object, and calls neither of them again, whatever the two calls
return. -/
theorem owning_close_closes_child_once (b : Backend) (o : H5VL_dset_split_t) (dxpl_id : Int)
    (req : Option Nat) (hset : o.set ≠ 0) :
    ∃ rest, (H5VL_dset_split_dataset_close b o dxpl_id req).calls
        = [Call.H5VLdataset_close o.under_object o.under_vol_id, Call.H5Fclose o.fid] ++ rest
      ∧ (∀ f, Call.H5Fclose f ∉ rest)
      ∧ (∀ d v, Call.H5VLdataset_close d v ∉ rest) := by
  unfold H5VL_dset_split_dataset_close
  by_cases hr : b.H5Fclose o.fid ≥ 0
  · cases req with
    | none =>
      exact ⟨[Call.H5Idec_ref o.under_vol_id],
        by simp [hset, hr, H5VL_dset_split_free_obj], by simp, by simp⟩
    | some q =>
      exact ⟨[Call.H5Iinc_ref o.under_vol_id, Call.H5Idec_ref o.under_vol_id],
        by simp [hset, hr, H5VL_dset_split_free_obj, H5VL_dset_split_new_obj], by simp,
        by simp⟩
  · cases req with
    | none => exact ⟨[], by simp [hset, hr], by simp, by simp⟩
    | some q =>
      exact ⟨[Call.H5Iinc_ref o.under_vol_id],
        by simp [hset, hr, H5VL_dset_split_new_obj], by simp, by simp⟩

theorem owning_close_closes_child_once_witness :
    sample_owner.set ≠ 0
    ∧ ∃ rest, (H5VL_dset_split_dataset_close sample_backend_close_fails sample_owner 6 none).calls
        = [Call.H5VLdataset_close sample_owner.under_object sample_owner.under_vol_id,
           Call.H5Fclose sample_owner.fid] ++ rest
      ∧ (∀ f, Call.H5Fclose f ∉ rest)
      ∧ (∀ d v, Call.H5VLdataset_close d v ∉ rest) :=
  ⟨by decide,
    owning_close_closes_child_once sample_backend_close_fails sample_owner 6 none (by decide)⟩

/-- C20 (the claim fails): on an object with `set`, when the dataset close
of the underlying connector fails (-1) and `H5Fclose` succeeds (0), the close
returns 0 and releases the wrapper: the reference count of the connector is
decremented. -/
theorem failed_dataset_close_releases_handle :
    sample_owner.set ≠ 0
    ∧ sample_backend_close_fails.H5VLdataset_close sample_owner.under_object
        sample_owner.under_vol_id 6 < 0
    ∧ 0 ≤ sample_backend_close_fails.H5Fclose sample_owner.fid
    ∧ H5VL_dset_split_dataset_close sample_backend_close_fails sample_owner 6 none
      = { calls := [Call.H5VLdataset_close 9 3, Call.H5Fclose 50, Call.H5Idec_ref 3],
          ret := 0, released := true, req := none } := by
  decide

/-! ## The claims on close, on the order of the steps and on the helpers -/

/-- C21 (the claim fails): on an object with `set`, when the dataset close of
the underlying connector fails (-1) and `H5Fclose` succeeds (0), the close
returns 0, which is not negative. -/
theorem failed_dataset_close_reported_as_success :
    sample_owner.set ≠ 0
    ∧ sample_backend_close_fails.H5VLdataset_close sample_owner.under_object
        sample_owner.under_vol_id 6 = -1
    ∧ sample_backend_close_fails.H5Fclose sample_owner.fid = 0
    ∧ (H5VL_dset_split_dataset_close sample_backend_close_fails sample_owner 6 none).ret = 0
    ∧ ¬ (H5VL_dset_split_dataset_close sample_backend_close_fails sample_owner 6 none).ret < 0
    ∧ (H5VL_dset_split_dataset_close sample_backend_close_fails sample_opened 6 none).ret
        = -1 := by
  decide

/-- The close of an object without `set`: the dataset close of the
underlying connector, the wrapping of the request when there is one, and the
release when the status is not negative. -/
theorem dataset_close_not_owner (b : Backend) (o : H5VL_dset_split_t) (dxpl_id : Int)
    (req : Option Nat) (hset : o.set = 0) :
    H5VL_dset_split_dataset_close b o dxpl_id req
      = { calls := [Call.H5VLdataset_close o.under_object o.under_vol_id]
            ++ (req.toList.map fun _ => Call.H5Iinc_ref o.under_vol_id)
            ++ (if 0 ≤ b.H5VLdataset_close o.under_object o.under_vol_id dxpl_id
                then [Call.H5Idec_ref o.under_vol_id] else []),
          ret := b.H5VLdataset_close o.under_object o.under_vol_id dxpl_id,
          released := decide (0 ≤ b.H5VLdataset_close o.under_object o.under_vol_id dxpl_id),
          req := req.map fun q => (H5VL_dset_split_new_obj q o.under_vol_id).1 } := by
  unfold H5VL_dset_split_dataset_close
  by_cases hr : b.H5VLdataset_close o.under_object o.under_vol_id dxpl_id ≥ 0
  · cases req <;> simp [hset, hr, H5VL_dset_split_free_obj, H5VL_dset_split_new_obj]
  · cases req <;> simp [hset, hr, H5VL_dset_split_free_obj, H5VL_dset_split_new_obj]

/-- C22: for the object `h` a dataset open returned, on any backend `b2`
and with any request, the close calls the dataset close of the underlying
connector on the dataset the open wrapped and no `H5Fclose`; it returns the
status of that call unchanged, and it releases the wrapper (one
`H5Idec_ref`) exactly when that status is not negative. -/
theorem opened_handle_close_closes_no_container (b : Backend) (o : H5VL_dset_split_t)
    (name : List Nat) (dapl_id dxpl_id : Int) (req : Option Nat) (r : OpenResult)
    (h : H5VL_dset_split_t) (b2 : Backend) (dxpl2 : Int) (req2 : Option Nat)
    (hrun : H5VL_dset_split_dataset_open b o name dapl_id dxpl_id req = some r)
    (hret : r.ret = some h) :
    (∀ f, Call.H5Fclose f ∉ (H5VL_dset_split_dataset_close b2 h dxpl2 req2).calls)
    ∧ (H5VL_dset_split_dataset_close b2 h dxpl2 req2).calls
        = [Call.H5VLdataset_close h.under_object h.under_vol_id]
          ++ (req2.toList.map fun _ => Call.H5Iinc_ref h.under_vol_id)
          ++ (if 0 ≤ b2.H5VLdataset_close h.under_object h.under_vol_id dxpl2
              then [Call.H5Idec_ref h.under_vol_id] else [])
    ∧ (H5VL_dset_split_dataset_close b2 h dxpl2 req2).ret
        = b2.H5VLdataset_close h.under_object h.under_vol_id dxpl2
    ∧ ((H5VL_dset_split_dataset_close b2 h dxpl2 req2).released = true
        ↔ 0 ≤ b2.H5VLdataset_close h.under_object h.under_vol_id dxpl2)
    ∧ ∃ text, cstring name = some text
        ∧ b.H5VLdataset_open o.under_object o.under_vol_id text dapl_id dxpl_id
            = some h.under_object := by
  obtain ⟨text, under, htext, hunder, hh⟩ := open_ret_inv hrun hret
  have hset : h.set = 0 := by rw [hh]; rfl
  have hobj : h.under_object = under := by rw [hh]; rfl
  rw [dataset_close_not_owner b2 h dxpl2 req2 hset]
  refine ⟨?_, rfl, rfl, by simp, text, htext, by rw [hobj]; exact hunder⟩
  intro f
  by_cases hr : 0 ≤ b2.H5VLdataset_close h.under_object h.under_vol_id dxpl2
  · cases req2 <;> simp [hr]
  · cases req2 <;> simp [hr]

theorem opened_handle_close_closes_no_container_witness :
    (∀ f, Call.H5Fclose f ∉
        (H5VL_dset_split_dataset_close sample_backend_close_fails sample_opened 6
          (some 77)).calls)
    ∧ (H5VL_dset_split_dataset_close sample_backend_close_fails sample_opened 6 (some 77)).calls
        = [Call.H5VLdataset_close sample_opened.under_object sample_opened.under_vol_id]
          ++ ((some 77).toList.map fun _ => Call.H5Iinc_ref sample_opened.under_vol_id)
          ++ (if 0 ≤ sample_backend_close_fails.H5VLdataset_close sample_opened.under_object
                sample_opened.under_vol_id 6
              then [Call.H5Idec_ref sample_opened.under_vol_id] else [])
    ∧ (H5VL_dset_split_dataset_close sample_backend_close_fails sample_opened 6 (some 77)).ret
        = sample_backend_close_fails.H5VLdataset_close sample_opened.under_object
            sample_opened.under_vol_id 6
    ∧ ((H5VL_dset_split_dataset_close sample_backend_close_fails sample_opened 6
          (some 77)).released = true
        ↔ 0 ≤ sample_backend_close_fails.H5VLdataset_close sample_opened.under_object
            sample_opened.under_vol_id 6)
    ∧ ∃ text, cstring (cstr (ascii "/Data1/Compressed_Data")) = some text
        ∧ (sample_backend none 0).H5VLdataset_open sample_loc.under_object
            sample_loc.under_vol_id text 5 6 = some sample_opened.under_object :=
  opened_handle_close_closes_no_container (sample_backend none 0) sample_loc
    (cstr (ascii "/Data1/Compressed_Data")) 5 6 none
    { calls := [Call.H5VLdataset_open 4 3 (ascii "/Data1/Compressed_Data"), Call.H5Iinc_ref 3],
      ret := some sample_opened, req := none }
    sample_opened sample_backend_close_fails 6 (some 77) (by decide) rfl

/-- The calls of the name queries and of `dset_split_file_create` hold no
write of an attribute, no creation of a dataset and no creation of a link. -/
theorem early_calls_hold_no_later_step {b : Backend} {o : H5VL_dset_split_t} {ty : Int}
    {pn fn : List Nat} {calls1 calls2 : List Call} {file_id : Int}
    (hpar : dataset_create_parent_name b o ty = some (pn, calls1))
    (hfc : dset_split_file_create b fn o.under_object ty o.under_vol_id = some (file_id, calls2)) :
    (∀ l n t s p q, Call.H5Acreate l n t s p q ∉ calls1 ++ calls2)
    ∧ (∀ a t v, Call.H5Awrite a t v ∉ calls1 ++ calls2)
    ∧ (∀ c, Call.H5VLdataset_create c ∉ calls1 ++ calls2)
    ∧ (∀ l, Call.H5VLlink_create l ∉ calls1 ++ calls2)
    ∧ (∀ f, Call.H5Fclose f ∉ calls1 ++ calls2)
    ∧ (∀ d v, Call.H5VLdataset_close d v ∉ calls1 ++ calls2)
    ∧ (∀ a, Call.H5Aclose a ∉ calls1 ++ calls2)
    ∧ (∀ i, Call.H5Idec_ref i ∉ calls1 ++ calls2)
    ∧ (file_id < 0 → ∀ text flags fcpl fapl, Call.H5Fcreate text flags fcpl fapl ∈ calls1 ++ calls2 →
        b.H5Fcreate text flags fcpl fapl < 0) := by
  have h1 := parent_name_calls b o ty pn calls1 hpar
  have hno1 : ∀ c, (∀ g s, c ≠ Call.H5VLfile_get_name o.under_object o.under_vol_id ty g s) →
      c ∉ calls1 := by
    intro c hc hm
    obtain ⟨g, s, e⟩ := h1 c hm
    exact hc g s e
  rcases file_create_inv hfc with ⟨_, _, hc2⟩ | ⟨vf, text, _, _, hid, hc2⟩
  · subst hc2
    refine ⟨?_, ?_, ?_, ?_, ?_, ?_, ?_, ?_, ?_⟩
    · intro l n t s p q
      simp [hno1 (Call.H5Acreate l n t s p q) (by simp)]
    · intro a t v
      simp [hno1 (Call.H5Awrite a t v) (by simp)]
    · intro c
      simp [hno1 (Call.H5VLdataset_create c) (by simp)]
    · intro l
      simp [hno1 (Call.H5VLlink_create l) (by simp)]
    · intro f
      simp [hno1 (Call.H5Fclose f) (by simp)]
    · intro d v
      simp [hno1 (Call.H5VLdataset_close d v) (by simp)]
    · intro a
      simp [hno1 (Call.H5Aclose a) (by simp)]
    · intro i
      simp [hno1 (Call.H5Idec_ref i) (by simp)]
    · intro _ text flags fcpl fapl hm
      simp [hno1 (Call.H5Fcreate text flags fcpl fapl) (by simp)] at hm
  · subst hc2
    refine ⟨?_, ?_, ?_, ?_, ?_, ?_, ?_, ?_, ?_⟩
    · intro l n t s p q
      simp [hno1 (Call.H5Acreate l n t s p q) (by simp)]
    · intro a t v
      simp [hno1 (Call.H5Awrite a t v) (by simp)]
    · intro c
      simp [hno1 (Call.H5VLdataset_create c) (by simp)]
    · intro l
      simp [hno1 (Call.H5VLlink_create l) (by simp)]
    · intro f
      simp [hno1 (Call.H5Fclose f) (by simp)]
    · intro d v
      simp [hno1 (Call.H5VLdataset_close d v) (by simp)]
    · intro a
      simp [hno1 (Call.H5Aclose a) (by simp)]
    · intro i
      simp [hno1 (Call.H5Idec_ref i) (by simp)]
    · intro hneg text' flags fcpl fapl hm
      simp [hno1 (Call.H5Fcreate text' flags fcpl fapl) (by simp)] at hm
      obtain ⟨rfl, rfl, rfl, rfl⟩ := hm
      rw [← hid]
      exact hneg

/-- C23: a create call that returns went through its steps in the order leaf
extraction, creation of the child container, write of the marker attribute,
creation of the dataset, installation of the link, and stopped at the first
step that failed: the trace ends with the calls of that step, the calls of
the later steps are absent, and NULL is returned; an object is returned only
when the five steps succeeded. -/
theorem create_steps_in_order_first_failure_aborts (b : Backend) (o : H5VL_dset_split_t)
    (ty : Int) (name : List Nat) (lcpl_id type_id space_id dcpl_id dapl_id dxpl_id : Int)
    (req : Option Nat) (r : CreateResult)
    (hrun : H5VL_dset_split_dataset_create b o ty name lcpl_id type_id space_id dcpl_id dapl_id
      dxpl_id req = some r) :
    ∃ pn calls1, dataset_create_parent_name b o ty = some (pn, calls1) ∧
      ((dataset_create_file_name pn name b.time = some none
          ∧ r.ret = none ∧ r.calls = calls1
          ∧ (∀ text flags fcpl fapl, Call.H5Fcreate text flags fcpl fapl ∉ r.calls)
          ∧ (∀ a t v, Call.H5Awrite a t v ∉ r.calls)
          ∧ (∀ c, Call.H5VLdataset_create c ∉ r.calls)
          ∧ (∀ l, Call.H5VLlink_create l ∉ r.calls))
      ∨ ∃ dn fn leaf file_id calls2,
          dataset_create_file_name pn name b.time = some (some (dn, fn))
          ∧ cstring dn = some leaf
          ∧ dset_split_file_create b fn o.under_object ty o.under_vol_id
              = some (file_id, calls2)
          ∧ ((file_id < 0
              ∧ r.ret = none ∧ r.calls = calls1 ++ calls2
              ∧ (∀ a t v, Call.H5Awrite a t v ∉ r.calls)
              ∧ (∀ c, Call.H5VLdataset_create c ∉ r.calls)
              ∧ (∀ l, Call.H5VLlink_create l ∉ r.calls))
            ∨ (0 ≤ file_id ∧ (dset_split_create_attribute b file_id).1 < 0
              ∧ r.ret = none
              ∧ r.calls = calls1 ++ calls2 ++ [Call.H5VLobject file_id]
                  ++ (dset_split_create_attribute b file_id).2
              ∧ (∀ c, Call.H5VLdataset_create c ∉ r.calls)
              ∧ (∀ l, Call.H5VLlink_create l ∉ r.calls))
            ∨ (0 ≤ file_id ∧ 0 ≤ (dset_split_create_attribute b file_id).1
              ∧ b.H5VLdataset_create (child_dataset_args b o file_id leaf lcpl_id type_id
                  space_id dcpl_id dapl_id dxpl_id) = none
              ∧ r.ret = none
              ∧ r.calls = calls1 ++ calls2 ++ [Call.H5VLobject file_id]
                  ++ (dset_split_create_attribute b file_id).2
                  ++ [Call.H5VLdataset_create (child_dataset_args b o file_id leaf lcpl_id
                        type_id space_id dcpl_id dapl_id dxpl_id)]
              ∧ (∀ l, Call.H5VLlink_create l ∉ r.calls))
            ∨ ∃ dset_under buf size path,
                0 ≤ file_id ∧ 0 ≤ (dset_split_create_attribute b file_id).1
                ∧ b.H5VLdataset_create (child_dataset_args b o file_id leaf lcpl_id type_id
                    space_id dcpl_id dapl_id dxpl_id) = some dset_under
                ∧ extlink_encode fn dn = some (buf, size) ∧ cstring name = some path
                ∧ ((b.H5VLlink_create (parent_link_args b o ty buf size path) < 0
                    ∧ r.ret = none
                    ∧ r.calls = calls1 ++ calls2 ++ [Call.H5VLobject file_id]
                        ++ (dset_split_create_attribute b file_id).2
                        ++ [Call.H5VLdataset_create (child_dataset_args b o file_id leaf
                              lcpl_id type_id space_id dcpl_id dapl_id dxpl_id)]
                        ++ [Call.H5VLlink_create (parent_link_args b o ty buf size path)])
                  ∨ (0 ≤ b.H5VLlink_create (parent_link_args b o ty buf size path)
                    ∧ r.ret ≠ none
                    ∧ r.calls = calls1 ++ calls2 ++ [Call.H5VLobject file_id]
                        ++ (dset_split_create_attribute b file_id).2
                        ++ [Call.H5VLdataset_create (child_dataset_args b o file_id leaf
                              lcpl_id type_id space_id dcpl_id dapl_id dxpl_id)]
                        ++ [Call.H5VLlink_create (parent_link_args b o ty buf size path)]
                        ++ [Call.H5Iinc_ref o.under_vol_id]
                        ++ (req.toList.map fun _ => Call.H5Iinc_ref o.under_vol_id))))) := by
  obtain ⟨pn, calls1, hpar, hcases⟩ := create_trace hrun
  refine ⟨pn, calls1, hpar, ?_⟩
  have h1 := parent_name_calls b o ty pn calls1 hpar
  have hno1 : ∀ c, (∀ g s, c ≠ Call.H5VLfile_get_name o.under_object o.under_vol_id ty g s) →
      c ∉ calls1 := by
    intro c hc hm
    obtain ⟨g, s, e⟩ := h1 c hm
    exact hc g s e
  rcases hcases with ⟨hnull, rfl⟩ | ⟨dn, fn, file_id, calls2, hfn, hfc, hrest⟩
  · exact Or.inl ⟨hnull, rfl, rfl, fun _ _ _ _ => hno1 _ (by simp),
      fun _ _ _ => hno1 _ (by simp), fun _ => hno1 _ (by simp), fun _ => hno1 _ (by simp)⟩
  · right
    obtain ⟨_, _, leaf, _, _, _, hleaf, _⟩ := file_name_phase_inv hfn
    obtain ⟨_, haw, hdc, hlc, _⟩ := early_calls_hold_no_later_step hpar hfc
    refine ⟨dn, fn, leaf, file_id, calls2, hfn, hleaf, hfc, ?_⟩
    rcases hrest with ⟨hneg, rfl⟩ | ⟨hid, hst, rfl⟩ | ⟨leaf', hid, hst, hleaf', hrest⟩
    · exact Or.inl ⟨hneg, rfl, rfl, haw, hdc, hlc⟩
    · refine Or.inr (Or.inl ⟨hid, hst, rfl, rfl, ?_, ?_⟩)
      · intro c hm
        simp only [List.append_assoc, List.mem_append] at hm
        rcases hm with hm | hm | hm | hm
        · exact hdc c (List.mem_append_left _ hm)
        · exact hdc c (List.mem_append_right _ hm)
        · simp at hm
        · simp [create_attribute_calls] at hm
      · intro l hm
        simp only [List.append_assoc, List.mem_append] at hm
        rcases hm with hm | hm | hm | hm
        · exact hlc l (List.mem_append_left _ hm)
        · exact hlc l (List.mem_append_right _ hm)
        · simp at hm
        · simp [create_attribute_calls] at hm
    · rw [hleaf] at hleaf'
      have e : leaf' = leaf := (Option.some.inj hleaf').symm
      subst e
      rcases hrest with ⟨hnone, rfl⟩ | ⟨du, buf, size, path, hdu, henc, hpath, hrest⟩
      · refine Or.inr (Or.inr (Or.inl ⟨hid, hst, hnone, rfl, rfl, ?_⟩))
        intro l hm
        simp only [List.append_assoc, List.mem_append] at hm
        rcases hm with hm | hm | hm | hm | hm
        · exact hlc l (List.mem_append_left _ hm)
        · exact hlc l (List.mem_append_right _ hm)
        · simp at hm
        · simp [create_attribute_calls] at hm
        · simp at hm
      · refine Or.inr (Or.inr (Or.inr ⟨du, buf, size, path, hid, hst, hdu, henc, hpath, ?_⟩))
        rcases hrest with ⟨hneg, rfl⟩ | ⟨hok, rfl⟩
        · exact Or.inl ⟨hneg, rfl, rfl⟩
        · exact Or.inr ⟨hok, by simp, rfl⟩

theorem create_steps_in_order_first_failure_aborts_witness :
    H5VL_dset_split_dataset_create sample_backend_dataset_fails sample_loc H5I_FILE
        (cstr (ascii "/Data1/Compressed_Data")) 1 2 3 4 5 6 none
      = some sample_run_dataset_fails
    ∧ ∃ pn calls1,
        dataset_create_parent_name sample_backend_dataset_fails sample_loc H5I_FILE
          = some (pn, calls1) :=
  ⟨by decide,
    (create_steps_in_order_first_failure_aborts sample_backend_dataset_fails sample_loc H5I_FILE
      (cstr (ascii "/Data1/Compressed_Data")) 1 2 3 4 5 6 none sample_run_dataset_fails
      (by decide)).imp fun _ hpn => hpn.imp fun _ hc => hc.1⟩

/-- C24 (the claim fails): a create in which the creation of the dataset
fails after the child container was created (identifier 50) returns NULL,
and its trace holds close operations: the four `H5Pclose` of
`dset_split_file_create` and the `H5Sclose` and `H5Aclose` of
`dset_split_create_attribute`. -/
theorem failed_create_issues_close_calls :
    H5VL_dset_split_dataset_create sample_backend_dataset_fails sample_loc H5I_FILE
        (cstr (ascii "/Data1/Compressed_Data")) 1 2 3 4 5 6 none
      = some sample_run_dataset_fails
    ∧ sample_run_dataset_fails.ret = none
    ∧ Call.H5Fcreate (sample_child_name 1700000000) H5F_ACC_TRUNC 111 112
        ∈ sample_run_dataset_fails.calls
    ∧ 0 ≤ sample_backend_dataset_fails.H5Fcreate (sample_child_name 1700000000) H5F_ACC_TRUNC
        111 112
    ∧ Call.H5Pclose 112 ∈ sample_run_dataset_fails.calls
    ∧ Call.H5Pclose 12 ∈ sample_run_dataset_fails.calls
    ∧ Call.H5Pclose 111 ∈ sample_run_dataset_fails.calls
    ∧ Call.H5Pclose 11 ∈ sample_run_dataset_fails.calls
    ∧ Call.H5Sclose 61 ∈ sample_run_dataset_fails.calls
    ∧ Call.H5Aclose 62 ∈ sample_run_dataset_fails.calls := by
  decide

/-- C24 (as the code behaves): a create that returns NULL after it created
the child container made the calls of the name queries, the ten calls of
`dset_split_file_create`, `H5VLobject`, the six calls of
`dset_split_create_attribute`, and then nothing, or the creation of the
dataset, or the creation of the dataset and of the link.  It calls no
`H5Fclose`, no dataset close and no `H5Idec_ref`; the close operations it
makes are the four `H5Pclose` on the property lists and the `H5Sclose` and
`H5Aclose` on the dataspace and the handle of the attribute. -/
theorem failed_create_leaves_child_open (b : Backend) (o : H5VL_dset_split_t)
    (ty : Int) (name : List Nat) (lcpl_id type_id space_id dcpl_id dapl_id dxpl_id : Int)
    (req : Option Nat) (r : CreateResult) (text : List Nat) (flags : Nat) (fcpl fapl : Int)
    (hrun : H5VL_dset_split_dataset_create b o ty name lcpl_id type_id space_id dcpl_id dapl_id
      dxpl_id req = some r)
    (hret : r.ret = none)
    (hfile : Call.H5Fcreate text flags fcpl fapl ∈ r.calls)
    (hok : 0 ≤ b.H5Fcreate text flags fcpl fapl) :
    (∀ f, Call.H5Fclose f ∉ r.calls)
    ∧ (∀ d v, Call.H5VLdataset_close d v ∉ r.calls)
    ∧ (∀ i, Call.H5Idec_ref i ∉ r.calls)
    ∧ ∃ calls1 vf tail,
        (∀ c ∈ calls1, ∃ given size,
          c = Call.H5VLfile_get_name o.under_object o.under_vol_id ty given size)
        ∧ flags = H5F_ACC_TRUNC
        ∧ fcpl = b.H5Pcopy (get_parent_file_fcpl b vf o.under_vol_id).1
        ∧ fapl = b.H5Pcopy (get_parent_file_fapl b vf o.under_vol_id).1
        ∧ r.calls = calls1
            ++ [Call.H5VLobject_get_file o.under_object LocType.H5VL_OBJECT_BY_SELF ty
                  o.under_vol_id,
                Call.H5VLfile_get_fcpl vf o.under_vol_id,
                Call.H5Pcopy (get_parent_file_fcpl b vf o.under_vol_id).1,
                Call.H5VLfile_get_fapl vf o.under_vol_id,
                Call.H5Pcopy (get_parent_file_fapl b vf o.under_vol_id).1,
                Call.H5Fcreate text H5F_ACC_TRUNC fcpl fapl,
                Call.H5Pclose fapl,
                Call.H5Pclose (get_parent_file_fapl b vf o.under_vol_id).1,
                Call.H5Pclose fcpl,
                Call.H5Pclose (get_parent_file_fcpl b vf o.under_vol_id).1,
                Call.H5VLobject (b.H5Fcreate text H5F_ACC_TRUNC fcpl fapl)]
            ++ (dset_split_create_attribute b (b.H5Fcreate text H5F_ACC_TRUNC fcpl fapl)).2
            ++ tail
        ∧ (tail = []
          ∨ (∃ c, tail = [Call.H5VLdataset_create c])
          ∨ (∃ c l, tail = [Call.H5VLdataset_create c, Call.H5VLlink_create l])) := by
  obtain ⟨pn, calls1, hpar, hcases⟩ := create_trace hrun
  have h1 := parent_name_calls b o ty pn calls1 hpar
  have hno1 : ∀ c, (∀ g s, c ≠ Call.H5VLfile_get_name o.under_object o.under_vol_id ty g s) →
      c ∉ calls1 := by
    intro c hc hm
    obtain ⟨g, s, e⟩ := h1 c hm
    exact hc g s e
  rcases hcases with ⟨_, rfl⟩ | ⟨dn, fn, file_id, calls2, hfn, hfc, hrest⟩
  · exact absurd hfile (hno1 _ (by simp))
  · obtain ⟨_, _, _, _, hfcl, hdcl, _, hdec, hcreate⟩ := early_calls_hold_no_later_step hpar hfc
    have key : ∀ tail : List Call, 0 ≤ file_id →
        r.calls = calls1 ++ calls2 ++ [Call.H5VLobject file_id]
          ++ (dset_split_create_attribute b file_id).2 ++ tail →
        (tail = [] ∨ (∃ c, tail = [Call.H5VLdataset_create c])
          ∨ (∃ c l, tail = [Call.H5VLdataset_create c, Call.H5VLlink_create l])) →
        (∀ f, Call.H5Fclose f ∉ r.calls)
        ∧ (∀ d v, Call.H5VLdataset_close d v ∉ r.calls)
        ∧ (∀ i, Call.H5Idec_ref i ∉ r.calls)
        ∧ ∃ calls1 vf tail,
            (∀ c ∈ calls1, ∃ given size,
              c = Call.H5VLfile_get_name o.under_object o.under_vol_id ty given size)
            ∧ flags = H5F_ACC_TRUNC
            ∧ fcpl = b.H5Pcopy (get_parent_file_fcpl b vf o.under_vol_id).1
            ∧ fapl = b.H5Pcopy (get_parent_file_fapl b vf o.under_vol_id).1
            ∧ r.calls = calls1
                ++ [Call.H5VLobject_get_file o.under_object LocType.H5VL_OBJECT_BY_SELF ty
                      o.under_vol_id,
                    Call.H5VLfile_get_fcpl vf o.under_vol_id,
                    Call.H5Pcopy (get_parent_file_fcpl b vf o.under_vol_id).1,
                    Call.H5VLfile_get_fapl vf o.under_vol_id,
                    Call.H5Pcopy (get_parent_file_fapl b vf o.under_vol_id).1,
                    Call.H5Fcreate text H5F_ACC_TRUNC fcpl fapl,
                    Call.H5Pclose fapl,
                    Call.H5Pclose (get_parent_file_fapl b vf o.under_vol_id).1,
                    Call.H5Pclose fcpl,
                    Call.H5Pclose (get_parent_file_fcpl b vf o.under_vol_id).1,
                    Call.H5VLobject (b.H5Fcreate text H5F_ACC_TRUNC fcpl fapl)]
                ++ (dset_split_create_attribute b (b.H5Fcreate text H5F_ACC_TRUNC fcpl fapl)).2
                ++ tail
            ∧ (tail = []
              ∨ (∃ c, tail = [Call.H5VLdataset_create c])
              ∨ (∃ c l, tail = [Call.H5VLdataset_create c, Call.H5VLlink_create l])) := by
      intro tail hid hcalls htail
      obtain ⟨vf, text', _, _, hfid, hc2⟩ := file_create_ok hfc hid
      have htail' : (∀ f, Call.H5Fclose f ∉ tail) ∧ (∀ d v, Call.H5VLdataset_close d v ∉ tail)
          ∧ (∀ i, Call.H5Idec_ref i ∉ tail)
          ∧ (∀ t f p q, Call.H5Fcreate t f p q ∉ tail) := by
        rcases htail with rfl | ⟨c, rfl⟩ | ⟨c, l, rfl⟩ <;> simp
      have hmem : Call.H5Fcreate text flags fcpl fapl ∈ calls2 := by
        rw [hcalls] at hfile
        simp only [List.append_assoc, List.mem_append] at hfile
        rcases hfile with hm | hm | hm | hm | hm
        · exact absurd hm (hno1 _ (by simp))
        · exact hm
        · simp at hm
        · simp [create_attribute_calls] at hm
        · exact absurd hm (htail'.2.2.2 _ _ _ _)
      rw [hc2] at hmem
      simp at hmem
      obtain ⟨rfl, rfl, rfl, rfl⟩ := hmem
      refine ⟨?_, ?_, ?_, calls1, vf, tail, h1, rfl, rfl, rfl, ?_, htail⟩
      · intro f hm
        rw [hcalls] at hm
        simp only [List.append_assoc, List.mem_append] at hm
        rcases hm with hm | hm | hm | hm | hm
        · exact hfcl f (List.mem_append_left _ hm)
        · exact hfcl f (List.mem_append_right _ hm)
        · simp at hm
        · simp [create_attribute_calls] at hm
        · exact htail'.1 f hm
      · intro d v hm
        rw [hcalls] at hm
        simp only [List.append_assoc, List.mem_append] at hm
        rcases hm with hm | hm | hm | hm | hm
        · exact hdcl d v (List.mem_append_left _ hm)
        · exact hdcl d v (List.mem_append_right _ hm)
        · simp at hm
        · simp [create_attribute_calls] at hm
        · exact htail'.2.1 d v hm
      · intro i hm
        rw [hcalls] at hm
        simp only [List.append_assoc, List.mem_append] at hm
        rcases hm with hm | hm | hm | hm | hm
        · exact hdec i (List.mem_append_left _ hm)
        · exact hdec i (List.mem_append_right _ hm)
        · simp at hm
        · simp [create_attribute_calls] at hm
        · exact htail'.2.2.1 i hm
      · rw [hcalls, hc2, ← hfid]
        simp
    rcases hrest with ⟨hneg, rfl⟩ | ⟨hid, hst, rfl⟩ | ⟨leaf, hid, hst, hleaf, hrest⟩
    · exact absurd hok (not_le.2 (hcreate hneg _ _ _ _ hfile))
    · exact key [] hid (by simp) (Or.inl rfl)
    · rcases hrest with ⟨hnone, rfl⟩ | ⟨du, buf, size, path, hdu, henc, hpath, hrest⟩
      · exact key _ hid rfl (Or.inr (Or.inl ⟨_, rfl⟩))
      · rcases hrest with ⟨hneg, rfl⟩ | ⟨hok', rfl⟩
        · exact key [Call.H5VLdataset_create (child_dataset_args b o file_id leaf lcpl_id
              type_id space_id dcpl_id dapl_id dxpl_id),
            Call.H5VLlink_create (parent_link_args b o ty buf size path)] hid
            (by simp only [List.append_assoc, List.singleton_append])
            (Or.inr (Or.inr ⟨_, _, rfl⟩))
        · simp at hret

theorem failed_create_leaves_child_open_witness :
    H5VL_dset_split_dataset_create sample_backend_dataset_fails sample_loc H5I_FILE
        (cstr (ascii "/Data1/Compressed_Data")) 1 2 3 4 5 6 none
      = some sample_run_dataset_fails
    ∧ (∀ f, Call.H5Fclose f ∉ sample_run_dataset_fails.calls)
    ∧ (∀ d v, Call.H5VLdataset_close d v ∉ sample_run_dataset_fails.calls)
    ∧ (∀ i, Call.H5Idec_ref i ∉ sample_run_dataset_fails.calls) :=
  ⟨by decide,
    (failed_create_leaves_child_open sample_backend_dataset_fails sample_loc H5I_FILE
      (cstr (ascii "/Data1/Compressed_Data")) 1 2 3 4 5 6 none sample_run_dataset_fails
      (sample_child_name 1700000000) H5F_ACC_TRUNC 111 112
      (by decide) rfl (by decide) (by decide)).1,
    (failed_create_leaves_child_open sample_backend_dataset_fails sample_loc H5I_FILE
      (cstr (ascii "/Data1/Compressed_Data")) 1 2 3 4 5 6 none sample_run_dataset_fails
      (sample_child_name 1700000000) H5F_ACC_TRUNC 111 112
      (by decide) rfl (by decide) (by decide)).2.1,
    (failed_create_leaves_child_open sample_backend_dataset_fails sample_loc H5I_FILE
      (cstr (ascii "/Data1/Compressed_Data")) 1 2 3 4 5 6 none sample_run_dataset_fails
      (sample_child_name 1700000000) H5F_ACC_TRUNC 111 112
      (by decide) rfl (by decide) (by decide)).2.2.1⟩

/-- C25: for a name that is a C string, `dset_split_file_create` returns.
When the file that holds the caller's object cannot be resolved it returns
`H5I_INVALID_HID`, which is negative.  Otherwise it queries the creation
and the access property list of that file, copies each, calls `H5Fcreate`
with `H5F_ACC_TRUNC` and the two copies, closes the two copies and the two
originals whatever `H5Fcreate` returned, and returns the identifier that
`H5Fcreate` returned. -/
theorem file_create_copies_and_closes_lists (b : Backend) (name text : List Nat) (obj : Nat)
    (obj_type cid : Int) (hname : cstring name = some text) :
    (b.object_file obj = none →
      dset_split_file_create b name obj obj_type cid
        = some (H5I_INVALID_HID,
            [Call.H5VLobject_get_file obj LocType.H5VL_OBJECT_BY_SELF obj_type cid])
      ∧ H5I_INVALID_HID < 0)
    ∧ (∀ vf, b.object_file obj = some vf →
        dset_split_file_create b name obj obj_type cid
          = some (b.H5Fcreate text H5F_ACC_TRUNC
                    (b.H5Pcopy (get_parent_file_fcpl b vf cid).1)
                    (b.H5Pcopy (get_parent_file_fapl b vf cid).1),
              [Call.H5VLobject_get_file obj LocType.H5VL_OBJECT_BY_SELF obj_type cid,
               Call.H5VLfile_get_fcpl vf cid,
               Call.H5Pcopy (get_parent_file_fcpl b vf cid).1,
               Call.H5VLfile_get_fapl vf cid,
               Call.H5Pcopy (get_parent_file_fapl b vf cid).1,
               Call.H5Fcreate text H5F_ACC_TRUNC
                 (b.H5Pcopy (get_parent_file_fcpl b vf cid).1)
                 (b.H5Pcopy (get_parent_file_fapl b vf cid).1),
               Call.H5Pclose (b.H5Pcopy (get_parent_file_fapl b vf cid).1),
               Call.H5Pclose (get_parent_file_fapl b vf cid).1,
               Call.H5Pclose (b.H5Pcopy (get_parent_file_fcpl b vf cid).1),
               Call.H5Pclose (get_parent_file_fcpl b vf cid).1]))
    ∧ (∀ vf p, b.file_fcpl vf = some p → (get_parent_file_fcpl b vf cid).1 = p)
    ∧ (∀ vf p, b.file_fapl vf = some p → (get_parent_file_fapl b vf cid).1 = p) := by
  refine ⟨?_, ?_, ?_, ?_⟩
  · intro hv
    refine ⟨?_, by decide⟩
    unfold dset_split_file_create
    simp only [hv]
  · intro vf hv
    unfold dset_split_file_create
    simp only [hv, hname]
    rw [get_parent_file_fcpl_calls, get_parent_file_fapl_calls]
    rfl
  · intro vf p hp
    simp [get_parent_file_fcpl, hp]
  · intro vf p hp
    simp [get_parent_file_fapl, hp]

theorem file_create_copies_and_closes_lists_witness :
    cstring (cstr (ascii "master-B-17.split")) = some (ascii "master-B-17.split")
    ∧ ((sample_backend none 0).object_file 4 = some 7 →
        dset_split_file_create (sample_backend none 0) (cstr (ascii "master-B-17.split")) 4
            H5I_GROUP 3
          = some (50,
              [Call.H5VLobject_get_file 4 LocType.H5VL_OBJECT_BY_SELF H5I_GROUP 3,
               Call.H5VLfile_get_fcpl 7 3, Call.H5Pcopy 11,
               Call.H5VLfile_get_fapl 7 3, Call.H5Pcopy 12,
               Call.H5Fcreate (ascii "master-B-17.split") H5F_ACC_TRUNC 111 112,
               Call.H5Pclose 112, Call.H5Pclose 12, Call.H5Pclose 111, Call.H5Pclose 11])) :=
  ⟨by decide,
    (file_create_copies_and_closes_lists (sample_backend none 0)
      (cstr (ascii "master-B-17.split")) (ascii "master-B-17.split") 4 H5I_GROUP 3
      (by decide)).2.1 7⟩

/-! ## The reference count of the underlying connector -/

theorem ref_count_append (id : Int) (xs ys : List Call) :
    ref_count id (xs ++ ys) = ref_count id xs + ref_count id ys := by
  simp [ref_count]

theorem live_count_append (id : Int) (xs ys : List H5VL_dset_split_t) :
    live_count id (xs ++ ys) = live_count id xs + live_count id ys := by
  simp [live_count]

/-- Taking the object at position `k` out of the live ones takes one from
the number of live objects that hold its identifier, and nothing from the
others. -/
theorem live_count_eraseIdx (id : Int) (live : List H5VL_dset_split_t) (k : Nat)
    (obj : H5VL_dset_split_t) (h : live.get? k = some obj) :
    (live_count id (live.eraseIdx k) : Int)
      = live_count id live - (if obj.under_vol_id = id then 1 else 0) := by
  induction live generalizing k with
  | nil => simp at h
  | cons x rest ih =>
    cases k with
    | zero =>
      simp only [List.get?_cons_zero, Option.some.injEq] at h
      subst h
      by_cases hx : x.under_vol_id = id
      · simp [live_count, hx]
      · simp [live_count, hx]
    | succ k =>
      simp only [List.get?_cons_succ] at h
      have ih' := ih k h
      simp only [live_count] at ih'
      by_cases hx : x.under_vol_id = id
      · simp only [live_count, List.eraseIdx_cons_succ, List.filter_cons, hx, decide_True,
          if_true, List.length_cons, Nat.cast_add, Nat.cast_one]
        rw [ih']
        ring
      · simp only [live_count, List.eraseIdx_cons_succ, List.filter_cons, hx, decide_False]
        exact ih'

/-- One construction or release keeps the reference count of every
identifier level with the number of live objects that hold it. -/
theorem handle_step_balance (id : Int) (s s' : Handles) (op : HandleOp)
    (h : handle_step s op = some s')
    (hs : ref_count id s.calls = live_count id s.live) :
    ref_count id s'.calls = live_count id s'.live := by
  cases op with
  | new_obj u v =>
    simp only [handle_step, Option.some.injEq] at h
    subst h
    simp only [ref_count_append, live_count_append, hs, Nat.cast_add]
    by_cases hv : v = id
    · simp [ref_count, ref_change, live_count, H5VL_dset_split_new_obj, hv]
    · simp [ref_count, ref_change, live_count, H5VL_dset_split_new_obj, hv]
  | new_dataset_obj u v f t =>
    simp only [handle_step, Option.some.injEq] at h
    subst h
    simp only [ref_count_append, live_count_append, hs, Nat.cast_add]
    by_cases hv : v = id
    · simp [ref_count, ref_change, live_count, H5VL_dset_split_new_dataset_obj, hv]
    · simp [ref_count, ref_change, live_count, H5VL_dset_split_new_dataset_obj, hv]
  | free_obj k =>
    simp only [handle_step] at h
    cases hk : s.live.get? k with
    | none =>
      rw [List.get?_eq_getElem?] at hk
      simp [hk] at h
    | some obj =>
      have hk' := hk
      rw [List.get?_eq_getElem?] at hk'
      simp [hk'] at h
      subst h
      simp only [ref_count_append, hs, live_count_eraseIdx id s.live k obj hk]
      by_cases hv : obj.under_vol_id = id
      · simp [ref_count, ref_change, H5VL_dset_split_free_obj, hv]
        ring
      · simp [ref_count, ref_change, H5VL_dset_split_free_obj, hv]

theorem handle_run_balance (id : Int) (ops : List HandleOp) (s s' : Handles)
    (h : handle_run s ops = some s')
    (hs : ref_count id s.calls = live_count id s.live) :
    ref_count id s'.calls = live_count id s'.live := by
  induction ops generalizing s with
  | nil =>
    simp only [handle_run, Option.some.injEq] at h
    subst h
    exact hs
  | cons op ops ih =>
    simp only [handle_run] at h
    cases hst : handle_step s op with
    | none => simp [hst] at h
    | some s1 =>
      simp only [hst] at h
      exact ih s1 h (handle_step_balance id s s1 op hst hs)

/-- A sequence that runs also runs up to each of its points. -/
theorem handle_run_take (ops : List HandleOp) (s s' : Handles) (k : Nat)
    (h : handle_run s ops = some s') :
    ∃ s'', handle_run s (ops.take k) = some s'' := by
  induction ops generalizing s k with
  | nil => exact ⟨s, by simp [handle_run]⟩
  | cons op ops ih =>
    cases k with
    | zero => exact ⟨s, by simp [handle_run]⟩
    | succ k =>
      simp only [handle_run] at h
      cases hst : handle_step s op with
      | none => simp [hst] at h
      | some s1 =>
        simp only [hst] at h
        obtain ⟨s'', hs''⟩ := ih s1 k h
        exact ⟨s'', by simp [handle_run, hst, hs'']⟩

/-- The wrapper is released by `H5VL_dset_split_attr_close` exactly when the
attribute close of the underlying connector succeeded, and the status of
that close is returned. -/
theorem attr_close_released (b : Backend) (o : H5VL_dset_split_t) (dxpl_id : Int)
    (req : Option Nat) :
    (H5VL_dset_split_attr_close b o dxpl_id req).ret
      = b.H5VLattr_close o.under_object o.under_vol_id dxpl_id
    ∧ ((H5VL_dset_split_attr_close b o dxpl_id req).released = true
        ↔ 0 ≤ b.H5VLattr_close o.under_object o.under_vol_id dxpl_id)
    ∧ ref_count o.under_vol_id (H5VL_dset_split_attr_close b o dxpl_id req).calls
        = (req.toList.length : Int)
          - (if (H5VL_dset_split_attr_close b o dxpl_id req).released then 1 else 0) := by
  unfold H5VL_dset_split_attr_close
  by_cases hr : b.H5VLattr_close o.under_object o.under_vol_id dxpl_id ≥ 0
  · cases req <;>
      simp [hr, ref_count, ref_change, H5VL_dset_split_free_obj, H5VL_dset_split_new_obj]
  · cases req <;>
      simp [hr, ref_count, ref_change, H5VL_dset_split_free_obj, H5VL_dset_split_new_obj]

/-- The wrapper is released by `H5VL_dset_split_file_close` exactly when the
file close of the underlying connector succeeded, and the status of that
close is returned. -/
theorem file_close_released (b : Backend) (o : H5VL_dset_split_t) (dxpl_id : Int)
    (req : Option Nat) :
    (H5VL_dset_split_file_close b o dxpl_id req).ret
      = b.H5VLfile_close o.under_object o.under_vol_id dxpl_id
    ∧ ((H5VL_dset_split_file_close b o dxpl_id req).released = true
        ↔ 0 ≤ b.H5VLfile_close o.under_object o.under_vol_id dxpl_id)
    ∧ ref_count o.under_vol_id (H5VL_dset_split_file_close b o dxpl_id req).calls
        = (req.toList.length : Int)
          - (if (H5VL_dset_split_file_close b o dxpl_id req).released then 1 else 0) := by
  unfold H5VL_dset_split_file_close
  by_cases hr : b.H5VLfile_close o.under_object o.under_vol_id dxpl_id ≥ 0
  · cases req <;>
      simp [hr, ref_count, ref_change, H5VL_dset_split_free_obj, H5VL_dset_split_new_obj]
  · cases req <;>
      simp [hr, ref_count, ref_change, H5VL_dset_split_free_obj, H5VL_dset_split_new_obj]

/-- The dataset close changes the reference count by the request it wraps,
less one when it releases its wrapper. -/
theorem dataset_close_ref_count (b : Backend) (o : H5VL_dset_split_t) (dxpl_id : Int)
    (req : Option Nat) :
    ref_count o.under_vol_id (H5VL_dset_split_dataset_close b o dxpl_id req).calls
      = (req.toList.length : Int)
        - (if (H5VL_dset_split_dataset_close b o dxpl_id req).released then 1 else 0) := by
  unfold H5VL_dset_split_dataset_close
  by_cases hs : o.set ≠ 0
  · by_cases hr : b.H5Fclose o.fid ≥ 0
    · cases req <;>
        simp [hs, hr, ref_count, ref_change, H5VL_dset_split_free_obj, H5VL_dset_split_new_obj]
    · cases req <;>
        simp [hs, hr, ref_count, ref_change, H5VL_dset_split_free_obj, H5VL_dset_split_new_obj]
  · by_cases hr : b.H5VLdataset_close o.under_object o.under_vol_id dxpl_id ≥ 0
    · cases req <;>
        simp [hs, hr, ref_count, ref_change, H5VL_dset_split_free_obj, H5VL_dset_split_new_obj]
    · cases req <;>
        simp [hs, hr, ref_count, ref_change, H5VL_dset_split_free_obj, H5VL_dset_split_new_obj]

/-- C26 (the balance holds, the last clause fails): each construction adds
one to the reference count of the identifier it holds and each release
takes one; over every sequence of constructions and releases that runs the
count of every identifier equals the number of live objects that hold it,
and is not negative, at the end and at every point before.  The attribute
close and the file close release the wrapper exactly when the close of the
underlying connector succeeded; the dataset close of an object with `set`
releases it although the dataset close of the underlying connector failed
(-1), because `H5Fclose` succeeded. -/
theorem ref_count_balanced_but_failed_close_releases :
    (∀ under vol, ref_count vol (H5VL_dset_split_new_obj under vol).2 = 1)
    ∧ (∀ under vol fid type,
        ref_count vol (H5VL_dset_split_new_dataset_obj under vol fid type).2 = 1)
    ∧ (∀ obj, ref_count obj.under_vol_id (H5VL_dset_split_free_obj obj).2 = -1)
    ∧ (∀ ops s id, handle_run { live := [], calls := [] } ops = some s →
        ∀ k, ∃ sk, handle_run { live := [], calls := [] } (ops.take k) = some sk
          ∧ ref_count id sk.calls = live_count id sk.live
          ∧ 0 ≤ ref_count id sk.calls)
    ∧ (∀ ops s id, handle_run { live := [], calls := [] } ops = some s →
        ref_count id s.calls = live_count id s.live ∧ 0 ≤ ref_count id s.calls)
    ∧ (∀ b o dxpl_id req, (H5VL_dset_split_attr_close b o dxpl_id req).released = true
        ↔ 0 ≤ b.H5VLattr_close o.under_object o.under_vol_id dxpl_id)
    ∧ (∀ b o dxpl_id req, (H5VL_dset_split_file_close b o dxpl_id req).released = true
        ↔ 0 ≤ b.H5VLfile_close o.under_object o.under_vol_id dxpl_id)
    ∧ (sample_backend_close_fails.H5VLdataset_close sample_owner.under_object
          sample_owner.under_vol_id 6 < 0
        ∧ (H5VL_dset_split_dataset_close sample_backend_close_fails sample_owner 6
            (some 77)).released = true
        ∧ ref_count sample_owner.under_vol_id
            (H5VL_dset_split_dataset_close sample_backend_close_fails sample_owner 6
              (some 77)).calls = 0) := by
  refine ⟨?_, ?_, ?_, ?_, ?_, ?_, ?_, ?_⟩
  · intro under vol
    simp [ref_count, ref_change, H5VL_dset_split_new_obj]
  · intro under vol fid type
    simp [ref_count, ref_change, H5VL_dset_split_new_dataset_obj]
  · intro obj
    simp [ref_count, ref_change, H5VL_dset_split_free_obj]
  · intro ops s id h k
    obtain ⟨sk, hsk⟩ := handle_run_take ops _ s k h
    have hb := handle_run_balance id (ops.take k) _ sk hsk (by simp [ref_count, live_count])
    exact ⟨sk, hsk, hb, by rw [hb]; exact Int.natCast_nonneg _⟩
  · intro ops s id h
    have hb := handle_run_balance id ops _ s h (by simp [ref_count, live_count])
    exact ⟨hb, by rw [hb]; exact Int.natCast_nonneg _⟩
  · intro b o dxpl_id req
    exact (attr_close_released b o dxpl_id req).2.1
  · intro b o dxpl_id req
    exact (file_close_released b o dxpl_id req).2.1
  · decide

/-! ## The claims on the leaf and on the child file name -/

/-- C27: for every path, the name `get_dataset_name` returns is not empty
and holds no `/`: it is the last segment of the path.  Hence the text `/`
followed by that name starts with `/` and holds exactly one `/`; and when
the create call has formed its names for that path, the link record it
encodes decodes to that text as its object path. -/
theorem leaf_has_no_separator (p d : List Nat) (h0 : 0 ∉ p)
    (hleaf : leaf_of p = some (some d)) :
    d ≠ [] ∧ 47 ∉ d ∧ LastSegment p d
    ∧ (ascii "/" ++ d).head? = some 47
    ∧ (ascii "/" ++ d).count 47 = 1
    ∧ ∀ pn t dn fn, dataset_create_file_name pn (cstr p) t = some (some (dn, fn)) →
        ∃ text buf size, cstring dn = some d ∧ cstring fn = some text
          ∧ extlink_encode fn dn = some (buf, size)
          ∧ extlink_decode buf size = some (0, 0, text, ascii "/" ++ d) := by
  have hseg : LastSegment p d := by
    rcases leaf_of_spec p h0 with ⟨_, hnone⟩ | ⟨seg, hsome, hls⟩
    · rw [hleaf] at hnone
      cases hnone
    · rw [hleaf] at hsome
      simp only [Option.some.injEq] at hsome
      rw [hsome]
      exact hls
  have hne : d ≠ [] := hseg.1
  have hno : 47 ∉ d := hseg.2.1
  refine ⟨hne, hno, hseg, by simp [ascii_slash], ?_, ?_⟩
  · rw [ascii_slash]
    simp [List.count_cons, List.count_eq_zero_of_not_mem hno]
  · intro pn t dn fn h
    obtain ⟨p', base, d', hp', hleaf', _, hdn, hfn⟩ := file_name_phase_inv h
    rw [cstring_cstr p h0] at hp'
    have ep : p' = p := (Option.some.inj hp').symm
    subst ep
    rw [hleaf] at hleaf'
    have ed : d' = d := by
      simp only [Option.some.injEq] at hleaf'
      exact hleaf'.symm
    subst ed
    refine ⟨_, _, _, hdn, hfn, extlink_encode_strings hfn hdn, ?_⟩
    exact extlink_decode_record _ d' (cstring_eq_some hfn).1 (cstring_eq_some hdn).1

theorem leaf_has_no_separator_witness :
    ascii "Compressed_Data" ≠ [] ∧ 47 ∉ ascii "Compressed_Data"
    ∧ LastSegment (ascii "/Data1/Compressed_Data") (ascii "Compressed_Data")
    ∧ (ascii "/" ++ ascii "Compressed_Data").head? = some 47
    ∧ (ascii "/" ++ ascii "Compressed_Data").count 47 = 1
    ∧ ∀ pn t dn fn,
        dataset_create_file_name pn (cstr (ascii "/Data1/Compressed_Data")) t
          = some (some (dn, fn)) →
        ∃ text buf size, cstring dn = some (ascii "Compressed_Data") ∧ cstring fn = some text
          ∧ extlink_encode fn dn = some (buf, size)
          ∧ extlink_decode buf size = some (0, 0, text, ascii "/" ++ ascii "Compressed_Data") :=
  leaf_has_no_separator (ascii "/Data1/Compressed_Data") (ascii "Compressed_Data")
    (by decide) (by decide)

/-- Two child file names with the same base and the same timestamp are equal
exactly when their leaves are. -/
theorem file_name_eq_iff_leaf (base d1 d2 : List Nat) (t : Int) :
    base ++ ascii "-" ++ d1 ++ ascii "-" ++ decimal t ++ ascii ".split"
        = base ++ ascii "-" ++ d2 ++ ascii "-" ++ decimal t ++ ascii ".split"
      ↔ d1 = d2 := by
  constructor
  · intro h
    simp only [List.append_assoc] at h
    have h1 := List.append_cancel_left (List.append_cancel_left h)
    exact List.append_cancel_right h1
  · intro h
    rw [h]

/-- C28: for a parent base `base`, two paths with leaves `d1` and `d2` and
two timestamps, with names that fit `file_name[1000]`, the create call forms
the child file names `base-d1-t1.split` and `base-d2-t2.split`; with the same
leaf the two names are equal exactly when the timestamps are, and with the
same timestamp they are equal exactly when the leaves are. -/
theorem child_name_injective_in_timestamp_and_leaf (pn base p1 p2 d1 d2 : List Nat)
    (t1 t2 : Int) (h01 : 0 ∉ p1) (h02 : 0 ∉ p2)
    (hbase : cstring pn = some base)
    (hleaf1 : leaf_of p1 = some (some d1)) (hleaf2 : leaf_of p2 = some (some d2))
    (hfit1 : base.length + d1.length + (decimal t1).length + 8 + 1 ≤ 1000)
    (hfit2 : base.length + d2.length + (decimal t2).length + 8 + 1 ≤ 1000) :
    ∃ dn1 fn1 dn2 fn2 f1 f2,
      dataset_create_file_name pn (cstr p1) t1 = some (some (dn1, fn1))
      ∧ dataset_create_file_name pn (cstr p2) t2 = some (some (dn2, fn2))
      ∧ cstring fn1 = some f1 ∧ cstring fn2 = some f2
      ∧ f1 = base ++ ascii "-" ++ d1 ++ ascii "-" ++ decimal t1 ++ ascii ".split"
      ∧ f2 = base ++ ascii "-" ++ d2 ++ ascii "-" ++ decimal t2 ++ ascii ".split"
      ∧ (d1 = d2 → (f1 = f2 ↔ t1 = t2))
      ∧ (t1 = t2 → (f1 = f2 ↔ d1 = d2)) := by
  obtain ⟨dn1, fn1, hrun1, _, hfn1⟩ := file_name_phase t1 h01 hbase hleaf1 hfit1
  obtain ⟨dn2, fn2, hrun2, _, hfn2⟩ := file_name_phase t2 h02 hbase hleaf2 hfit2
  refine ⟨dn1, fn1, dn2, fn2, _, _, hrun1, hrun2, hfn1, hfn2, rfl, rfl, ?_, ?_⟩
  · intro hd
    subst hd
    exact file_name_eq_iff base d1 t1 t2
  · intro ht
    subst ht
    exact file_name_eq_iff_leaf base d1 d2 t1

theorem child_name_injective_in_timestamp_and_leaf_witness :
    ∃ dn1 fn1 dn2 fn2 f1 f2,
      dataset_create_file_name (cstr (ascii "master")) (cstr (ascii "/A/B")) 17
        = some (some (dn1, fn1))
      ∧ dataset_create_file_name (cstr (ascii "master")) (cstr (ascii "/A/C")) 18
        = some (some (dn2, fn2))
      ∧ cstring fn1 = some f1 ∧ cstring fn2 = some f2
      ∧ f1 = ascii "master" ++ ascii "-" ++ ascii "B" ++ ascii "-" ++ decimal 17
          ++ ascii ".split"
      ∧ f2 = ascii "master" ++ ascii "-" ++ ascii "C" ++ ascii "-" ++ decimal 18
          ++ ascii ".split"
      ∧ (ascii "B" = ascii "C" → (f1 = f2 ↔ (17 : Int) = 18))
      ∧ ((17 : Int) = 18 → (f1 = f2 ↔ ascii "B" = ascii "C")) :=
  child_name_injective_in_timestamp_and_leaf (cstr (ascii "master")) (ascii "master")
    (ascii "/A/B") (ascii "/A/C") (ascii "B") (ascii "C") 17 18
    (by decide) (by decide) (by decide) (by decide) (by decide) (by decide) (by decide)

/-! ## The two fixed-size buffers -/

/-- When the child file name and its terminator take more than 1000 bytes,
the `sprintf` of line 1482 writes past the end of `file_name`: nothing checks
the length before it. -/
theorem file_name_phase_overflow {pn base p d : List Nat} (t : Int) (h0 : 0 ∉ p)
    (hbase : cstring pn = some base) (hleaf : leaf_of p = some (some d))
    (hbig : 1000 < base.length + d.length + (decimal t).length + 8 + 1) :
    dataset_create_file_name pn (cstr p) t = none := by
  obtain ⟨off, mem, hg, hd⟩ := leaf_of_some hleaf
  have hname : cstring (cstr p) = some p := cstring_cstr p h0
  have hlen : strlen (cstr p) = some p.length := by simp [strlen, hname]
  have hf := format_file_name t hbase hd
  have hslen : 1000
      < (base ++ ascii "-" ++ d ++ ascii "-" ++ decimal t ++ ascii ".split" ++ [0]).length := by
    have h1 : (ascii "-").length = 1 := by decide
    have h2 : (ascii ".split").length = 6 := by decide
    simp only [List.length_append, h1, h2, List.length_singleton]
    omega
  have hst : store (List.replicate 1000 0) 0
      (base ++ ascii "-" ++ d ++ ascii "-" ++ decimal t ++ ascii ".split" ++ [0]) = none := by
    unfold store
    rw [if_neg]
    rw [List.length_replicate]
    omega
  unfold dataset_create_file_name
  rw [hlen]
  simp only []
  rw [strcpy_calloc hname]
  simp only []
  rw [hg]
  simp only []
  unfold sprintf
  rw [hf]
  simp only []
  rw [hst]

/-- C29 (the claim fails): for every parent base, leaf and timestamp whose
formatted name with its terminator takes more than 1000 bytes, the create
call reaches the `sprintf` into `file_name[1000]` and writes past the end of
the buffer (undefined behaviour, no result in the embedding): it does not
fail with an error before formatting. -/
theorem long_file_name_overflows_buffer (b : Backend) (o : H5VL_dset_split_t) (ty : Int)
    (pn base p d : List Nat) (calls : List Call)
    (lcpl_id type_id space_id dcpl_id dapl_id dxpl_id : Int) (req : Option Nat)
    (hpar : dataset_create_parent_name b o ty = some (pn, calls))
    (hbase : cstring pn = some base) (h0 : 0 ∉ p)
    (hleaf : leaf_of p = some (some d))
    (hbig : 1000 < base.length + d.length + (decimal b.time).length + 8 + 1) :
    format_expand (ascii "%s-%s-%ld%s")
        [FmtArg.str pn, FmtArg.str (cstr d), FmtArg.long b.time,
         FmtArg.str (cstr FILE_EXTENTION)]
      = some (base ++ ascii "-" ++ d ++ ascii "-" ++ decimal b.time ++ ascii ".split")
    ∧ sprintf (List.replicate 1000 0) (ascii "%s-%s-%ld%s")
        [FmtArg.str pn, FmtArg.str (cstr d), FmtArg.long b.time,
         FmtArg.str (cstr FILE_EXTENTION)] = none
    ∧ dataset_create_file_name pn (cstr p) b.time = none
    ∧ H5VL_dset_split_dataset_create b o ty (cstr p) lcpl_id type_id space_id dcpl_id dapl_id
        dxpl_id req = none := by
  obtain ⟨off, mem, _, hd⟩ := leaf_of_some hleaf
  have hd0 := (cstring_eq_some hd).1
  have hf := format_file_name b.time hbase (cstring_cstr d hd0)
  have hphase := file_name_phase_overflow b.time h0 hbase hleaf hbig
  refine ⟨hf, ?_, hphase, ?_⟩
  · unfold sprintf
    rw [hf]
    simp only []
    unfold store
    rw [if_neg]
    have h1 : (ascii "-").length = 1 := by decide
    have h2 : (ascii ".split").length = 6 := by decide
    simp only [List.length_append, h1, h2, List.length_singleton, List.length_replicate]
    omega
  · unfold H5VL_dset_split_dataset_create
    rw [hpar]
    simp only []
    rw [hphase]

theorem long_file_name_overflows_buffer_witness :
    format_expand (ascii "%s-%s-%ld%s")
        [FmtArg.str ((cstr (ascii "master.h5")).set 6 0), FmtArg.str (cstr sample_long_path),
         FmtArg.long (sample_backend (some (ascii "master.h5")) 1700000000).time,
         FmtArg.str (cstr FILE_EXTENTION)]
      = some (ascii "master" ++ ascii "-" ++ sample_long_path ++ ascii "-"
          ++ decimal (sample_backend (some (ascii "master.h5")) 1700000000).time
          ++ ascii ".split")
    ∧ sprintf (List.replicate 1000 0) (ascii "%s-%s-%ld%s")
        [FmtArg.str ((cstr (ascii "master.h5")).set 6 0), FmtArg.str (cstr sample_long_path),
         FmtArg.long (sample_backend (some (ascii "master.h5")) 1700000000).time,
         FmtArg.str (cstr FILE_EXTENTION)] = none
    ∧ dataset_create_file_name ((cstr (ascii "master.h5")).set 6 0) (cstr sample_long_path)
        (sample_backend (some (ascii "master.h5")) 1700000000).time = none
    ∧ H5VL_dset_split_dataset_create (sample_backend (some (ascii "master.h5")) 1700000000)
        sample_loc H5I_FILE (cstr sample_long_path) 1 2 3 4 5 6 none = none :=
  long_file_name_overflows_buffer (sample_backend (some (ascii "master.h5")) 1700000000)
    sample_loc H5I_FILE ((cstr (ascii "master.h5")).set 6 0) (ascii "master")
    sample_long_path sample_long_path
    [Call.H5VLfile_get_name 4 3 H5I_FILE false 0, Call.H5VLfile_get_name 4 3 H5I_FILE true 10]
    1 2 3 4 5 6 none (by decide) (by decide)
    (fun h => absurd (List.eq_of_mem_replicate h) (by decide))
    (leaf_of_lastSegment (fun h => absurd (List.eq_of_mem_replicate h) (by decide))
      ⟨fun h => absurd (congrArg List.length h)
          (by simp only [sample_long_path, List.length_replicate, List.length_nil]; decide),
        fun h => absurd (List.eq_of_mem_replicate h) (by decide), [], [],
        (List.append_nil _).symm, fun _ h => absurd h (List.not_mem_nil _), Or.inl rfl⟩)
    (by simp only [sample_long_path, List.length_replicate]; omega)

/-- C30 (the claim fails): when the value query fails, `under_value` keeps
-1 and `%u` prints 4294967295; with no info string the text is
`under_vol=4294967295;under_info=` followed by an empty pair of braces, 34
bytes and a terminator, and the buffer has 32 bytes: the `sprintf` writes
past its end.  A value of 8 digits overflows too, a value of 7 digits fills
the buffer exactly. -/
theorem info_to_str_overflows_buffer :
    sample_backend_no_value.H5VLget_value sample_info.under_vol_id = none
    ∧ format_expand (ascii "under_vol=%u;under_info=\x7b%s\x7d")
        [FmtArg.uint (((-1 : Int) % 2 ^ 32).toNat), FmtArg.str (cstr [])]
      = some (ascii "under_vol=4294967295;under_info=\x7b\x7d")
    ∧ (ascii "under_vol=4294967295;under_info=\x7b\x7d").length + 1 = 35
    ∧ H5VL_dset_split_info_to_str sample_backend_no_value sample_info = none
    ∧ H5VL_dset_split_info_to_str
        { sample_backend none 0 with
          H5VLget_value := fun _ => some 10000000
          H5VLconnector_info_to_str := fun _ _ => some (cstr (ascii "x")) }
        sample_info = none
    ∧ H5VL_dset_split_info_to_str
        { sample_backend none 0 with
          H5VLget_value := fun _ => some 9999999
          H5VLconnector_info_to_str := fun _ _ => some (cstr (ascii "x")) }
        sample_info
      = some (0, cstr (ascii "under_vol=9999999;under_info=\x7bx\x7d"),
          [Call.H5VLget_value 3, Call.H5VLconnector_info_to_str 0 3]) := by
  decide
end DsetSplit
